import Mathlib

/-!
Verification development for the GNSS gap-filling and synthetic augmentation
engine. The TypeScript sources are embedded shallowly in Lean:

* JavaScript numbers are modelled as real numbers (exact arithmetic; the
  transcendental library functions Math.sqrt, Math.log, Math.sin, Math.cos,
  Math.exp become Real.sqrt, Real.log, Real.sin, Real.cos, Real.exp).
* ISO-8601 timestamp strings are modelled by their millisecond epoch value
  (JavaScript converts between the two losslessly through Date).
* The mutable generator instance state (the linear-congruential PRNG state
  plus the three cumulative drift accumulators) is threaded explicitly as a
  GenState value; every method that consumes randomness or drift state takes
  a GenState and returns the updated one.
* A JavaScript TypeError (property access on undefined) is modelled by
  Except Unit: Except.error () marks the thrown exception.
-/

noncomputable section

open Classical Real

/-- One GNSS observation, mirroring the GnssModel interface. The dateTime
string is modelled by its epoch-millisecond value. Optional numeric fields
are total here; the JavaScript reads are of the form x || 0, which is the
identity on every number except 0 (where it is also 0). -/
structure GnssModel where
  dateTime : ℝ
  E : ℝ
  N : ℝ
  H : ℝ
  latitude : ℝ := 0
  longitude : ℝ := 0
  height : ℝ := 0
  angle : ℝ := 0
  axis : ℝ := 0
  plate : ℝ := 0
  moveE : ℝ := 0
  moveN : ℝ := 0
  moveH : ℝ := 0
  moveTotal : ℝ := 0
  dayE : ℝ := 0
  dayN : ℝ := 0
  dayH : ℝ := 0

instance : Inhabited GnssModel := ⟨{ dateTime := 0, E := 0, N := 0, H := 0 }⟩

/-- Per-axis standard deviations, mirroring the DataStats interface. -/
structure DataStats where
  eStdDev : ℝ
  nStdDev : ℝ
  hStdDev : ℝ

/-- Per-axis conservative variances, mirroring the ConservativeStats interface. -/
structure ConservativeStats where
  eVariance : ℝ
  nVariance : ℝ
  hVariance : ℝ

/-- Solution type of a monitoring station, the string union
static | kinematic in the source. -/
inductive SolutionType where
  | static
  | kinematic
deriving DecidableEq

/-- Environment tier of a station (string union in the source). -/
inductive Environment where
  | urban
  | rural
  | coastal
  | mountain
  | forest
deriving DecidableEq

/-- Multipath tier of a station. -/
inductive Multipath where
  | low
  | medium
  | high
deriving DecidableEq

/-- Atmospheric variability tier. The middle source value is the string
variable, renamed variableLevel because variable is a Lean keyword. -/
inductive Atmospheric where
  | stable
  | variableLevel
  | extreme
deriving DecidableEq

/-- Installation quality tier of the station equipment. -/
inductive InstallationQuality where
  | excellent
  | good
  | fair
deriving DecidableEq

/-- Geographic location of a station. -/
structure Location where
  latitude : ℝ
  longitude : ℝ
  altitude : ℝ

/-- Station characteristics, mirroring the StationCharacteristics interface.
The stationId, antennaType and receiverModel strings are never read by any
computation in the core and are omitted from the embedding. -/
structure StationCharacteristics where
  location : Location
  environment : Environment
  multipath : Multipath
  atmospheric : Atmospheric
  installationQuality : InstallationQuality

/-- Weather conditions, mirroring the WeatherConditions interface. -/
structure WeatherConditions where
  temperature : ℝ
  humidity : ℝ
  pressure : ℝ
  precipitation : Bool
  cloudCover : ℝ
  visibility : ℝ

/-- Synthetic satellite geometry quality values. -/
structure SatelliteGeometry where
  pdop : ℝ
  hdop : ℝ
  vdop : ℝ

/-- Result record of analyzeDataCompatibility. -/
structure CompatibilityAnalysis where
  maxDiscontinuity : ℝ
  averageDiscontinuity : ℝ
  recommendedTransitionSteps : ℝ
  isTransitionNeeded : Bool

/-- Mutable instance state of the data generator: the PRNG state of the
RandomNumberGenerator member plus the three cumulative drift fields. -/
structure GenState where
  rng : ℤ
  driftE : ℝ
  driftN : ℝ
  driftH : ℝ

namespace RandomNumberGenerator

/-- One step of the linear congruential generator:
state = (state * 1664525 + 1013904223) % 0x100000000. The JavaScript %
operator truncates toward zero (remainder takes the sign of the dividend),
which is Int.tmod. All intermediate values stay below 2 to the 52, so the
floating computation in the source is exact and the integer model is exact. -/
def lcgNext (state : ℤ) : ℤ :=
  (state * 1664525 + 1013904223).tmod 4294967296

/-- The method next(): advances the LCG and returns state / 0x100000000. -/
def next (s : GenState) : ℝ × GenState :=
  let st := lcgNext s.rng
  ((st : ℝ) / 4294967296, { s with rng := st })

/-- The method gaussianRandom(): Box-Muller transform from two uniform
draws. When the state is negative (possible for negative seeds) the
radicand -2 log u is negative and JavaScript produces NaN through
Math.sqrt; Real.sqrt returns 0 there, so NaN-freedom is stated separately
as nonnegativity of the radicand (see the C9 theorems). -/
def gaussianRandom (s : GenState) : ℝ × GenState :=
  let (r1, s1) := next s
  let u := 1 - r1
  let (v, s2) := next s1
  (Real.sqrt (-2 * Real.log u) * Real.cos (2 * Real.pi * v), s2)

/-- The method resetSeed(seed). -/
def resetSeed (s : GenState) (seed : ℤ) : GenState :=
  { s with rng := seed }

/-- The n-th LCG state reached from a given seed. -/
def stateAt (seed : ℤ) : ℕ → ℤ
  | 0 => seed
  | n + 1 => lcgNext (stateAt seed n)

end RandomNumberGenerator

/-- Hour-of-day of an epoch-millisecond instant, modelling the JavaScript
Date getHours accessor on an idealized UTC clock (the source runs the Date
calendar in the ambient time zone; only the range 0..23 of this value is
relevant downstream, where it modulates sinusoids). -/
def jsGetHours (ms : ℝ) : ℝ :=
  ((⌊ms / 3600000⌋).emod 24 : ℤ)

/-- Minute-of-hour of an epoch-millisecond instant (JavaScript getMinutes,
same idealization as jsGetHours). -/
def jsGetMinutes (ms : ℝ) : ℝ :=
  ((⌊ms / 60000⌋).emod 60 : ℤ)

/-- Fractional hour of day: getHours() + getMinutes() / 60. -/
def jsTimeOfDay (ms : ℝ) : ℝ :=
  jsGetHours ms + jsGetMinutes ms / 60

/-- Day-of-year of an epoch-millisecond instant, modelling the getDayOfYear
helper (floor of the distance to the start of the year in days) on an
idealized repeating 365-day calendar. Only its range matters downstream: it
feeds two seasonal sinusoids. -/
def jsDayOfYear (ms : ℝ) : ℝ :=
  ((⌊ms / 86400000⌋).emod 365 + 1 : ℤ)

namespace StatisticsCalculator

/-- calculateStandardDeviation: sample standard deviation with an 0.001
fallback below two values. -/
def calculateStandardDeviation (values : List ℝ) : ℝ :=
  if values.length < 2 then 0.001
  else
    let mean := values.foldl (fun sum val => sum + val) (0 : ℝ) / values.length
    let variance :=
      values.foldl (fun sum val => sum + (val - mean) ^ 2) (0 : ℝ) / ((values.length : ℝ) - 1)
    Real.sqrt variance

/-- calculateMedian: median of a list, 0 when empty. The JavaScript sort
comparator (a, b) => a - b sorts ascending. -/
def calculateMedian (values : List ℝ) : ℝ :=
  if values.length = 0 then 0
  else
    let sorted := values.mergeSort (fun a b => a ≤ b)
    let middle := sorted.length / 2
    if sorted.length % 2 = 0 then
      (sorted.getD (middle - 1) 0 + sorted.getD middle 0) / 2
    else
      sorted.getD middle 0

/-- analyzeDataStats: per-axis sample standard deviations with realistic
minimum floors, and fixed fallback values below two samples. -/
def analyzeDataStats (samples : List GnssModel) : DataStats :=
  if samples.length < 2 then
    { eStdDev := 0.002, nStdDev := 0.002, hStdDev := 0.005 }
  else
    { eStdDev := max (calculateStandardDeviation (samples.map (fun s => s.E))) 0.001
      nStdDev := max (calculateStandardDeviation (samples.map (fun s => s.N))) 0.001
      hStdDev := max (calculateStandardDeviation (samples.map (fun s => s.H))) 0.002 }

/-- analyzeConservativeStats: median of absolute first differences over the
last at most 144 samples, floored, times the conservative multiplier 0.3. -/
def analyzeConservativeStats (samples : List GnssModel) : ConservativeStats :=
  if samples.length < 10 then
    { eVariance := 0.0003, nVariance := 0.0003, hVariance := 0.0008 }
  else
    let windowSize := min samples.length 144
    let startIndex := samples.length - windowSize
    let window := samples.drop startIndex
    let eChanges := (window.zip window.tail).map (fun pq => |pq.2.E - pq.1.E|)
    let nChanges := (window.zip window.tail).map (fun pq => |pq.2.N - pq.1.N|)
    let hChanges := (window.zip window.tail).map (fun pq => |pq.2.H - pq.1.H|)
    { eVariance := max (calculateMedian eChanges) 0.0002 * 0.3
      nVariance := max (calculateMedian nChanges) 0.0002 * 0.3
      hVariance := max (calculateMedian hChanges) 0.0005 * 0.3 }

/-- calculateDiscontinuityThreshold: 0.01 below two samples, otherwise the
adaptive threshold max(base, min(0.05, 4 x mean axis standard deviation)). -/
def calculateDiscontinuityThreshold (samples : List GnssModel) (solutionType : SolutionType) : ℝ :=
  if samples.length < 2 then 0.01
  else
    let stats := analyzeDataStats samples
    let baseThreshold : ℝ := if solutionType = SolutionType.static then 0.005 else 0.02
    let avgVariability := (stats.eStdDev + stats.nStdDev + stats.hStdDev) / 3
    max baseThreshold (min 0.05 (avgVariability * 4))

/-- calculateMedianReference: per-axis median anchor point. -/
def calculateMedianReference (samples : List GnssModel) : ℝ × ℝ × ℝ :=
  if samples.length = 0 then (0, 0, 0)
  else
    (calculateMedian (samples.map (fun s => s.E)),
     calculateMedian (samples.map (fun s => s.N)),
     calculateMedian (samples.map (fun s => s.H)))

end StatisticsCalculator

namespace StationCharacteristicsInferrer

/-- detectSolutionType: static below ten samples, otherwise classified by
the mean and maximum per-step 3D movement magnitude. Math.max spread over
the (nonempty, nonnegative) movements list is a fold of max from 0. -/
def detectSolutionType (samples : List GnssModel) : SolutionType :=
  if samples.length < 10 then SolutionType.static
  else
    let movements := (samples.zip samples.tail).map (fun pq =>
      let deltaE := |pq.2.E - pq.1.E|
      let deltaN := |pq.2.N - pq.1.N|
      let deltaH := |pq.2.H - pq.1.H|
      Real.sqrt (deltaE * deltaE + deltaN * deltaN + deltaH * deltaH))
    let avgMovement := movements.foldl (fun sum mv => sum + mv) (0 : ℝ) / movements.length
    let maxMovement := movements.foldl max (0 : ℝ)
    if avgMovement < 0.01 ∧ maxMovement < 0.05 then SolutionType.static
    else SolutionType.kinematic

/-- inferEnvironment: tiered classification from altitude and dispersion. -/
def inferEnvironment (height avgStdDev heightStdDev : ℝ) : Environment :=
  if 500 < height then Environment.mountain
  else if 0.005 < avgStdDev then Environment.urban
  else if |height| < 100 ∧ 0.002 < avgStdDev then Environment.coastal
  else if 0.01 < heightStdDev ∧ 200 < height then Environment.forest
  else Environment.mountain

/-- inferMultipath: tier from the average horizontal standard deviation. -/
def inferMultipath (avgStdDev : ℝ) : Multipath :=
  if avgStdDev < 0.002 then Multipath.low
  else if 0.004 < avgStdDev then Multipath.high
  else Multipath.medium

/-- inferAtmospheric: tier from the height standard deviation. -/
def inferAtmospheric (heightStdDev : ℝ) : Atmospheric :=
  if 0.015 < heightStdDev then Atmospheric.extreme
  else if 0.008 < heightStdDev then Atmospheric.variableLevel
  else Atmospheric.variableLevel

/-- inferInstallationQuality: tier from the combined variability. -/
def inferInstallationQuality (avgStdDev heightStdDev : ℝ) : InstallationQuality :=
  let overallVariability := avgStdDev + heightStdDev
  if overallVariability < 0.005 then InstallationQuality.excellent
  else if 0.012 < overallVariability then InstallationQuality.good
  else InstallationQuality.fair

/-- getDefaultStationCharacteristics: the Taiwan mountain station default. -/
def getDefaultStationCharacteristics : StationCharacteristics :=
  { location := { latitude := 24.0, longitude := 121.0, altitude := 2000 }
    environment := Environment.mountain
    multipath := Multipath.medium
    atmospheric := Atmospheric.variableLevel
    installationQuality := InstallationQuality.excellent }

/-- inferStationCharacteristics: location from the first sample, tiers from
the dispersion statistics. -/
def inferStationCharacteristics (samples : List GnssModel) (stats : DataStats) :
    StationCharacteristics :=
  if samples.length = 0 then getDefaultStationCharacteristics
  else
    let firstSample := samples.headD default
    let latitude := firstSample.latitude
    let longitude := firstSample.longitude
    let height := firstSample.height
    let avgStdDev := (stats.eStdDev + stats.nStdDev) / 2
    let heightStdDev := stats.hStdDev
    { location := { latitude := latitude, longitude := longitude, altitude := height }
      environment := inferEnvironment height avgStdDev heightStdDev
      multipath := inferMultipath avgStdDev
      atmospheric := inferAtmospheric heightStdDev
      installationQuality := inferInstallationQuality avgStdDev heightStdDev }

end StationCharacteristicsInferrer

namespace EnvironmentalFactorCalculator

/-- Environment noise lookup table. -/
def environmentFactor : Environment → ℝ
  | Environment.urban => 1.5
  | Environment.rural => 1.0
  | Environment.coastal => 1.2
  | Environment.mountain => 1.4
  | Environment.forest => 2.0

/-- Multipath noise lookup table. -/
def multipathFactor : Multipath → ℝ
  | Multipath.low => 1.0
  | Multipath.medium => 1.3
  | Multipath.high => 1.8

/-- Installation quality lookup table. -/
def qualityFactor : InstallationQuality → ℝ
  | InstallationQuality.excellent => 0.8
  | InstallationQuality.good => 1.0
  | InstallationQuality.fair => 1.4

/-- Atmospheric variability lookup table. -/
def atmosphericFactor : Atmospheric → ℝ
  | Atmospheric.stable => 1.0
  | Atmospheric.variableLevel => 1.2
  | Atmospheric.extreme => 1.6

/-- calculateEnvironmentalNoiseFactor: product of four table lookups,
optionally modulated by the diurnal ionospheric sinusoid and by an
altitude surcharge above 1000 m. Returns 1.0 when no characteristics are
supplied. -/
def calculateEnvironmentalNoiseFactor (stationCharacteristics : Option StationCharacteristics)
    (timeOfDay : Option ℝ) : ℝ :=
  match stationCharacteristics with
  | none => 1.0
  | some sc =>
    let noiseFactor := environmentFactor sc.environment * multipathFactor sc.multipath *
      qualityFactor sc.installationQuality * atmosphericFactor sc.atmospheric
    let noiseFactor :=
      match timeOfDay with
      | some t => noiseFactor * (1.0 + 0.3 * Real.sin (2 * Real.pi * t / 24))
      | none => noiseFactor
    if 1000 < sc.location.altitude then
      noiseFactor * (1.0 + (sc.location.altitude - 1000) / 10000 * 0.2)
    else noiseFactor

/-- applyWeatherEffects: multiplies the base noise by bounded percentage
factors for precipitation, cloud cover, pressure deviation, humidity above
50 percent and visibility below 10 km. -/
def applyWeatherEffects (baseNoise : ℝ) (weather : Option WeatherConditions) : ℝ :=
  match weather with
  | none => baseNoise
  | some w =>
    let weatherFactor : ℝ := 1.0
    let weatherFactor := if w.precipitation then weatherFactor * 1.5 else weatherFactor
    let weatherFactor := weatherFactor * (1.0 + w.cloudCover * 0.2)
    let pressureEffect := |w.pressure - 1013.25| / 1013.25 * 0.1
    let weatherFactor := weatherFactor * (1.0 + pressureEffect)
    let humidityEffect := max 0 (w.humidity - 50) / 50 * 0.15
    let weatherFactor := weatherFactor * (1.0 + humidityEffect)
    let weatherFactor :=
      if w.visibility < 10 then
        weatherFactor * (1.0 + (10 - w.visibility) / 10 * 0.3)
      else weatherFactor
    baseNoise * weatherFactor

/-- calculateSeasonalFactor: product of the ionospheric and tropospheric
day-of-year sinusoids. -/
def calculateSeasonalFactor (dateTime : ℝ) : ℝ :=
  let dayOfYear := jsDayOfYear dateTime
  let ionosphericSeasonal := 1.0 + 0.2 * Real.sin (2 * Real.pi * (dayOfYear - 80) / 365.25)
  let troposphericSeasonal := 1.0 + 0.15 * Real.cos (2 * Real.pi * (dayOfYear - 20) / 365.25)
  ionosphericSeasonal * troposphericSeasonal

/-- simulateSatelliteGeometry: synthetic PDOP clamped to the range 1 to 6
from 12h and 24h sinusoids plus latitude surcharges. -/
def simulateSatelliteGeometry (dateTime : ℝ) (location : Option Location) : SatelliteGeometry :=
  let timeInHours := jsTimeOfDay dateTime
  let basePDOP := 1.5 + 0.5 * Real.sin (2 * Real.pi * timeInHours / 12)
  let basePDOP := basePDOP + 0.2 * Real.sin (2 * Real.pi * timeInHours / 24)
  let basePDOP :=
    match location with
    | some loc =>
      let withLat := basePDOP + |loc.latitude| / 90 * 0.4
      if |loc.latitude| < 30 then withLat + 0.1 else withLat
    | none => basePDOP
  let pdop := max 1.0 (min 6.0 basePDOP)
  { pdop := pdop, hdop := pdop * 0.8, vdop := pdop * 1.2 }

/-- getDefaultWeatherConditions: mild defaults. -/
def getDefaultWeatherConditions : WeatherConditions :=
  { temperature := 20, humidity := 60, pressure := 1013.25
    precipitation := false, cloudCover := 0.3, visibility := 15 }

end EnvironmentalFactorCalculator

namespace TimestampManager

/-- assignSequentialTimestamps: stamps data[i].dateTime = start + i x 10min.
The source mutates the array elements in place and returns the array; the
value-level effect is this map. -/
def assignSequentialTimestamps (data : List GnssModel) (startTime : ℝ) : List GnssModel :=
  data.mapIdx (fun i m => { m with dateTime := startTime + i * 10 * 60 * 1000 })

/-- getStartTimestamp: last sample timestamp plus ten minutes. Callers
guarantee a nonempty list (the source would throw on an empty one). -/
def getStartTimestamp (samples : List GnssModel) : ℝ :=
  (samples.getLastD default).dateTime + 10 * 60 * 1000

/-- getExtensionStartTimestamp: last known point timestamp plus ten minutes. -/
def getExtensionStartTimestamp (lastKnownPoint : GnssModel) : ℝ :=
  lastKnownPoint.dateTime + 10 * 60 * 1000

/-- interpolateTimestamp: linear interpolation between two instants. -/
def interpolateTimestamp (startTime endTime progress : ℝ) : ℝ :=
  startTime + (endTime - startTime) * progress

/-- interpolateValue: linear interpolation between two numbers. -/
def interpolateValue (start stop progress : ℝ) : ℝ :=
  start + (stop - start) * progress

/-- calculateMoveTotal: Euclidean norm of the three move components. -/
def calculateMoveTotal (model : GnssModel) : ℝ :=
  Real.sqrt (model.moveE ^ 2 + model.moveN ^ 2 + model.moveH ^ 2)

end TimestampManager

namespace DataCompatibilityAnalyzer

open StatisticsCalculator StationCharacteristicsInferrer

/-- analyzeDataCompatibility: discontinuity diagnostics between a generated
segment and a following real segment. The private detectSolutionType of the
analyzer class is character-for-character the inferrer version and is
embedded once. slice(-10) is drop (length - 10); slice(0, 10) is take 10. -/
def analyzeDataCompatibility (generatedData realData : List GnssModel) : CompatibilityAnalysis :=
  if generatedData.length = 0 ∨ realData.length = 0 then
    { maxDiscontinuity := 0, averageDiscontinuity := 0
      recommendedTransitionSteps := 0, isTransitionNeeded := false }
  else
    let lastGenerated := generatedData.getLastD default
    let firstReal := realData.headD default
    let deltaE := |firstReal.E - lastGenerated.E|
    let deltaN := |firstReal.N - lastGenerated.N|
    let deltaH := |firstReal.H - lastGenerated.H|
    let maxDiscontinuity := max deltaE (max deltaN deltaH)
    let averageDiscontinuity := (deltaE + deltaN + deltaH) / 3
    let boundary := generatedData.drop (generatedData.length - 10) ++ realData.take 10
    let solutionType := detectSolutionType boundary
    let threshold := calculateDiscontinuityThreshold boundary solutionType
    let isTransitionNeeded := decide (threshold < maxDiscontinuity)
    let recommendedTransitionSteps : ℝ :=
      if threshold < maxDiscontinuity then
        min 5 (max 2 ((⌈maxDiscontinuity / threshold⌉ : ℤ) : ℝ))
      else 0
    { maxDiscontinuity := maxDiscontinuity, averageDiscontinuity := averageDiscontinuity
      recommendedTransitionSteps := recommendedTransitionSteps
      isTransitionNeeded := isTransitionNeeded }

/-- calculateAdaptiveTransitionSteps: ceil(maxDelta / threshold x multiplier)
plus a duration bonus for long generations, clamped to [minSteps, maxSteps]. -/
def calculateAdaptiveTransitionSteps (maxDelta threshold generationDurationHours
    minSteps maxSteps transitionMultiplier longGenerationThreshold : ℝ) : ℝ :=
  let baseTransitionSteps : ℝ := ((⌈maxDelta / threshold * transitionMultiplier⌉ : ℤ) : ℝ)
  let durationBonus : ℝ :=
    if longGenerationThreshold < generationDurationHours then
      min 12 ((⌈generationDurationHours / longGenerationThreshold⌉ : ℤ) : ℝ)
    else 0
  min maxSteps (max minSteps (baseTransitionSteps + durationBonus))

end DataCompatibilityAnalyzer

/-!
The operative data generator (class DataGenerator of the fixed revision, the
second document in DataCompatibilityAnalyzer.ts, which the spec follows as
the later stabilized design).
-/

namespace DataGeneratorFixed

open RandomNumberGenerator StatisticsCalculator StationCharacteristicsInferrer
open EnvironmentalFactorCalculator TimestampManager

/-- Default transition step count. -/
def DEFAULT_TRANSITION_STEPS : ℝ := 72

/-- Maximum transition step count. -/
def MAX_TRANSITION_STEPS : ℝ := 288

/-- Minimum transition step count. -/
def MIN_TRANSITION_STEPS : ℝ := 36

/-- Transition step multiplier. -/
def TRANSITION_MULTIPLIER : ℝ := 4

/-- Long-generation threshold in hours. -/
def LONG_GENERATION_THRESHOLD_HOURS : ℝ := 12

/-- Random variation scale inside a transition segment. -/
def TRANSITION_VARIATION_SCALE : ℝ := 0.01

/-- Oscillation enhancement for static solutions. -/
def STATIC_OSCILLATION_ENHANCEMENT : ℝ := 3.60

/-- Basic noise factor for static solutions. -/
def STATIC_BASIC_NOISE_FACTOR : ℝ := 1.80

/-- External noise factor for static solutions. -/
def STATIC_EXTERNAL_NOISE_FACTOR : ℝ := 3.60

/-- Oscillation enhancement for kinematic solutions. -/
def OSCILLATION_ENHANCEMENT : ℝ := 1.60

/-- Basic noise factor for kinematic solutions. -/
def BASIC_NOISE_FACTOR : ℝ := 1.20

/-- External noise factor for kinematic solutions. -/
def EXTERNAL_NOISE_FACTOR : ℝ := 2.00

/-- Damping factor of the long-term trend recurrence. -/
def TREND_DAMPING_FACTOR : ℝ := 0.50

/-- Drift correction threshold in meters. -/
def DRIFT_CORRECTION_THRESHOLD : ℝ := 0.0080

/-- Drift correction strength. -/
def DRIFT_CORRECTION_STRENGTH : ℝ := 0.3

/-- generateZeroMeanNoise: delegates to the Box-Muller draw. -/
def generateZeroMeanNoise (s : GenState) : ℝ × GenState :=
  gaussianRandom s

/-- generateStabilizedIrregularVariation: the layered irregular noise
primitive (base Gaussian, jump, clustering, burst, interruption, three
fixed sinusoids, final random weight), with the exact draw order of the
source. -/
def generateStabilizedIrregularVariation (baseVariance : ℝ) (index totalCount : ℕ)
    (solutionType : SolutionType) (s : GenState) : ℝ × GenState :=
  let (g, s) := generateZeroMeanNoise s
  let variation := g * Real.sqrt baseVariance
  let (jumpTest, s) := next s
  let (variation, s) :=
    if jumpTest < 0.06 then
      let jumpMagnitude : ℝ := if solutionType = SolutionType.static then 1.2 else 2.0
      let (j, s') := next s
      (variation + (j - 0.5) * Real.sqrt baseVariance * jumpMagnitude, s')
    else (variation, s)
  let (periodDraw, s) := next s
  let clusterPhase := Real.sin (2 * Real.pi * index / (12 + periodDraw * 8))
  let (variation, s) :=
    if 0.7 < |clusterPhase| then
      let (c, s') := next s
      (variation * (1.3 + c * 0.4), s')
    else if |clusterPhase| < 0.3 then
      let (c, s') := next s
      (variation * (0.5 + c * 0.3), s')
    else (variation, s)
  let (burstTest, s) := next s
  let (variation, s) :=
    if burstTest < 0.08 then
      let (b, s') := next s
      (variation * (1.2 + b * 3.0), s')
    else (variation, s)
  let (interruptTest, s) := next s
  let (variation, s) :=
    if interruptTest < 0.16 then
      let (iv, s') := next s
      (variation * ((iv - 0.5) * 4), s')
    else (variation, s)
  let highFreq := Real.sin (2 * Real.pi * index / 4) * 0.3
  let midFreq := Real.sin (2 * Real.pi * index / 20) * 0.5
  let lowFreq := Real.sin (2 * Real.pi * index / 60) * 0.4
  let frequencyComponent := (highFreq + midFreq + lowFreq) * Real.sqrt baseVariance * 0.8
  let (w, s) := next s
  let stabilizedWeight := 0.8 + w * 0.3
  ((variation + frequencyComponent) * stabilizedWeight, s)

/-- generateStabilizedTimeBasedNoise: irregular variation scaled by the
solution-type noise factor, time-modulated, with an occasional external
noise burst. -/
def generateStabilizedTimeBasedNoise (index totalCount : ℕ) (stdDev : ℝ)
    (solutionType : SolutionType) (s : GenState) : ℝ × GenState :=
  let basicNoiseFactor :=
    if solutionType = SolutionType.static then STATIC_BASIC_NOISE_FACTOR else BASIC_NOISE_FACTOR
  let externalNoiseFactor :=
    if solutionType = SolutionType.static then STATIC_EXTERNAL_NOISE_FACTOR
    else EXTERNAL_NOISE_FACTOR
  let (bn, s) := generateStabilizedIrregularVariation (stdDev * stdDev) index totalCount
    solutionType s
  let baseNoise := bn * basicNoiseFactor
  let timeProgress := (index : ℝ) / totalCount
  let (z, s) := generateZeroMeanNoise s
  let timeFactor := 1.0 + 0.2 * Real.sin (2 * Real.pi * timeProgress * 2) +
    0.1 * Real.sin (2 * Real.pi * timeProgress * 0.5) + 0.05 * z
  let externalNoiseProb : ℝ := if solutionType = SolutionType.static then 0.02 else 0.04
  let (probTest, s) := next s
  let (baseNoise, s) :=
    if probTest < externalNoiseProb then
      let (b2, s') := generateStabilizedIrregularVariation (stdDev * stdDev) index totalCount
        solutionType s
      (baseNoise + b2 * externalNoiseFactor * 0.5, s')
    else (baseNoise, s)
  let conservativeTimeFactor :=
    if solutionType = SolutionType.static then timeFactor * 0.6 else timeFactor * 0.8
  (baseNoise * conservativeTimeFactor, s)

/-- applyDriftCorrection: overwrites the cumulative drift with the offset of
the new position from the reference point, then pulls each axis back by
strength times the drift whenever the drift magnitude exceeds the
threshold. -/
def applyDriftCorrection (newE newN newH refE refN refH : ℝ) (s : GenState) :
    (ℝ × ℝ × ℝ) × GenState :=
  let s := { s with driftE := newE - refE, driftN := newN - refN, driftH := newH - refH }
  let threshold := DRIFT_CORRECTION_THRESHOLD
  let strength := DRIFT_CORRECTION_STRENGTH
  let (correctedE, s) :=
    if threshold < |s.driftE| then
      let correction := -s.driftE * strength
      (newE + correction, { s with driftE := s.driftE + correction })
    else (newE, s)
  let (correctedN, s) :=
    if threshold < |s.driftN| then
      let correction := -s.driftN * strength
      (newN + correction, { s with driftN := s.driftN + correction })
    else (newN, s)
  let (correctedH, s) :=
    if threshold < |s.driftH| then
      let correction := -s.driftH * strength
      (newH + correction, { s with driftH := s.driftH + correction })
    else (newH, s)
  ((correctedE, correctedN, correctedH), s)

/-- generateStabilizedVariation: dampened irregular variation, enhanced with
phase modulation and occasional bursts on long gaps. -/
def generateStabilizedVariation (index totalCount : ℕ) (baseRange : ℝ) (isLongGap : Bool)
    (s : GenState) : ℝ × GenState :=
  let (v, s) := generateStabilizedIrregularVariation (baseRange * baseRange) index totalCount
    SolutionType.static s
  let variation := v * 0.6
  if isLongGap then
    let (p1, s) := next s
    let phaseVariation := Real.sin (Real.pi * index / totalCount * (1.5 + p1 * 0.5))
    let enhancementFactor := 1.1 + 0.4 * |phaseVariation|
    let variation := variation * enhancementFactor
    let (burstTest, s) := next s
    let (variation, s) :=
      if burstTest < 0.08 then
        let (b, s') := next s
        (variation * (1.5 + b * 1.5), s')
      else (variation, s)
    let (shrinkTest, s) := next s
    let (variation, s) :=
      if shrinkTest < 0.05 then
        let (m, s') := next s
        (variation * (0.3 + m * 0.2), s')
      else (variation, s)
    (variation, s)
  else (variation, s)

/-- generateStabilizedDataPoint: one synthetic fill sample built from a base
sample, the trend contribution, layered noise scaled by environment,
weather, season and satellite geometry, with drift correction applied to
the position axes. -/
def generateStabilizedDataPoint (index totalCount : ℕ) (baseSample : GnssModel)
    (trendE trendN trendH : ℝ) (stats : DataStats)
    (characteristics : StationCharacteristics) (weather : WeatherConditions)
    (isLongGap : Bool) (solutionType : SolutionType) (samples : List GnssModel)
    (s : GenState) : GnssModel × GenState :=
  let startTime := getStartTimestamp samples
  let currentTime := startTime + index * 10 * 60 * 1000
  let timeOfDay := jsTimeOfDay currentTime
  let seasonalFactor := calculateSeasonalFactor currentTime
  let satGeometry := simulateSatelliteGeometry currentTime (some characteristics.location)
  let geometryFactor := Real.sqrt (satGeometry.pdop / 2.5)
  let (timeBasedNoiseE, s) := generateStabilizedTimeBasedNoise index totalCount stats.eStdDev
    solutionType s
  let (timeBasedNoiseN, s) := generateStabilizedTimeBasedNoise index totalCount stats.nStdDev
    solutionType s
  let (timeBasedNoiseH, s) := generateStabilizedTimeBasedNoise index totalCount stats.hStdDev
    solutionType s
  let timeVaryingEnvFactor :=
    calculateEnvironmentalNoiseFactor (some characteristics) (some timeOfDay) * 0.8
  let timeBasedNoiseE := applyWeatherEffects (timeBasedNoiseE * timeVaryingEnvFactor) (some weather)
  let timeBasedNoiseN := applyWeatherEffects (timeBasedNoiseN * timeVaryingEnvFactor) (some weather)
  let timeBasedNoiseH := applyWeatherEffects (timeBasedNoiseH * timeVaryingEnvFactor) (some weather)
  let timeBasedNoiseE := timeBasedNoiseE * (seasonalFactor * geometryFactor)
  let timeBasedNoiseN := timeBasedNoiseN * (seasonalFactor * geometryFactor)
  let timeBasedNoiseH := timeBasedNoiseH * (seasonalFactor * geometryFactor * 1.1)
  let newE := baseSample.E + trendE + timeBasedNoiseE
  let newN := baseSample.N + trendN + timeBasedNoiseN
  let newH := baseSample.H + trendH + timeBasedNoiseH
  let (correctedPosition, s) :=
    applyDriftCorrection newE newN newH baseSample.E baseSample.N baseSample.H s
  let (angleVariation, s) := generateStabilizedVariation index totalCount 0.05 isLongGap s
  let (axisVariation, s) := generateStabilizedVariation index totalCount 0.03 isLongGap s
  let (plateVariation, s) := generateStabilizedVariation index totalCount 0.03 isLongGap s
  let (moveEVar, s) := generateStabilizedVariation index totalCount (stats.eStdDev * 0.1) isLongGap s
  let (moveNVar, s) := generateStabilizedVariation index totalCount (stats.nStdDev * 0.1) isLongGap s
  let (moveHVar, s) := generateStabilizedVariation index totalCount (stats.hStdDev * 0.1) isLongGap s
  let (dayEVar, s) := generateStabilizedVariation index totalCount (stats.eStdDev * 0.2) isLongGap s
  let (dayNVar, s) := generateStabilizedVariation index totalCount (stats.nStdDev * 0.2) isLongGap s
  let (dayHVar, s) := generateStabilizedVariation index totalCount (stats.hStdDev * 0.2) isLongGap s
  let partialModel : GnssModel :=
    { dateTime := 0
      E := correctedPosition.1, N := correctedPosition.2.1, H := correctedPosition.2.2
      latitude := baseSample.latitude, longitude := baseSample.longitude
      height := baseSample.height
      angle := baseSample.angle + angleVariation
      axis := baseSample.axis + axisVariation
      plate := baseSample.plate + plateVariation
      moveE := baseSample.moveE + moveEVar
      moveN := baseSample.moveN + moveNVar
      moveH := baseSample.moveH + moveHVar
      moveTotal := 0
      dayE := baseSample.dayE + dayEVar
      dayN := baseSample.dayN + dayNVar
      dayH := baseSample.dayH + dayHVar }
  ({ partialModel with moveTotal := calculateMoveTotal partialModel }, s)

/-- Short-gap branch of generateStabilizedLongTermTrend: independent
zero-mean noise scaled by 0.15 x stdDev, one Gaussian draw per point. -/
def shortTrendLoop (stdDev : ℝ) : ℕ → GenState → List ℝ × GenState
  | 0, s => ([], s)
  | n + 1, s =>
    let (g, s1) := generateZeroMeanNoise s
    let (rest, s2) := shortTrendLoop stdDev n s1
    (g * stdDev * 0.15 :: rest, s2)

/-- Long-gap base pattern loop of generateStabilizedLongTermTrend: a damped
random-walk recurrence with occasional direction changes. -/
def trendBaseLoop (trendMagnitude : ℝ) : ℕ → ℝ → ℝ → GenState → List ℝ × GenState
  | 0, _, _, s => ([], s)
  | n + 1, currentTrend, trendChange, s =>
    let nextTrend := currentTrend * TREND_DAMPING_FACTOR + trendChange
    let (changeTest, s1) := next s
    let (nextChange, s2) :=
      if changeTest < 0.05 then
        let (v, s1') := next s1
        ((v - 0.5) * trendMagnitude * 0.05, s1')
      else (trendChange, s1)
    let (rest, s3) := trendBaseLoop trendMagnitude n nextTrend nextChange s2
    (currentTrend :: rest, s3)

/-- generateStabilizedLongTermTrend: zero-mean noise for short gaps; a
damped random walk superimposed with a random-phase sinusoid for long
gaps. -/
def generateStabilizedLongTermTrend (count : ℕ) (stdDev : ℝ) (isLongGap : Bool)
    (s : GenState) : List ℝ × GenState :=
  if isLongGap then
    let trendMagnitude := stdDev * 0.5
    let (r1, s) := next s
    let currentTrend := (r1 - 0.5) * trendMagnitude
    let (r2, s) := next s
    let trendChange := (r2 - 0.5) * trendMagnitude * 0.05
    let (basePattern, s) := trendBaseLoop trendMagnitude count currentTrend trendChange s
    let (g, s) := generateZeroMeanNoise s
    let period := 24 + g * 4
    let amplitude := stdDev * 0.2
    let (p, s) := next s
    let phaseShift := p * 2 * Real.pi
    (basePattern.mapIdx
      (fun i b => b + amplitude * Real.sin (2 * Real.pi * i / period + phaseShift)), s)
  else
    shortTrendLoop stdDev count s

/-- selectDiverseBaseIndex: progress-weighted random index into the sample
window. -/
def selectDiverseBaseIndex (samplesLength : ℕ) (currentIndex totalCount : ℕ)
    (s : GenState) : ℕ × GenState :=
  let progress := (currentIndex : ℝ) / totalCount
  let rangeStart : ℤ := max 0 ⌊(samplesLength : ℝ) * (1.0 - progress) * 0.5⌋
  let rangeEnd : ℤ := min ((samplesLength : ℤ) - 1)
    (max (rangeStart + 1) ((samplesLength : ℤ) - ⌊(samplesLength : ℝ) * progress * 0.3⌋))
  let (r, s) := next s
  ((rangeStart + ⌊r * (((rangeEnd : ℝ)) - ((rangeStart : ℝ)) + 1)⌋).toNat, s)

/-- adjustStatsForEnvironment of the fixed generator: scales the raw
standard deviations by the oscillation and environment factors, then clamps
each axis to fixed bounds (no dependence on the solution type). -/
def adjustStatsForEnvironment (stats : DataStats) (oscillationFactor envNoiseFactor : ℝ) :
    DataStats :=
  let adjE := stats.eStdDev * oscillationFactor * envNoiseFactor
  let adjN := stats.nStdDev * oscillationFactor * envNoiseFactor
  let adjH := stats.hStdDev * oscillationFactor * envNoiseFactor
  { eStdDev := min (max adjE 0.010) 0.020
    nStdDev := min (max adjN 0.010) 0.020
    hStdDev := min (max adjH 0.020) 0.030 }

/-- Point generation loop of generateRandomData: one base index draw and one
stabilized data point per requested index. -/
def genLoop (samples : List GnssModel) (totalCount : ℕ) (trendE trendN trendH : List ℝ)
    (adjustedStats : DataStats) (characteristics : StationCharacteristics)
    (weather : WeatherConditions) (isLongGap : Bool) (solutionType : SolutionType) :
    List ℕ → GenState → List GnssModel × GenState
  | [], s => ([], s)
  | i :: rest, s =>
    let (baseIndex, s1) := selectDiverseBaseIndex samples.length i totalCount s
    let baseSample := samples.getD baseIndex default
    let (m, s2) := generateStabilizedDataPoint i totalCount baseSample
      (trendE.getD i 0) (trendN.getD i 0) (trendH.getD i 0)
      adjustedStats characteristics weather isLongGap solutionType samples s1
    let (tail, s3) := genLoop samples totalCount trendE trendN trendH adjustedStats
      characteristics weather isLongGap solutionType rest s2
    (m :: tail, s3)

/-- Body of generateRandomData before the final timestamp assignment (the
freshly constructed, not yet stamped result objects). Factored out so that
the heap-level semantics below can allocate these objects and then run the
stamping writes on them, exactly as the source does. -/
def generateRandomDataCore (s : GenState) (samples : List GnssModel) (count : ℤ)
    (stationCharacteristics : Option StationCharacteristics)
    (weatherConditions : Option WeatherConditions) : List GnssModel × GenState :=
  let s := { s with driftE := 0, driftN := 0, driftH := 0 }
    let stats := analyzeDataStats samples
    let inferredCharacteristics :=
      stationCharacteristics.getD (inferStationCharacteristics samples stats)
    let solutionType := detectSolutionType samples
    let defaultWeather := weatherConditions.getD getDefaultWeatherConditions
    let s := resetSeed s 42
    let envNoiseFactor := calculateEnvironmentalNoiseFactor (some inferredCharacteristics) none
    let oscillationFactor :=
      if solutionType = SolutionType.static then STATIC_OSCILLATION_ENHANCEMENT
      else OSCILLATION_ENHANCEMENT
    let adjustedStats := adjustStatsForEnvironment stats oscillationFactor envNoiseFactor
    let isLongGap := decide (12 < count)
    let (trendE, s) := generateStabilizedLongTermTrend count.toNat adjustedStats.eStdDev
      isLongGap s
    let (trendN, s) := generateStabilizedLongTermTrend count.toNat adjustedStats.nStdDev
      isLongGap s
    let (trendH, s) := generateStabilizedLongTermTrend count.toNat adjustedStats.hStdDev
      isLongGap s
    genLoop samples count.toNat trendE trendN trendH adjustedStats
      inferredCharacteristics defaultWeather isLongGap solutionType
      (List.range count.toNat) s

/-- generateRandomData: the fill operation. Returns the empty list at once
for an empty sample window (instance state untouched); otherwise resets the
drift accumulators, reseeds the PRNG at 42, generates the per-axis trends
and the per-point data, and stamps sequential timestamps starting one
interval after the last input sample. A nonpositive count runs the loops
zero times. -/
def generateRandomData (s : GenState) (samples : List GnssModel) (count : ℤ)
    (stationCharacteristics : Option StationCharacteristics)
    (weatherConditions : Option WeatherConditions) : List GnssModel × GenState :=
  match samples with
  | [] => ([], s)
  | _ :: _ =>
    let (result, s) := generateRandomDataCore s samples count stationCharacteristics
      weatherConditions
    (assignSequentialTimestamps result (getStartTimestamp samples), s)

/-- improvedTransitionCurve: the cubic smoothstep 3t^2 - 2t^3 clamped to
[0, 1]. -/
def improvedTransitionCurve (progress : ℝ) : ℝ :=
  let t := progress
  let t2 := t * t
  let t3 := t2 * t
  max 0 (min 1 (3 * t2 - 2 * t3))

/-- Transition loop of generateTransitionData over the step indices 1..steps:
three uniform draws per step for the small random perturbations, smoothstep
interpolation of every field between the last generated and the first real
sample. -/
def transLoop (lastGenerated firstReal : GnssModel) (deltaE deltaN deltaH : ℝ)
    (transitionSteps : ℤ) : List ℕ → GenState → List GnssModel × GenState
  | [], s => ([], s)
  | i :: rest, s =>
    let progress := (i : ℝ) / ((transitionSteps : ℝ) + 1)
    let smoothProgress := improvedTransitionCurve progress
    let variationScale :=
      min 0.0005 (max |deltaE| (max |deltaN| |deltaH|) * TRANSITION_VARIATION_SCALE)
    let (v1, s) := next s
    let randomVariationE := (v1 - 0.5) * variationScale
    let (v2, s) := next s
    let randomVariationN := (v2 - 0.5) * variationScale
    let (v3, s) := next s
    let randomVariationH := (v3 - 0.5) * variationScale * 1.2
    let partialPoint : GnssModel :=
      { dateTime := TimestampManager.interpolateTimestamp lastGenerated.dateTime
          firstReal.dateTime progress
        E := lastGenerated.E + deltaE * smoothProgress + randomVariationE
        N := lastGenerated.N + deltaN * smoothProgress + randomVariationN
        H := lastGenerated.H + deltaH * smoothProgress + randomVariationH
        latitude := TimestampManager.interpolateValue lastGenerated.latitude
          firstReal.latitude smoothProgress
        longitude := TimestampManager.interpolateValue lastGenerated.longitude
          firstReal.longitude smoothProgress
        height := TimestampManager.interpolateValue lastGenerated.height
          firstReal.height smoothProgress
        angle := TimestampManager.interpolateValue lastGenerated.angle
          firstReal.angle smoothProgress
        axis := TimestampManager.interpolateValue lastGenerated.axis
          firstReal.axis smoothProgress
        plate := TimestampManager.interpolateValue lastGenerated.plate
          firstReal.plate smoothProgress
        moveE := TimestampManager.interpolateValue lastGenerated.moveE
          firstReal.moveE smoothProgress
        moveN := TimestampManager.interpolateValue lastGenerated.moveN
          firstReal.moveN smoothProgress
        moveH := TimestampManager.interpolateValue lastGenerated.moveH
          firstReal.moveH smoothProgress
        moveTotal := 0
        dayE := TimestampManager.interpolateValue lastGenerated.dayE
          firstReal.dayE smoothProgress
        dayN := TimestampManager.interpolateValue lastGenerated.dayN
          firstReal.dayN smoothProgress
        dayH := TimestampManager.interpolateValue lastGenerated.dayH
          firstReal.dayH smoothProgress }
    let transitionPoint :=
      { partialPoint with moveTotal := TimestampManager.calculateMoveTotal partialPoint }
    let (rest', s') := transLoop lastGenerated firstReal deltaE deltaN deltaH
      transitionSteps rest s
    (transitionPoint :: rest', s')

/-- generateTransitionData: a transition segment of the given length between
the last generated and the first real sample, empty when either input list
is empty. -/
def generateTransitionData (s : GenState) (generatedData targetRealData : List GnssModel)
    (transitionSteps : ℤ) : List GnssModel × GenState :=
  if generatedData.length = 0 ∨ targetRealData.length = 0 then ([], s)
  else
    let lastGenerated := generatedData.getLastD default
    let firstReal := targetRealData.headD default
    let deltaE := firstReal.E - lastGenerated.E
    let deltaN := firstReal.N - lastGenerated.N
    let deltaH := firstReal.H - lastGenerated.H
    transLoop lastGenerated firstReal deltaE deltaN deltaH transitionSteps
      (List.range' 1 transitionSteps.toNat) s

/-- generateSeamlessData: generates the main fill segment, and when a
following real segment is supplied compares the boundary discontinuity
against 0.2 x the discontinuity threshold; above it, an adaptive-length
transition segment is generated and appended. When the main segment is
empty while the following real segment is not, the source dereferences
mainData[-1] (undefined) and throws a TypeError, modelled by
Except.error (). -/
def generateSeamlessData (s : GenState) (samples : List GnssModel) (count : ℤ)
    (nextRealData : Option (List GnssModel))
    (stationCharacteristics : Option StationCharacteristics)
    (weatherConditions : Option WeatherConditions) :
    Except Unit (List GnssModel) × GenState :=
  let (mainData, s) := generateRandomData s samples count stationCharacteristics
    weatherConditions
  match nextRealData with
  | none => (Except.ok mainData, s)
  | some realList =>
    match realList with
    | [] => (Except.ok mainData, s)
    | firstReal :: _ =>
      match mainData.getLast? with
      | none => (Except.error (), s)
      | some lastGenerated =>
        let solutionType := detectSolutionType samples
        let discontinuityThreshold := calculateDiscontinuityThreshold samples solutionType
        let deltaE := |firstReal.E - lastGenerated.E|
        let deltaN := |firstReal.N - lastGenerated.N|
        let deltaH := |firstReal.H - lastGenerated.H|
        let maxDelta := max deltaE (max deltaN deltaH)
        let adjustedThreshold := discontinuityThreshold * 0.2
        if adjustedThreshold < maxDelta then
          let generationDurationHours := (mainData.length : ℝ) / 6
          let adaptiveTransitionSteps := DataCompatibilityAnalyzer.calculateAdaptiveTransitionSteps
            maxDelta discontinuityThreshold generationDurationHours
            MIN_TRANSITION_STEPS MAX_TRANSITION_STEPS
            TRANSITION_MULTIPLIER LONG_GENERATION_THRESHOLD_HOURS
          let adaptiveTransitionSteps :=
            if discontinuityThreshold * 2 < maxDelta then
              min (adaptiveTransitionSteps * 1.5) MAX_TRANSITION_STEPS
            else adaptiveTransitionSteps
          let (transitionData, s) := generateTransitionData s mainData realList
            ⌊adaptiveTransitionSteps⌋
          (Except.ok (mainData ++ transitionData), s)
        else (Except.ok mainData, s)

/-- generateControlledRandomWalk: irregular change plus a regression force
proportional to the cumulative east drift (the source reads cumulativeDriftE
for every axis) plus an occasional step change. -/
def generateControlledRandomWalk (variance stabilityFactor : ℝ) (index totalCount : ℕ)
    (s : GenState) : ℝ × GenState :=
  let (g, s) := generateZeroMeanNoise s
  let irregularChange := g * Real.sqrt variance * stabilityFactor * 0.2
  let regressionForce := -s.driftE * 0.01
  let (stepTest, s) := next s
  let (stepChange, s) :=
    if stepTest < 0.04 then
      let (r, s') := next s
      ((r - 0.5) * Real.sqrt variance * 1.0, s')
    else ((0 : ℝ), s)
  (irregularChange + regressionForce + stepChange, s)

/-- calculateEnhancedStabilityFactor: decaying but bounded-below stability
factor. -/
def calculateEnhancedStabilityFactor (index totalCount : ℕ) (isLongExtension : Bool) : ℝ :=
  if isLongExtension then
    let baseFactor := 1.0 / (1.0 + (index : ℝ) * 0.005)
    let timeDamping := Real.exp (-(index : ℝ) / ((totalCount : ℝ) * 2))
    max 0.2 (baseFactor * timeDamping)
  else
    1.0 / (1.0 + (index : ℝ) * 0.02)

/-- generateConservativeTinyVariation: small Gaussian variation with an
occasional extra component. -/
def generateConservativeTinyVariation (range stabilityFactor : ℝ) (s : GenState) :
    ℝ × GenState :=
  let (g, s) := generateZeroMeanNoise s
  let baseVariation := g * range * stabilityFactor * 0.1
  let (extraTest, s) := next s
  if extraTest < 0.05 then
    let (g2, s') := generateZeroMeanNoise s
    (baseVariation + g2 * range * stabilityFactor * 0.15, s')
  else (baseVariation, s)

/-- generateConservativeDataPointWithControl: one extension sample anchored
at the median reference point plus the cumulative drift plus a controlled
random-walk step, with drift correction against the median reference. -/
def generateConservativeDataPointWithControl (index totalCount : ℕ)
    (referencePoint : ℝ × ℝ × ℝ) (stats : ConservativeStats)
    (characteristics : StationCharacteristics) (weather : WeatherConditions)
    (isLongExtension : Bool) (lastKnownPoint : GnssModel) (s : GenState) :
    GnssModel × GenState :=
  let currentTime := getExtensionStartTimestamp lastKnownPoint + index * 10 * 60 * 1000
  let timeOfDay := jsTimeOfDay currentTime
  let seasonalFactor := calculateSeasonalFactor currentTime
  let satGeometry := simulateSatelliteGeometry currentTime (some characteristics.location)
  let conservativeGeometryFactor := Real.sqrt (satGeometry.pdop / 4.0)
  let baseStabilityFactor := calculateEnhancedStabilityFactor index totalCount isLongExtension
  let envNoiseFactor := calculateEnvironmentalNoiseFactor (some characteristics) none
  let envStabilityFactor := baseStabilityFactor / max 1.0 (envNoiseFactor * 0.3)
  let (eChange, s) := generateControlledRandomWalk stats.eVariance envStabilityFactor
    index totalCount s
  let (nChange, s) := generateControlledRandomWalk stats.nVariance envStabilityFactor
    index totalCount s
  let (hChange, s) := generateControlledRandomWalk stats.hVariance envStabilityFactor
    index totalCount s
  let timeVaryingEnvFactor :=
    calculateEnvironmentalNoiseFactor (some characteristics) (some timeOfDay) * 0.3
  let adjustedEChange := applyWeatherEffects (eChange * timeVaryingEnvFactor) (some weather)
  let adjustedNChange := applyWeatherEffects (nChange * timeVaryingEnvFactor) (some weather)
  let adjustedHChange := applyWeatherEffects (hChange * timeVaryingEnvFactor) (some weather)
  let newE := referencePoint.1 + s.driftE +
    adjustedEChange * seasonalFactor * conservativeGeometryFactor
  let newN := referencePoint.2.1 + s.driftN +
    adjustedNChange * seasonalFactor * conservativeGeometryFactor
  let newH := referencePoint.2.2 + s.driftH +
    adjustedHChange * seasonalFactor * conservativeGeometryFactor * 1.1
  let (correctedPosition, s) := applyDriftCorrection newE newN newH
    referencePoint.1 referencePoint.2.1 referencePoint.2.2 s
  let (angleVariation, s) := generateConservativeTinyVariation 0.3 envStabilityFactor s
  let (axisVariation, s) := generateConservativeTinyVariation 0.05 envStabilityFactor s
  let (plateVariation, s) := generateConservativeTinyVariation 0.05 envStabilityFactor s
  let (moveEVar, s) := generateConservativeTinyVariation (stats.eVariance * 0.3)
    envStabilityFactor s
  let (moveNVar, s) := generateConservativeTinyVariation (stats.nVariance * 0.3)
    envStabilityFactor s
  let (moveHVar, s) := generateConservativeTinyVariation (stats.hVariance * 0.3)
    envStabilityFactor s
  let (dayEVar, s) := generateConservativeTinyVariation (stats.eVariance * 0.2)
    envStabilityFactor s
  let (dayNVar, s) := generateConservativeTinyVariation (stats.nVariance * 0.2)
    envStabilityFactor s
  let (dayHVar, s) := generateConservativeTinyVariation (stats.hVariance * 0.2)
    envStabilityFactor s
  let partialModel : GnssModel :=
    { dateTime := 0
      E := correctedPosition.1, N := correctedPosition.2.1, H := correctedPosition.2.2
      latitude := lastKnownPoint.latitude, longitude := lastKnownPoint.longitude
      height := lastKnownPoint.height
      angle := lastKnownPoint.angle + angleVariation
      axis := lastKnownPoint.axis + axisVariation
      plate := lastKnownPoint.plate + plateVariation
      moveE := moveEVar
      moveN := moveNVar
      moveH := moveHVar
      moveTotal := 0
      dayE := lastKnownPoint.dayE + dayEVar
      dayN := lastKnownPoint.dayN + dayNVar
      dayH := lastKnownPoint.dayH + dayHVar }
  ({ partialModel with moveTotal := calculateMoveTotal partialModel }, s)

/-- Point generation loop of generateConservativeExtension. -/
def conservLoop (totalCount : ℕ) (referencePoint : ℝ × ℝ × ℝ) (stats : ConservativeStats)
    (characteristics : StationCharacteristics) (weather : WeatherConditions)
    (isLongExtension : Bool) (lastKnownPoint : GnssModel) :
    List ℕ → GenState → List GnssModel × GenState
  | [], s => ([], s)
  | i :: rest, s =>
    let (m, s1) := generateConservativeDataPointWithControl i totalCount referencePoint
      stats characteristics weather isLongExtension lastKnownPoint s
    let (tail, s2) := conservLoop totalCount referencePoint stats characteristics weather
      isLongExtension lastKnownPoint rest s1
    (m :: tail, s2)

/-- Body of generateConservativeExtension before the final timestamp
assignment, factored out for the heap-level semantics. -/
def generateConservativeExtensionCore (s : GenState) (samples : List GnssModel) (count : ℤ)
    (lastKnownPoint : GnssModel) (stationCharacteristics : Option StationCharacteristics)
    (weatherConditions : Option WeatherConditions) : List GnssModel × GenState :=
  let medianReference := calculateMedianReference samples
    let s := { s with driftE := 0, driftN := 0, driftH := 0 }
    let stats := analyzeDataStats samples
    let inferredCharacteristics :=
      stationCharacteristics.getD (inferStationCharacteristics samples stats)
    let inferredWeather := weatherConditions.getD getDefaultWeatherConditions
    let solutionType := detectSolutionType samples
    let s := resetSeed s (42 + 999)
    let conservativeStats := analyzeConservativeStats samples
    let envNoiseFactor := calculateEnvironmentalNoiseFactor (some inferredCharacteristics) none
    let extensionOscillationFactor :=
      if solutionType = SolutionType.static then
        STATIC_OSCILLATION_ENHANCEMENT * 0.8 * envNoiseFactor
      else OSCILLATION_ENHANCEMENT * 0.5 * envNoiseFactor
    let adjustedStats : ConservativeStats :=
      { eVariance := conservativeStats.eVariance * extensionOscillationFactor
        nVariance := conservativeStats.nVariance * extensionOscillationFactor
        hVariance := conservativeStats.hVariance * extensionOscillationFactor }
    let adjustedStats :=
      if solutionType = SolutionType.static then
        { eVariance := min adjustedStats.eVariance 0.01
          nVariance := min adjustedStats.nVariance 0.01
          hVariance := min adjustedStats.hVariance 0.02 }
      else adjustedStats
    let isLongExtension := decide (432 < count)
    conservLoop count.toNat medianReference adjustedStats
      inferredCharacteristics inferredWeather isLongExtension lastKnownPoint
      (List.range count.toNat) s

/-- generateConservativeExtension: the extension operation, anchored at the
per-axis median of the sample window. Empty input or a nonpositive count
returns the empty list immediately, state untouched. -/
def generateConservativeExtension (s : GenState) (samples : List GnssModel) (count : ℤ)
    (lastKnownPoint : GnssModel) (stationCharacteristics : Option StationCharacteristics)
    (weatherConditions : Option WeatherConditions) : List GnssModel × GenState :=
  if samples.length = 0 ∨ count ≤ 0 then ([], s)
  else
    let (result, s) := generateConservativeExtensionCore s samples count lastKnownPoint
      stationCharacteristics weatherConditions
    (assignSequentialTimestamps result (getExtensionStartTimestamp lastKnownPoint), s)

/-- Method analyzeDataCompatibility of the generator: delegates to the
compatibility analyzer. -/
def analyzeDataCompatibility (generatedData realData : List GnssModel) :
    CompatibilityAnalysis :=
  DataCompatibilityAnalyzer.analyzeDataCompatibility generatedData realData

end DataGeneratorFixed

/-!
The refactored generator (DataGeneratorRefactored.ts). Only its solution
type dependent noise-budget clamping and its tuning constants are needed by
the claims; the PRNG class is shared with the fixed generator.
-/

namespace DataGeneratorRefactored

/-- Oscillation enhancement for static solutions (refactored tuning). -/
def STATIC_OSCILLATION_ENHANCEMENT : ℝ := 0.05

/-- Basic noise factor for static solutions (refactored tuning). -/
def STATIC_BASIC_NOISE_FACTOR : ℝ := 0.15

/-- External noise factor for static solutions (refactored tuning). -/
def STATIC_EXTERNAL_NOISE_FACTOR : ℝ := 0.3

/-- Oscillation enhancement for kinematic solutions (refactored tuning). -/
def OSCILLATION_ENHANCEMENT : ℝ := 0.2

/-- Basic noise factor for kinematic solutions (refactored tuning). -/
def BASIC_NOISE_FACTOR : ℝ := 0.6

/-- External noise factor for kinematic solutions (refactored tuning). -/
def EXTERNAL_NOISE_FACTOR : ℝ := 1.2

/-- adjustStatsForEnvironment of the refactored generator: scales the raw
standard deviations, then clamps each axis only when the solution type is
static; kinematic budgets pass through unclamped. -/
def adjustStatsForEnvironment (stats : DataStats) (oscillationFactor envNoiseFactor : ℝ)
    (solutionType : SolutionType) : DataStats :=
  let adjE := stats.eStdDev * oscillationFactor * envNoiseFactor
  let adjN := stats.nStdDev * oscillationFactor * envNoiseFactor
  let adjH := stats.hStdDev * oscillationFactor * envNoiseFactor
  if solutionType = SolutionType.static then
    { eStdDev := min (max adjE 0.001) 0.01
      nStdDev := min (max adjN 0.001) 0.01
      hStdDev := min (max adjH 0.002) 0.02 }
  else
    { eStdDev := adjE, nStdDev := adjN, hStdDev := adjH }

end DataGeneratorRefactored

/-!
Heap-level semantics for the frame property. JavaScript arrays of mutable
objects are modelled by lists of addresses into an object store; the only
statements in the sources that write into an already existing object are
the stamping loop of assignSequentialTimestamps and the moveTotal updates
on freshly constructed points (the latter happen before the point is
visible anywhere else and are already folded into the pure constructors).
Every public operation below allocates its freshly constructed outputs and
runs its writes on those fresh addresses only.
-/

/-- Object store: address = list index, allocation appends. -/
structure Heap where
  cells : List GnssModel

namespace Heap

/-- Dereference an address. -/
def read (h : Heap) (a : ℕ) : GnssModel :=
  h.cells.getD a default

/-- Overwrite the object at an address. -/
def write (h : Heap) (a : ℕ) (m : GnssModel) : Heap :=
  ⟨h.cells.set a m⟩

/-- Allocate a list of fresh objects, returning their addresses. -/
def alloc (h : Heap) (pts : List GnssModel) : List ℕ × Heap :=
  (List.range' h.cells.length pts.length, ⟨h.cells ++ pts⟩)

/-- Two heaps agree on every address below n. -/
def agreesBelow (h h' : Heap) (n : ℕ) : Prop :=
  ∀ i, i < n → h'.read i = h.read i

end Heap

namespace DataGeneratorH

open DataGeneratorFixed TimestampManager

/-- Stamping loop of assignSequentialTimestamps at the heap level: writes
data[i].dateTime = start + i x 10min through the address list. -/
def assignLoop (startTime : ℝ) : List ℕ → ℕ → Heap → Heap
  | [], _, h => h
  | a :: rest, i, h =>
    assignLoop startTime rest (i + 1)
      (h.write a { h.read a with dateTime := startTime + i * 10 * 60 * 1000 })

/-- assignSequentialTimestamps at the heap level. -/
def assignSequentialTimestampsH (h : Heap) (addrs : List ℕ) (startTime : ℝ) : Heap :=
  assignLoop startTime addrs 0 h

/-- generateRandomData at the heap level: reads the sample window, builds
the fresh result objects, allocates them and stamps their timestamps. -/
def generateRandomDataH (h : Heap) (s : GenState) (sampleAddrs : List ℕ) (count : ℤ)
    (stationCharacteristics : Option StationCharacteristics)
    (weatherConditions : Option WeatherConditions) : (List ℕ × Heap) × GenState :=
  let samples := sampleAddrs.map h.read
  match samples with
  | [] => (([], h), s)
  | _ :: _ =>
    let (result, s) := generateRandomDataCore s samples count stationCharacteristics
      weatherConditions
    let (addrs, h) := h.alloc result
    let h := assignSequentialTimestampsH h addrs (getStartTimestamp samples)
    ((addrs, h), s)

/-- generateConservativeExtension at the heap level. -/
def generateConservativeExtensionH (h : Heap) (s : GenState) (sampleAddrs : List ℕ)
    (count : ℤ) (lastKnownAddr : ℕ)
    (stationCharacteristics : Option StationCharacteristics)
    (weatherConditions : Option WeatherConditions) : (List ℕ × Heap) × GenState :=
  let samples := sampleAddrs.map h.read
  let lastKnownPoint := h.read lastKnownAddr
  if samples.length = 0 ∨ count ≤ 0 then (([], h), s)
  else
    let (result, s) := generateConservativeExtensionCore s samples count lastKnownPoint
      stationCharacteristics weatherConditions
    let (addrs, h) := h.alloc result
    let h := assignSequentialTimestampsH h addrs (getExtensionStartTimestamp lastKnownPoint)
    ((addrs, h), s)

/-- generateTransitionData at the heap level: the transition points are
fully constructed before becoming visible, so the only heap effect is their
allocation. -/
def generateTransitionDataH (h : Heap) (s : GenState) (genAddrs realAddrs : List ℕ)
    (transitionSteps : ℤ) : (List ℕ × Heap) × GenState :=
  let generatedData := genAddrs.map h.read
  let targetRealData := realAddrs.map h.read
  let (transPoints, s) := generateTransitionData s generatedData targetRealData transitionSteps
  let (addrs, h) := h.alloc transPoints
  ((addrs, h), s)

/-- generateSeamlessData at the heap level: the main segment through
generateRandomDataH, then the transition decision on the freshly written
objects, then the concatenated address list (the source spreads the two
arrays into a new one without touching the objects). -/
def generateSeamlessDataH (h : Heap) (s : GenState) (sampleAddrs : List ℕ) (count : ℤ)
    (nextRealAddrs : Option (List ℕ))
    (stationCharacteristics : Option StationCharacteristics)
    (weatherConditions : Option WeatherConditions) :
    (Except Unit (List ℕ) × Heap) × GenState :=
  let ((mainAddrs, h), s) := generateRandomDataH h s sampleAddrs count
    stationCharacteristics weatherConditions
  match nextRealAddrs with
  | none => ((Except.ok mainAddrs, h), s)
  | some realAddrs =>
    match realAddrs with
    | [] => ((Except.ok mainAddrs, h), s)
    | firstRealAddr :: _ =>
      let firstReal := h.read firstRealAddr
      match mainAddrs.getLast? with
      | none => ((Except.error (), h), s)
      | some lastAddr =>
        let lastGenerated := h.read lastAddr
        let samples := sampleAddrs.map h.read
        let solutionType := StationCharacteristicsInferrer.detectSolutionType samples
        let discontinuityThreshold :=
          StatisticsCalculator.calculateDiscontinuityThreshold samples solutionType
        let deltaE := |firstReal.E - lastGenerated.E|
        let deltaN := |firstReal.N - lastGenerated.N|
        let deltaH := |firstReal.H - lastGenerated.H|
        let maxDelta := max deltaE (max deltaN deltaH)
        let adjustedThreshold := discontinuityThreshold * 0.2
        if adjustedThreshold < maxDelta then
          let generationDurationHours := (mainAddrs.length : ℝ) / 6
          let adaptiveTransitionSteps :=
            DataCompatibilityAnalyzer.calculateAdaptiveTransitionSteps
              maxDelta discontinuityThreshold generationDurationHours
              MIN_TRANSITION_STEPS MAX_TRANSITION_STEPS
              TRANSITION_MULTIPLIER LONG_GENERATION_THRESHOLD_HOURS
          let adaptiveTransitionSteps :=
            if discontinuityThreshold * 2 < maxDelta then
              min (adaptiveTransitionSteps * 1.5) MAX_TRANSITION_STEPS
            else adaptiveTransitionSteps
          let ((transAddrs, h), s) := generateTransitionDataH h s mainAddrs realAddrs
            ⌊adaptiveTransitionSteps⌋
          ((Except.ok (mainAddrs ++ transAddrs), h), s)
        else ((Except.ok mainAddrs, h), s)

/-- analyzeDataCompatibility at the heap level: a pure read, the heap is
returned untouched (the source contains no assignment). -/
def analyzeDataCompatibilityH (h : Heap) (genAddrs realAddrs : List ℕ) :
    CompatibilityAnalysis × Heap :=
  (DataGeneratorFixed.analyzeDataCompatibility (genAddrs.map h.read) (realAddrs.map h.read), h)

end DataGeneratorH

/-!
Refinement definition and concrete inputs used by the claim theorems.
-/

/-- Modelled from the spec wording of discontinuityThreshold:
max(base, min(0.05, 4 x meanAxisStdDev)) with base 0.005 m for static and
0.02 m for kinematic, where the mean axis standard deviation comes from the
dispersion statistics. Stated for every sample window (the spec formula has
no small-window special case); compared against the source function. -/
def specDiscontinuityThreshold (samples : List GnssModel) (solutionType : SolutionType) : ℝ :=
  let stats := StatisticsCalculator.analyzeDataStats samples
  let base : ℝ := if solutionType = SolutionType.static then 0.005 else 0.02
  let meanAxisStdDev := (stats.eStdDev + stats.nStdDev + stats.hStdDev) / 3
  max base (min 0.05 (meanAxisStdDev * 4))

/-- A fresh generator instance state: constructor seed 42, zero drift. -/
def st0 : GenState :=
  { rng := 42, driftE := 0, driftN := 0, driftH := 0 }

/-- A plain real observation at the origin. -/
def pt0 : GnssModel :=
  { dateTime := 0, E := 0, N := 0, H := 0 }

/-- Second sample of the two-point window, ten minutes later. -/
def pt1 : GnssModel :=
  { dateTime := 600000, E := 0, N := 0, H := 0 }

/-- A two-sample window of identical coordinates (zero dispersion, static). -/
def windowC2 : List GnssModel :=
  [pt0, pt1]

/-- The main fill segment generated from the two-sample window with
count 1. -/
def mainC2 : List GnssModel :=
  (DataGeneratorFixed.generateRandomData st0 windowC2 1 none none).1

/-- The last (only) generated sample of the main segment. -/
def lastC2 : GnssModel :=
  mainC2.getLastD default

/-- The first following real sample: east coordinate 3 mm away from the
last generated sample (below the discontinuity threshold of the window but
above 0.2 x that threshold), timestamped 37 minutes after it. -/
def nextC2 : GnssModel :=
  { dateTime := 3420000, E := lastC2.E + 0.003, N := lastC2.N, H := lastC2.H }

/-- The seamless result for the window, count 1 and the following real
sample above. -/
def seamlessC2 : Except Unit (List GnssModel) :=
  (DataGeneratorFixed.generateSeamlessData st0 windowC2 1 (some [nextC2]) none none).1

/-- First sample of the 3 m jump window. -/
def jumpA : GnssModel :=
  { dateTime := 0, E := 0, N := 0, H := 0 }

/-- Second sample of the 3 m jump window: 3 m to the east. -/
def jumpB : GnssModel :=
  { dateTime := 600000, E := 3, N := 0, H := 0 }

/-- A two-sample window whose samples differ by a 3 m jump in position. -/
def jumpWindow : List GnssModel :=
  [jumpA, jumpB]

/-- Value returned by the n-th call to next() after reseeding, expressed
through the state iterates. -/
def nthUniform (seed : ℤ) (n : ℕ) : ℝ :=
  ((RandomNumberGenerator.stateAt seed (n + 1) : ℤ) : ℝ) / 4294967296

/-- Generator state left behind by the main segment generation of the C2
scenario (the state generateSeamlessData hands to the transition builder). -/
def sAfterMainC2 : GenState :=
  (DataGeneratorFixed.generateRandomData st0 windowC2 1 none none).2

/-- Station characteristics used inside generateConservativeExtension when
the caller supplies none: inferred from the window. -/
def conservSetupChar (samples : List GnssModel) : StationCharacteristics :=
  StationCharacteristicsInferrer.inferStationCharacteristics samples
    (StatisticsCalculator.analyzeDataStats samples)

/-- Adjusted conservative variances used inside generateConservativeExtension
when the caller supplies no characteristics: the conservative statistics
scaled by the extension oscillation factor, capped for static solutions.
Replicates the corresponding let chain of the source body verbatim. -/
def conservSetupStats (samples : List GnssModel) : ConservativeStats :=
  let solutionType := StationCharacteristicsInferrer.detectSolutionType samples
  let conservativeStats := StatisticsCalculator.analyzeConservativeStats samples
  let envNoiseFactor := EnvironmentalFactorCalculator.calculateEnvironmentalNoiseFactor
    (some (conservSetupChar samples)) none
  let extensionOscillationFactor :=
    if solutionType = SolutionType.static then
      DataGeneratorFixed.STATIC_OSCILLATION_ENHANCEMENT * 0.8 * envNoiseFactor
    else DataGeneratorFixed.OSCILLATION_ENHANCEMENT * 0.5 * envNoiseFactor
  let adjustedStats : ConservativeStats :=
    { eVariance := conservativeStats.eVariance * extensionOscillationFactor
      nVariance := conservativeStats.nVariance * extensionOscillationFactor
      hVariance := conservativeStats.hVariance * extensionOscillationFactor }
  if solutionType = SolutionType.static then
    { eVariance := min adjustedStats.eVariance 0.01
      nVariance := min adjustedStats.nVariance 0.01
      hVariance := min adjustedStats.hVariance 0.02 }
  else adjustedStats

/-- Boundary discontinuity of generateSeamlessData: the maximum per-axis
absolute delta between the last generated and the first real sample. -/
def seamlessMaxDelta (lastGenerated r : GnssModel) : ℝ :=
  max |r.E - lastGenerated.E| (max |r.N - lastGenerated.N| |r.H - lastGenerated.H|)

/-- Transition step count chosen by generateSeamlessData: the adaptive step
count (with the generator's 36 / 288 / 4 / 12 tuning), widened by 1.5 up to
the cap for discontinuities above twice the threshold. -/
def seamlessSteps (maxDelta threshold : ℝ) (mainLen : ℕ) : ℝ :=
  let steps := DataCompatibilityAnalyzer.calculateAdaptiveTransitionSteps maxDelta threshold
    ((mainLen : ℝ) / 6) 36 288 4 12
  if threshold * 2 < maxDelta then min (steps * 1.5) 288 else steps

/-- The transition segment appended in the C2 scenario. -/
def transC2 : List GnssModel :=
  (DataGeneratorFixed.generateTransitionData sAfterMainC2 mainC2 [nextC2] 36).1

/-- The seamless result of the C2 scenario as a plain list (the ok payload;
empty if an exception were thrown). -/
def resC7 : List GnssModel :=
  match seamlessC2 with
  | Except.ok l => l
  | Except.error _ => []

/-- Kinematic scaled window for the C3 counterexample: ten samples whose
east coordinate climbs by M metres each step (N and H constant). -/
def samplesC3 (M : ℝ) : List GnssModel :=
  [{ dateTime := 0, E := 0, N := 0, H := 0 },
   { dateTime := 600000, E := M, N := 0, H := 0 },
   { dateTime := 1200000, E := 2 * M, N := 0, H := 0 },
   { dateTime := 1800000, E := 3 * M, N := 0, H := 0 },
   { dateTime := 2400000, E := 4 * M, N := 0, H := 0 },
   { dateTime := 3000000, E := 5 * M, N := 0, H := 0 },
   { dateTime := 3600000, E := 6 * M, N := 0, H := 0 },
   { dateTime := 4200000, E := 7 * M, N := 0, H := 0 },
   { dateTime := 4800000, E := 8 * M, N := 0, H := 0 },
   { dateTime := 5400000, E := 9 * M, N := 0, H := 0 }]

/-- Benign station characteristics supplied in the C3 counterexample
(environmental noise product exactly 0.8, altitude 0). -/
def charC3 : StationCharacteristics :=
  { location := { latitude := 0, longitude := 0, altitude := 0 }
    environment := Environment.rural
    multipath := Multipath.low
    atmospheric := Atmospheric.stable
    installationQuality := InstallationQuality.excellent }

/-- Neutral weather supplied in the C3 counterexample (weather factor
exactly 1). -/
def wC3 : WeatherConditions :=
  { temperature := 20, humidity := 50, pressure := 1013.25
    precipitation := false, cloudCover := 0, visibility := 15 }

/-- Last known point of the C3 counterexample, placed so that the first
generated sample falls at midnight of day-of-year 80 (all sinusoids hit
exact grid points). -/
def lkC3 : GnssModel :=
  { dateTime := 6825000000, E := 0, N := 0, H := 0 }

/-- Generator-state invariant maintained by the conservative extension: the
PRNG state is nonnegative and the cumulative drift accumulators stay within
fixed bounds (4 m horizontally, 6 m vertically; 500 resp. 750 times the
drift-correction threshold 0.008). -/
def DriftInv (s : GenState) : Prop :=
  0 ≤ s.rng ∧ |s.driftE| ≤ 4 ∧ |s.driftN| ≤ 4 ∧ |s.driftH| ≤ 6

/-!
Helper lemmas.
-/

/-- A nonempty list has getLast? = some of its getLastD. -/
theorem getLast?_eq_getLastD {α : Type} [Inhabited α] (l : List α) (h : l ≠ []) :
    l.getLast? = some (l.getLastD default) := by
  cases l with
  | nil => exact absurd rfl h
  | cons x xs =>
    rw [List.getLastD_eq_getLast?]
    cases hx : (x :: xs).getLast? with
    | none => simp at hx
    | some v => rfl

namespace DataGeneratorFixed

/-- The point generation loop produces one sample per index. -/
theorem genLoop_length (samples : List GnssModel) (totalCount : ℕ)
    (trendE trendN trendH : List ℝ) (adjustedStats : DataStats)
    (characteristics : StationCharacteristics) (weather : WeatherConditions)
    (isLongGap : Bool) (solutionType : SolutionType) :
    ∀ (idxs : List ℕ) (s : GenState),
      ((genLoop samples totalCount trendE trendN trendH adjustedStats characteristics
        weather isLongGap solutionType idxs s).1).length = idxs.length := by
  intro idxs
  induction idxs with
  | nil => intro s; rfl
  | cons i rest ih =>
    intro s
    rcases hsel : selectDiverseBaseIndex samples.length i totalCount s with ⟨bi, s1⟩
    rcases hpt : generateStabilizedDataPoint i totalCount (samples.getD bi default)
      (trendE.getD i 0) (trendN.getD i 0) (trendH.getD i 0) adjustedStats characteristics
      weather isLongGap solutionType samples s1 with ⟨m, s2⟩
    simp only [genLoop, hsel, hpt]
    rcases hrest : genLoop samples totalCount trendE trendN trendH adjustedStats
      characteristics weather isLongGap solutionType rest s2 with ⟨tail, s3⟩
    have := ih s2
    rw [hrest] at this
    simpa using this

/-- The conservative extension loop produces one sample per index. -/
theorem conservLoop_length (totalCount : ℕ) (referencePoint : ℝ × ℝ × ℝ)
    (stats : ConservativeStats) (characteristics : StationCharacteristics)
    (weather : WeatherConditions) (isLongExtension : Bool) (lastKnownPoint : GnssModel) :
    ∀ (idxs : List ℕ) (s : GenState),
      ((conservLoop totalCount referencePoint stats characteristics weather isLongExtension
        lastKnownPoint idxs s).1).length = idxs.length := by
  intro idxs
  induction idxs with
  | nil => intro s; rfl
  | cons i rest ih =>
    intro s
    rcases hpt : generateConservativeDataPointWithControl i totalCount referencePoint stats
      characteristics weather isLongExtension lastKnownPoint s with ⟨m, s1⟩
    simp only [conservLoop, hpt]
    rcases hrest : conservLoop totalCount referencePoint stats characteristics weather
      isLongExtension lastKnownPoint rest s1 with ⟨tail, s2⟩
    have := ih s1
    rw [hrest] at this
    simpa using this

/-- The transition loop produces one sample per step index, and its
timestamps interpolate between the two boundary timestamps at
progress i / (steps + 1). -/
theorem transLoop_spec (lastGenerated firstReal : GnssModel) (deltaE deltaN deltaH : ℝ)
    (transitionSteps : ℤ) :
    ∀ (idxs : List ℕ) (s : GenState),
      ((transLoop lastGenerated firstReal deltaE deltaN deltaH transitionSteps idxs s).1).map
          (fun m => m.dateTime) =
        idxs.map (fun i : ℕ => TimestampManager.interpolateTimestamp lastGenerated.dateTime
          firstReal.dateTime ((i : ℝ) / ((transitionSteps : ℝ) + 1))) := by
  intro idxs
  induction idxs with
  | nil => intro s; rfl
  | cons i rest ih =>
    intro s
    rcases h1 : RandomNumberGenerator.next s with ⟨v1, s1⟩
    rcases h2 : RandomNumberGenerator.next s1 with ⟨v2, s2⟩
    rcases h3 : RandomNumberGenerator.next s2 with ⟨v3, s3⟩
    simp only [transLoop, h1, h2, h3]
    rcases hrest : transLoop lastGenerated firstReal deltaE deltaN deltaH transitionSteps
      rest s3 with ⟨tail, s4⟩
    have := ih s3
    rw [hrest] at this
    simpa using this

end DataGeneratorFixed

/-- Stamped lists keep their length. -/
theorem assign_length (data : List GnssModel) (startTime : ℝ) :
    (TimestampManager.assignSequentialTimestamps data startTime).length = data.length := by
  simp [TimestampManager.assignSequentialTimestamps]

/-- Timestamps of a stamped list: position i carries start + i x 10 min. -/
theorem assign_map_dateTime (data : List GnssModel) (startTime : ℝ) :
    (TimestampManager.assignSequentialTimestamps data startTime).map (fun m => m.dateTime) =
      (List.range data.length).map (fun i : ℕ => startTime + (i : ℝ) * 10 * 60 * 1000) := by
  apply List.ext_getElem (by simp [TimestampManager.assignSequentialTimestamps])
  intro i h1 h2
  simp [TimestampManager.assignSequentialTimestamps]

namespace DataGeneratorFixed

/-- The core of generateRandomData produces exactly count.toNat samples. -/
theorem generateRandomDataCore_length (s : GenState) (samples : List GnssModel) (count : ℤ)
    (c : Option StationCharacteristics) (w : Option WeatherConditions) :
    ((generateRandomDataCore s samples count c w).1).length = count.toNat := by
  simp only [generateRandomDataCore]
  generalize generateStabilizedLongTermTrend _ _ _ _ = pE
  obtain ⟨tE, sE⟩ := pE
  generalize generateStabilizedLongTermTrend _ _ _ _ = pN
  obtain ⟨tN, sN⟩ := pN
  generalize generateStabilizedLongTermTrend _ _ _ _ = pH
  obtain ⟨tH, sH⟩ := pH
  rw [genLoop_length]
  exact List.length_range _

/-- generateRandomData on a nonempty window produces exactly count.toNat
samples. -/
theorem generateRandomData_length (s : GenState) (x : GnssModel) (xs : List GnssModel)
    (count : ℤ) (c : Option StationCharacteristics) (w : Option WeatherConditions) :
    ((generateRandomData s (x :: xs) count c w).1).length = count.toNat := by
  rcases hcore : generateRandomDataCore s (x :: xs) count c w with ⟨result, s2⟩
  simp only [generateRandomData, hcore]
  rw [assign_length]
  have := generateRandomDataCore_length s (x :: xs) count c w
  rw [hcore] at this
  exact this

/-- Timestamps of generateRandomData on a nonempty window: position i
carries the last input timestamp plus (i + 1) x 10 min. -/
theorem generateRandomData_map_dateTime (s : GenState) (x : GnssModel)
    (xs : List GnssModel) (count : ℤ) (c : Option StationCharacteristics)
    (w : Option WeatherConditions) :
    ((generateRandomData s (x :: xs) count c w).1).map (fun m => m.dateTime) =
      (List.range count.toNat).map (fun i : ℕ =>
        (((x :: xs).getLastD default).dateTime + 10 * 60 * 1000) +
          (i : ℝ) * (10 * 60 * 1000)) := by
  rcases hcore : generateRandomDataCore s (x :: xs) count c w with ⟨result, s2⟩
  simp only [generateRandomData, hcore]
  rw [assign_map_dateTime]
  have hlen : result.length = count.toNat := by
    have := generateRandomDataCore_length s (x :: xs) count c w
    rw [hcore] at this
    exact this
  rw [hlen]
  apply List.map_congr_left
  intro i _
  simp [TimestampManager.getStartTimestamp]
  ring

end DataGeneratorFixed

namespace DataGeneratorFixed

/-- The core of generateConservativeExtension produces exactly count.toNat
samples. -/
theorem generateConservativeExtensionCore_length (s : GenState) (samples : List GnssModel)
    (count : ℤ) (p : GnssModel) (c : Option StationCharacteristics)
    (w : Option WeatherConditions) :
    ((generateConservativeExtensionCore s samples count p c w).1).length = count.toNat := by
  simp only [generateConservativeExtensionCore]
  rw [conservLoop_length]
  exact List.length_range _

/-- generateConservativeExtension on a nonempty window with positive count
produces exactly count.toNat samples. -/
theorem generateConservativeExtension_length (s : GenState) (x : GnssModel)
    (xs : List GnssModel) (k : ℕ) (p : GnssModel) (c : Option StationCharacteristics)
    (w : Option WeatherConditions) :
    ((generateConservativeExtension s (x :: xs) ((k : ℤ) + 1) p c w).1).length = k + 1 := by
  have hguard : ¬((x :: xs).length = 0 ∨ ((k : ℤ) + 1) ≤ 0) := by
    push_neg
    constructor
    · simp
    · positivity
  rcases hcore : generateConservativeExtensionCore s (x :: xs) ((k : ℤ) + 1) p c w
    with ⟨result, s2⟩
  simp only [generateConservativeExtension, if_neg hguard, hcore]
  rw [assign_length]
  have := generateConservativeExtensionCore_length s (x :: xs) ((k : ℤ) + 1) p c w
  rw [hcore] at this
  simpa using this

/-- Timestamps of generateConservativeExtension: position i carries the last
known timestamp plus (i + 1) x 10 min. -/
theorem generateConservativeExtension_map_dateTime (s : GenState) (x : GnssModel)
    (xs : List GnssModel) (k : ℕ) (p : GnssModel) (c : Option StationCharacteristics)
    (w : Option WeatherConditions) :
    ((generateConservativeExtension s (x :: xs) ((k : ℤ) + 1) p c w).1).map
        (fun m => m.dateTime) =
      (List.range (k + 1)).map (fun i : ℕ =>
        (p.dateTime + 10 * 60 * 1000) + (i : ℝ) * (10 * 60 * 1000)) := by
  have hguard : ¬((x :: xs).length = 0 ∨ ((k : ℤ) + 1) ≤ 0) := by
    push_neg
    constructor
    · simp
    · positivity
  rcases hcore : generateConservativeExtensionCore s (x :: xs) ((k : ℤ) + 1) p c w
    with ⟨result, s2⟩
  simp only [generateConservativeExtension, if_neg hguard, hcore]
  rw [assign_map_dateTime]
  have hlen : result.length = k + 1 := by
    have := generateConservativeExtensionCore_length s (x :: xs) ((k : ℤ) + 1) p c w
    rw [hcore] at this
    simpa using this
  rw [hlen]
  apply List.map_congr_left
  intro i _
  simp [TimestampManager.getExtensionStartTimestamp]
  ring

/-- Length of a transition segment between nonempty lists: one sample per
step. -/
theorem generateTransitionData_length (s : GenState) (g : GnssModel) (gs : List GnssModel)
    (r : GnssModel) (rs : List GnssModel) (transitionSteps : ℤ) :
    ((generateTransitionData s (g :: gs) (r :: rs) transitionSteps).1).length =
      transitionSteps.toNat := by
  have hguard : ¬((g :: gs).length = 0 ∨ (r :: rs).length = 0) := by simp
  simp only [generateTransitionData, if_neg hguard]
  have hspec := transLoop_spec ((g :: gs).getLastD default) ((r :: rs).headD default)
    (((r :: rs).headD default).E - ((g :: gs).getLastD default).E)
    (((r :: rs).headD default).N - ((g :: gs).getLastD default).N)
    (((r :: rs).headD default).H - ((g :: gs).getLastD default).H)
    transitionSteps (List.range' 1 transitionSteps.toNat) s
  have hlen := congrArg List.length hspec
  simpa using hlen

/-- Timestamps of a transition segment between nonempty lists: interpolated
between the last generated and first real timestamps at progress
i / (steps + 1) for i = 1, ..., steps. -/
theorem generateTransitionData_map_dateTime (s : GenState) (g : GnssModel)
    (gs : List GnssModel) (r : GnssModel) (rs : List GnssModel) (transitionSteps : ℤ) :
    ((generateTransitionData s (g :: gs) (r :: rs) transitionSteps).1).map
        (fun m => m.dateTime) =
      (List.range' 1 transitionSteps.toNat).map (fun i : ℕ =>
        TimestampManager.interpolateTimestamp ((g :: gs).getLastD default).dateTime
          r.dateTime ((i : ℝ) / ((transitionSteps : ℝ) + 1))) := by
  have hguard : ¬((g :: gs).length = 0 ∨ (r :: rs).length = 0) := by simp
  simp only [generateTransitionData, if_neg hguard]
  exact transLoop_spec _ _ _ _ _ _ _ _

end DataGeneratorFixed

/-!
C1. EmptyInput behavior of the generation operations.
-/

/-- C1: generateRandomData and generateConservativeExtension return the
empty sequence for an empty window or a nonpositive count, and
generateSeamlessData does so when no following real data is supplied; but
generateSeamlessData with an empty sample window and a nonempty
nextRealData argument dereferences the last element of the empty main
segment and throws a TypeError (modelled as Except.error ()) instead of
returning an empty sequence. -/
theorem claim_C1_seamless_empty_window_throws :
    (∀ (s : GenState) (count : ℤ) (c : Option StationCharacteristics)
        (w : Option WeatherConditions),
      (DataGeneratorFixed.generateRandomData s [] count c w).1 = []) ∧
    (∀ (s : GenState) (x : GnssModel) (xs : List GnssModel) (k : ℕ)
        (c : Option StationCharacteristics) (w : Option WeatherConditions),
      (DataGeneratorFixed.generateRandomData s (x :: xs) (-(k : ℤ)) c w).1 = []) ∧
    (∀ (s : GenState) (count : ℤ) (p : GnssModel) (c : Option StationCharacteristics)
        (w : Option WeatherConditions),
      (DataGeneratorFixed.generateConservativeExtension s [] count p c w).1 = []) ∧
    (∀ (s : GenState) (samples : List GnssModel) (k : ℕ) (p : GnssModel)
        (c : Option StationCharacteristics) (w : Option WeatherConditions),
      (DataGeneratorFixed.generateConservativeExtension s samples (-(k : ℤ)) p c w).1 = []) ∧
    (∀ (s : GenState) (count : ℤ) (c : Option StationCharacteristics)
        (w : Option WeatherConditions),
      (DataGeneratorFixed.generateSeamlessData s [] count none c w).1 = Except.ok []) ∧
    (DataGeneratorFixed.generateSeamlessData st0 [] 1 (some [pt0]) none none).1 =
      Except.error () := by
  refine ⟨fun s count c w => rfl, ?_, fun s count p c w => by
    simp [DataGeneratorFixed.generateConservativeExtension], ?_, fun s count c w => rfl, rfl⟩
  · intro s x xs k c w
    have hlen := DataGeneratorFixed.generateRandomData_length s x xs (-(k : ℤ)) c w
    have hz : (-(k : ℤ)).toNat = 0 := by omega
    rw [hz] at hlen
    exact List.length_eq_zero.mp hlen
  · intro s samples k p c w
    have hcond : samples.length = 0 ∨ -(k : ℤ) ≤ 0 := Or.inr (by omega)
    simp only [DataGeneratorFixed.generateConservativeExtension, if_pos hcond]

/-!
C6. Determinism: each generation operation reseeds the PRNG and resets the
drift accumulators at entry, so its output does not depend on the incoming
instance state.
-/

/-- C6: for every fixed argument tuple, generateRandomData (generateFill)
and generateConservativeExtension (generateExtension) produce the same
output sequence from any two instance states: the operations reseed the
PRNG (seed 42 and seed 42 + 999 respectively) and zero the drift
accumulators at entry, so the result depends only on the arguments. -/
theorem claim_C6_determinism :
    (∀ (s1 s2 : GenState) (samples : List GnssModel) (count : ℤ)
        (c : Option StationCharacteristics) (w : Option WeatherConditions),
      (DataGeneratorFixed.generateRandomData s1 samples count c w).1 =
        (DataGeneratorFixed.generateRandomData s2 samples count c w).1) ∧
    (∀ (s1 s2 : GenState) (samples : List GnssModel) (count : ℤ) (p : GnssModel)
        (c : Option StationCharacteristics) (w : Option WeatherConditions),
      (DataGeneratorFixed.generateConservativeExtension s1 samples count p c w).1 =
        (DataGeneratorFixed.generateConservativeExtension s2 samples count p c w).1) := by
  constructor
  · intro s1 s2 samples count c w
    cases samples with
    | nil => rfl
    | cons x xs => rfl
  · intro s1 s2 samples count p c w
    by_cases h : samples.length = 0 ∨ count ≤ 0
    · simp only [DataGeneratorFixed.generateConservativeExtension, if_pos h]
    · simp only [DataGeneratorFixed.generateConservativeExtension, if_neg h]
      rfl

/-!
C5. Noise budget clamping in the fill operation.
-/

/-- C5 counterexample: the operative fixed generator clamps the adjusted
noise budget to the same bounds for the static and the kinematic
oscillation factors (at a saturating input both come out as exactly
(0.020, 0.020, 0.030)), so no tighter static-specific bound exists there;
and the refactored generator applies no clamp at all for kinematic
solutions (a saturating input passes through as 0.2 m). -/
theorem claim_C5_counterexample :
    DataGeneratorFixed.adjustStatsForEnvironment ⟨1, 1, 1⟩
        DataGeneratorFixed.STATIC_OSCILLATION_ENHANCEMENT 1 =
      DataGeneratorFixed.adjustStatsForEnvironment ⟨1, 1, 1⟩
        DataGeneratorFixed.OSCILLATION_ENHANCEMENT 1 ∧
    DataGeneratorFixed.adjustStatsForEnvironment ⟨1, 1, 1⟩
        DataGeneratorFixed.STATIC_OSCILLATION_ENHANCEMENT 1 =
      ⟨0.020, 0.020, 0.030⟩ ∧
    (DataGeneratorRefactored.adjustStatsForEnvironment ⟨1, 1, 1⟩
        DataGeneratorRefactored.OSCILLATION_ENHANCEMENT 1 SolutionType.kinematic).eStdDev =
      0.2 := by
  refine ⟨?_, ?_, ?_⟩
  · simp only [DataGeneratorFixed.adjustStatsForEnvironment,
      DataGeneratorFixed.STATIC_OSCILLATION_ENHANCEMENT,
      DataGeneratorFixed.OSCILLATION_ENHANCEMENT, DataStats.mk.injEq]
    norm_num
  · simp only [DataGeneratorFixed.adjustStatsForEnvironment,
      DataGeneratorFixed.STATIC_OSCILLATION_ENHANCEMENT, DataStats.mk.injEq]
    norm_num
  · simp only [DataGeneratorRefactored.adjustStatsForEnvironment,
      DataGeneratorRefactored.OSCILLATION_ENHANCEMENT]
    rw [if_neg (by decide)]
    norm_num

/-- C5 amended: in the fixed generator the adjusted standard deviations are
clamped into [0.010, 0.020] (east, north) and [0.020, 0.030] (height)
independently of the solution type; in the refactored generator only the
static type is clamped, into the tighter [0.001, 0.01] (east, north) and
[0.002, 0.02] (height), while the kinematic budget is the raw scaled value
with no bound at all. -/
theorem claim_C5_amended :
    (∀ (stats : DataStats) (osc env : ℝ),
      0.010 ≤ (DataGeneratorFixed.adjustStatsForEnvironment stats osc env).eStdDev ∧
      (DataGeneratorFixed.adjustStatsForEnvironment stats osc env).eStdDev ≤ 0.020 ∧
      0.010 ≤ (DataGeneratorFixed.adjustStatsForEnvironment stats osc env).nStdDev ∧
      (DataGeneratorFixed.adjustStatsForEnvironment stats osc env).nStdDev ≤ 0.020 ∧
      0.020 ≤ (DataGeneratorFixed.adjustStatsForEnvironment stats osc env).hStdDev ∧
      (DataGeneratorFixed.adjustStatsForEnvironment stats osc env).hStdDev ≤ 0.030) ∧
    (∀ (stats : DataStats) (osc env : ℝ),
      0.001 ≤ (DataGeneratorRefactored.adjustStatsForEnvironment stats osc env
        SolutionType.static).eStdDev ∧
      (DataGeneratorRefactored.adjustStatsForEnvironment stats osc env
        SolutionType.static).eStdDev ≤ 0.01 ∧
      0.001 ≤ (DataGeneratorRefactored.adjustStatsForEnvironment stats osc env
        SolutionType.static).nStdDev ∧
      (DataGeneratorRefactored.adjustStatsForEnvironment stats osc env
        SolutionType.static).nStdDev ≤ 0.01 ∧
      0.002 ≤ (DataGeneratorRefactored.adjustStatsForEnvironment stats osc env
        SolutionType.static).hStdDev ∧
      (DataGeneratorRefactored.adjustStatsForEnvironment stats osc env
        SolutionType.static).hStdDev ≤ 0.02) ∧
    (∀ (stats : DataStats) (osc env : ℝ),
      DataGeneratorRefactored.adjustStatsForEnvironment stats osc env
        SolutionType.kinematic =
      ⟨stats.eStdDev * osc * env, stats.nStdDev * osc * env, stats.hStdDev * osc * env⟩) := by
  refine ⟨fun stats osc env => ?_, fun stats osc env => ?_, fun stats osc env => rfl⟩
  · simp only [DataGeneratorFixed.adjustStatsForEnvironment]
    refine ⟨le_min (le_max_right _ _) (by norm_num), min_le_right _ _,
      le_min (le_max_right _ _) (by norm_num), min_le_right _ _,
      le_min (le_max_right _ _) (by norm_num), min_le_right _ _⟩
  · simp only [DataGeneratorRefactored.adjustStatsForEnvironment, if_pos rfl]
    refine ⟨le_min (le_max_right _ _) (by norm_num), min_le_right _ _,
      le_min (le_max_right _ _) (by norm_num), min_le_right _ _,
      le_min (le_max_right _ _) (by norm_num), min_le_right _ _⟩

/-!
C8. The discontinuity threshold formula.
-/

/-- C8 counterexample: for a window of fewer than two samples the source
returns the flat default 0.01 m, while the claimed formula (with the
documented small-window dispersion floors 2 mm / 2 mm / 5 mm) gives
0.012 m. -/
theorem claim_C8_counterexample :
    StatisticsCalculator.calculateDiscontinuityThreshold [] SolutionType.static = 0.01 ∧
    specDiscontinuityThreshold [] SolutionType.static = 0.012 ∧
    (0.01 : ℝ) ≠ 0.012 := by
  refine ⟨?_, ?_, by norm_num⟩
  · simp [StatisticsCalculator.calculateDiscontinuityThreshold]
  · simp only [specDiscontinuityThreshold, StatisticsCalculator.analyzeDataStats]
    norm_num

/-- C8 amended: for every window of at least two samples and every solution
type, calculateDiscontinuityThreshold equals the spec formula
max(base, min(0.05, 4 x mean of the three per-axis standard deviations)),
base 0.005 m for static and 0.02 m for kinematic; windows of fewer than two
samples get the flat default 0.01 m instead. -/
theorem claim_C8_amended (a b : GnssModel) (rest : List GnssModel) (t : SolutionType) :
    StatisticsCalculator.calculateDiscontinuityThreshold (a :: b :: rest) t =
      specDiscontinuityThreshold (a :: b :: rest) t := by
  have h2 : ¬((a :: b :: rest).length < 2) := by simp
  simp only [StatisticsCalculator.calculateDiscontinuityThreshold, if_neg h2,
    specDiscontinuityThreshold]

/-!
C9. The pseudo-random source contract.
-/

/-- C9 counterexample: the integer seed -1000 makes the very first uniform
draw negative (the JavaScript % operator keeps the sign of its dividend),
violating the claimed range [0, 1). -/
theorem claim_C9_counterexample : nthUniform (-1000) 0 < 0 := by
  have h1 : RandomNumberGenerator.stateAt (-1000) 1 = -650620777 := by
    show RandomNumberGenerator.lcgNext (-1000) = -650620777
    decide
  rw [nthUniform, h1]
  norm_num

/-- The LCG step maps a nonnegative state into [0, 0x100000000). -/
theorem lcgNext_range (s : ℤ) (h : 0 ≤ s) :
    0 ≤ RandomNumberGenerator.lcgNext s ∧ RandomNumberGenerator.lcgNext s < 4294967296 := by
  constructor
  · apply Int.tmod_nonneg
    positivity
  · have h2 : (0 : ℤ) < 4294967296 := by norm_num
    have := Int.tmod_lt_of_pos (s * 1664525 + 1013904223) h2
    exact this

/-- Every state iterate from a nonnegative seed stays nonnegative. -/
theorem stateAt_nonneg (seed : ℤ) (h : 0 ≤ seed) (n : ℕ) :
    0 ≤ RandomNumberGenerator.stateAt seed n := by
  induction n with
  | zero => exact h
  | succ n ih => exact (lcgNext_range _ ih).1

/-- C9 amended: for every nonnegative integer seed and every position in
the call sequence, next() returns exactly the value of the state iterate
divided by 0x100000000, that value lies in [0, 1), and the Box-Muller
radicand -2 log(1 - u) computed from it is nonnegative, so gaussianRandom
builds a well-defined (finite) real number. For negative seeds the uniform
value can be negative (see the counterexample) and the radicand can be
negative, which in JavaScript surfaces as NaN. -/
theorem claim_C9_amended (seed : ℕ) (n : ℕ) (dE dN dH : ℝ) :
    (RandomNumberGenerator.next
        { rng := RandomNumberGenerator.stateAt (seed : ℤ) n,
          driftE := dE, driftN := dN, driftH := dH }).1 = nthUniform (seed : ℤ) n ∧
    0 ≤ nthUniform (seed : ℤ) n ∧ nthUniform (seed : ℤ) n < 1 ∧
    0 ≤ -2 * Real.log (1 - nthUniform (seed : ℤ) n) := by
  have hst := stateAt_nonneg (seed : ℤ) (by positivity) n
  have hrange := lcgNext_range _ hst
  have hv0 : (0 : ℝ) ≤ nthUniform (seed : ℤ) n := by
    rw [nthUniform]
    have : (0 : ℝ) ≤ ((RandomNumberGenerator.stateAt (seed : ℤ) (n + 1) : ℤ) : ℝ) := by
      exact_mod_cast (stateAt_nonneg (seed : ℤ) (by positivity) (n + 1))
    positivity
  have hv1 : nthUniform (seed : ℤ) n < 1 := by
    rw [nthUniform]
    rw [div_lt_one (by norm_num)]
    have : RandomNumberGenerator.stateAt (seed : ℤ) (n + 1) < 4294967296 := hrange.2
    exact_mod_cast this
  refine ⟨rfl, hv0, hv1, ?_⟩
  have hlog : Real.log (1 - nthUniform (seed : ℤ) n) ≤ 0 :=
    Real.log_nonpos (by linarith) (by linarith)
  linarith

/-!
C4. The two-sample 3 m jump scenario.
-/

/-- C4 counterexample: no two-sample window whatsoever (in particular none
with a 3 m jump) is classified kinematic, because detectSolutionType
defaults to static below ten samples. -/
theorem claim_C4_counterexample :
    ¬ ∃ (s1 s2 : GnssModel),
      Real.sqrt ((s2.E - s1.E) ^ 2 + (s2.N - s1.N) ^ 2 + (s2.H - s1.H) ^ 2) = 3 ∧
      StationCharacteristicsInferrer.detectSolutionType [s1, s2] = SolutionType.kinematic := by
  rintro ⟨s1, s2, -, hk⟩
  have hs : StationCharacteristicsInferrer.detectSolutionType [s1, s2] =
      SolutionType.static := by
    simp [StationCharacteristicsInferrer.detectSolutionType]
  rw [hs] at hk
  exact SolutionType.noConfusion hk

/-- The sample standard deviation of the two values 0 and 3 is sqrt(4.5). -/
theorem stddev_zero_three :
    StatisticsCalculator.calculateStandardDeviation [(0 : ℝ), 3] = Real.sqrt 4.5 := by
  have h2 : ¬(([(0 : ℝ), 3]).length < 2) := by simp
  simp only [StatisticsCalculator.calculateStandardDeviation, if_neg h2]
  norm_num

/-- sqrt(4.5) is at least 2. -/
theorem sqrt_fourpointfive_ge_two : (2 : ℝ) ≤ Real.sqrt 4.5 := by
  rw [show (2 : ℝ) = Real.sqrt 4 by
    rw [show (4 : ℝ) = 2 ^ 2 by norm_num, Real.sqrt_sq]; norm_num]
  exact Real.sqrt_le_sqrt (by norm_num)

/-- C4 amended: a two-sample window with a 3 m east jump is classified
static (the below-ten-samples default), and its discontinuity threshold is
0.05 m (the adaptive cap, reached because the huge jump inflates the east
standard deviation), under either solution-type argument; neither value of
the claim (kinematic, 0.02 m) occurs. -/
theorem claim_C4_amended :
    StationCharacteristicsInferrer.detectSolutionType jumpWindow = SolutionType.static ∧
    StatisticsCalculator.calculateDiscontinuityThreshold jumpWindow SolutionType.static
      = 0.05 ∧
    StatisticsCalculator.calculateDiscontinuityThreshold jumpWindow SolutionType.kinematic
      = 0.05 := by
  have hmapE : jumpWindow.map (fun s => s.E) = [(0 : ℝ), 3] := by
    simp [jumpWindow, jumpA, jumpB]
  have hmapN : jumpWindow.map (fun s => s.N) = [(0 : ℝ), 0] := by
    simp [jumpWindow, jumpA, jumpB]
  have hmapH : jumpWindow.map (fun s => s.H) = [(0 : ℝ), 0] := by
    simp [jumpWindow, jumpA, jumpB]
  have hlen2 : ¬(jumpWindow.length < 2) := by simp [jumpWindow]
  have hsd0 : StatisticsCalculator.calculateStandardDeviation [(0 : ℝ), 0] = 0 := by
    have h2 : ¬(([(0 : ℝ), 0]).length < 2) := by simp
    simp only [StatisticsCalculator.calculateStandardDeviation, if_neg h2]
    norm_num
  have hstats : StatisticsCalculator.analyzeDataStats jumpWindow =
      { eStdDev := Real.sqrt 4.5, nStdDev := 0.001, hStdDev := 0.002 } := by
    simp only [StatisticsCalculator.analyzeDataStats, if_neg hlen2, hmapE, hmapN, hmapH,
      stddev_zero_three, hsd0]
    have he : max (Real.sqrt 4.5) 0.001 = Real.sqrt 4.5 :=
      max_eq_left (by linarith [sqrt_fourpointfive_ge_two])
    have hn : max (0 : ℝ) 0.001 = 0.001 := max_eq_right (by norm_num)
    have hh : max (0 : ℝ) 0.002 = 0.002 := max_eq_right (by norm_num)
    rw [he, hn, hh]
  have hcap : ∀ t : SolutionType,
      StatisticsCalculator.calculateDiscontinuityThreshold jumpWindow t =
        max (if t = SolutionType.static then (0.005 : ℝ) else 0.02) 0.05 := by
    intro t
    simp only [StatisticsCalculator.calculateDiscontinuityThreshold, if_neg hlen2, hstats]
    congr 1
    have havg : (0.05 : ℝ) ≤ (Real.sqrt 4.5 + 0.001 + 0.002) / 3 * 4 := by
      have := sqrt_fourpointfive_ge_two
      linarith
    exact min_eq_left havg
  refine ⟨by simp [jumpWindow, StationCharacteristicsInferrer.detectSolutionType], ?_, ?_⟩
  · rw [hcap]
    simp only [if_pos rfl]
    exact max_eq_right (by norm_num)
  · rw [hcap]
    rw [if_neg (by decide)]
    exact max_eq_right (by norm_num)

/-!
The seamless decision rule and the C2 scenario computations.
-/

namespace DataGeneratorFixed

/-- Spelled-out decision rule of generateSeamlessData on a nonempty window,
positive count and nonempty following segment: the transition is appended
exactly when the boundary discontinuity exceeds 0.2 x the discontinuity
threshold of the sample window; otherwise the main segment is returned
unchanged. -/
theorem seamless_decision (s : GenState) (x : GnssModel) (xs : List GnssModel) (k : ℕ)
    (r : GnssModel) (rs : List GnssModel) (c : Option StationCharacteristics)
    (w : Option WeatherConditions) :
    (generateSeamlessData s (x :: xs) ((k : ℤ) + 1) (some (r :: rs)) c w).1 =
      (if StatisticsCalculator.calculateDiscontinuityThreshold (x :: xs)
            (StationCharacteristicsInferrer.detectSolutionType (x :: xs)) * 0.2 <
          seamlessMaxDelta
            (((generateRandomData s (x :: xs) ((k : ℤ) + 1) c w).1).getLastD default) r
      then
        Except.ok ((generateRandomData s (x :: xs) ((k : ℤ) + 1) c w).1 ++
          (generateTransitionData (generateRandomData s (x :: xs) ((k : ℤ) + 1) c w).2
            ((generateRandomData s (x :: xs) ((k : ℤ) + 1) c w).1) (r :: rs)
            ⌊seamlessSteps
              (seamlessMaxDelta
                (((generateRandomData s (x :: xs) ((k : ℤ) + 1) c w).1).getLastD default) r)
              (StatisticsCalculator.calculateDiscontinuityThreshold (x :: xs)
                (StationCharacteristicsInferrer.detectSolutionType (x :: xs)))
              ((generateRandomData s (x :: xs) ((k : ℤ) + 1) c w).1).length⌋).1)
      else Except.ok ((generateRandomData s (x :: xs) ((k : ℤ) + 1) c w).1)) := by
  rcases hmain : generateRandomData s (x :: xs) ((k : ℤ) + 1) c w with ⟨md, s1⟩
  have hne : md ≠ [] := by
    have hl := generateRandomData_length s x xs ((k : ℤ) + 1) c w
    rw [hmain] at hl
    intro hmd
    rw [hmd] at hl
    simp at hl
  have hlast := getLast?_eq_getLastD md hne
  simp only [generateSeamlessData, hmain, hlast, seamlessMaxDelta, seamlessSteps,
    MIN_TRANSITION_STEPS, MAX_TRANSITION_STEPS, TRANSITION_MULTIPLIER,
    LONG_GENERATION_THRESHOLD_HOURS]
  split_ifs <;> rfl

end DataGeneratorFixed

/-- The two-sample zero-dispersion window is classified static. -/
theorem windowC2_static :
    StationCharacteristicsInferrer.detectSolutionType windowC2 = SolutionType.static := by
  simp [windowC2, StationCharacteristicsInferrer.detectSolutionType]

/-- The sample standard deviation of two equal values is zero. -/
theorem stddev_zero_zero : StatisticsCalculator.calculateStandardDeviation [(0 : ℝ), 0] = 0 := by
  have h2 : ¬(([(0 : ℝ), 0]).length < 2) := by simp
  simp only [StatisticsCalculator.calculateStandardDeviation, if_neg h2]
  norm_num

/-- Dispersion statistics of the C2 window: the 1 mm / 1 mm / 2 mm floors. -/
theorem windowC2_stats :
    StatisticsCalculator.analyzeDataStats windowC2 =
      { eStdDev := 0.001, nStdDev := 0.001, hStdDev := 0.002 } := by
  have hlen2 : ¬(windowC2.length < 2) := by simp [windowC2]
  have hmE : windowC2.map (fun s => s.E) = [(0 : ℝ), 0] := by simp [windowC2, pt0, pt1]
  have hmN : windowC2.map (fun s => s.N) = [(0 : ℝ), 0] := by simp [windowC2, pt0, pt1]
  have hmH : windowC2.map (fun s => s.H) = [(0 : ℝ), 0] := by simp [windowC2, pt0, pt1]
  simp only [StatisticsCalculator.analyzeDataStats, if_neg hlen2, hmE, hmN, hmH,
    stddev_zero_zero]
  norm_num

/-- Discontinuity threshold of the C2 window: 0.016 / 3 m. -/
theorem windowC2_threshold :
    StatisticsCalculator.calculateDiscontinuityThreshold windowC2
      (StationCharacteristicsInferrer.detectSolutionType windowC2) = 0.016 / 3 := by
  have hlen2 : ¬(windowC2.length < 2) := by simp [windowC2]
  rw [windowC2_static]
  simp only [StatisticsCalculator.calculateDiscontinuityThreshold, if_neg hlen2,
    windowC2_stats, if_pos rfl]
  norm_num

/-- The C2 main segment has exactly one sample. -/
theorem mainC2_length : mainC2.length = 1 := by
  have h := DataGeneratorFixed.generateRandomData_length st0 pt0 [pt1] 1 none none
  simpa [mainC2, windowC2] using h

/-- The C2 main segment is the singleton of its last sample. -/
theorem mainC2_singleton : mainC2 = [lastC2] := by
  have h1 := mainC2_length
  cases hm : mainC2 with
  | nil => rw [hm] at h1; simp at h1
  | cons a tl =>
    rw [hm] at h1
    simp at h1
    subst h1
    rw [lastC2, hm]
    rfl

/-- Boundary deltas of the C2 scenario: 3 mm east, zero north and height. -/
theorem nextC2_delta : seamlessMaxDelta lastC2 nextC2 = 0.003 := by
  have hE : nextC2.E - lastC2.E = 0.003 := by
    show lastC2.E + 0.003 - lastC2.E = 0.003
    ring
  have hN : nextC2.N - lastC2.N = 0 := by
    show lastC2.N - lastC2.N = 0
    ring
  have hH : nextC2.H - lastC2.H = 0 := by
    show lastC2.H - lastC2.H = 0
    ring
  rw [seamlessMaxDelta, hE, hN, hH]
  norm_num

/-- Step count of the C2 scenario: the 36-step minimum. -/
theorem stepsC2_eq : seamlessSteps 0.003 (0.016 / 3) 1 = 36 := by
  have hceil : (⌈(0.003 : ℝ) / (0.016 / 3) * 4⌉ : ℤ) = 3 := by
    rw [Int.ceil_eq_iff] <;> norm_num
  simp only [seamlessSteps, DataCompatibilityAnalyzer.calculateAdaptiveTransitionSteps]
  rw [if_neg (by norm_num : ¬((12 : ℝ) < (1 : ℕ) / 6)), if_neg (by norm_num), hceil]
  norm_num

/-- The C2 seamless call appends a 36-step transition: the 3 mm boundary
delta exceeds 0.2 x the threshold (about 1.07 mm) even though it is below
the threshold itself (about 5.33 mm). -/
theorem seamlessC2_spelled : seamlessC2 = Except.ok (mainC2 ++ transC2) := by
  have h := DataGeneratorFixed.seamless_decision st0 pt0 [pt1] 0 nextC2 [] none none
  have heq : seamlessC2 =
      (DataGeneratorFixed.generateSeamlessData st0 (pt0 :: [pt1]) (((0 : ℕ) : ℤ) + 1)
        (some (nextC2 :: [])) none none).1 := rfl
  rw [heq, h]
  have hc : (((0 : ℕ) : ℤ) + 1) = (1 : ℤ) := by norm_num
  rw [hc]
  have hw : (pt0 :: [pt1] : List GnssModel) = windowC2 := rfl
  rw [hw]
  have hm : (DataGeneratorFixed.generateRandomData st0 windowC2 1 none none).1 = mainC2 := rfl
  have hs : (DataGeneratorFixed.generateRandomData st0 windowC2 1 none none).2 =
    sAfterMainC2 := rfl
  rw [hm, hs]
  have hlg : mainC2.getLastD default = lastC2 := rfl
  rw [hlg, windowC2_threshold, nextC2_delta, mainC2_length, stepsC2_eq]
  rw [if_pos (by norm_num : (0.016 / 3 : ℝ) * 0.2 < 0.003)]
  have h36 : (⌊(36 : ℝ)⌋ : ℤ) = 36 := by norm_num
  rw [h36]
  rfl

/-- The C2 transition segment has 36 samples. -/
theorem transC2_length : transC2.length = 36 := by
  have ht : transC2 =
      (DataGeneratorFixed.generateTransitionData sAfterMainC2 [lastC2] [nextC2] 36).1 := by
    rw [transC2, mainC2_singleton]
  rw [ht]
  have := DataGeneratorFixed.generateTransitionData_length sAfterMainC2 lastC2 [] nextC2 [] 36
  simpa using this

/-!
C2. The transition decision rule of generateSeamlessData.
-/

/-- C2 counterexample: in the concrete scenario the boundary discontinuity
(3 mm) does NOT exceed the discontinuity threshold of the window
(0.016/3 m, about 5.33 mm), yet generateSeamlessData does not return the
main segment alone: it appends a transition segment, because the code
compares against 0.2 x the threshold, not the threshold itself. -/
theorem claim_C2_counterexample :
    seamlessMaxDelta lastC2 nextC2 ≤
      StatisticsCalculator.calculateDiscontinuityThreshold windowC2
        (StationCharacteristicsInferrer.detectSolutionType windowC2) ∧
    seamlessC2 ≠ Except.ok mainC2 := by
  constructor
  · rw [nextC2_delta, windowC2_threshold]
    norm_num
  · rw [seamlessC2_spelled]
    intro hcontra
    have h1 : mainC2 ++ transC2 = mainC2 := Except.ok.inj hcontra
    have h2 := congrArg List.length h1
    rw [List.length_append, transC2_length] at h2
    omega

/-- C2 amended: for every nonempty sample window, positive count and
nonempty following real segment, generateSeamlessData appends a transition
segment if and only if the maximum per-axis absolute delta between the last
generated and first real sample exceeds 0.2 x the threshold computed by
StatisticsCalculator.calculateDiscontinuityThreshold on the sample window
(the code scales the threshold by 0.2 before the comparison); when the
delta does not exceed the scaled threshold, the returned sequence is
exactly the main generated segment. -/
theorem claim_C2_amended (s : GenState) (x : GnssModel) (xs : List GnssModel) (k : ℕ)
    (r : GnssModel) (rs : List GnssModel) (c : Option StationCharacteristics)
    (w : Option WeatherConditions) :
    (DataGeneratorFixed.generateSeamlessData s (x :: xs) ((k : ℤ) + 1) (some (r :: rs))
        c w).1 =
      (if StatisticsCalculator.calculateDiscontinuityThreshold (x :: xs)
            (StationCharacteristicsInferrer.detectSolutionType (x :: xs)) * 0.2 <
          seamlessMaxDelta
            (((DataGeneratorFixed.generateRandomData s (x :: xs) ((k : ℤ) + 1)
              c w).1).getLastD default) r
      then
        Except.ok ((DataGeneratorFixed.generateRandomData s (x :: xs) ((k : ℤ) + 1) c w).1 ++
          (DataGeneratorFixed.generateTransitionData
            (DataGeneratorFixed.generateRandomData s (x :: xs) ((k : ℤ) + 1) c w).2
            ((DataGeneratorFixed.generateRandomData s (x :: xs) ((k : ℤ) + 1) c w).1)
            (r :: rs)
            ⌊seamlessSteps
              (seamlessMaxDelta
                (((DataGeneratorFixed.generateRandomData s (x :: xs) ((k : ℤ) + 1)
                  c w).1).getLastD default) r)
              (StatisticsCalculator.calculateDiscontinuityThreshold (x :: xs)
                (StationCharacteristicsInferrer.detectSolutionType (x :: xs)))
              ((DataGeneratorFixed.generateRandomData s (x :: xs) ((k : ℤ) + 1)
                c w).1).length⌋).1)
      else
        Except.ok ((DataGeneratorFixed.generateRandomData s (x :: xs) ((k : ℤ) + 1)
          c w).1)) :=
  DataGeneratorFixed.seamless_decision s x xs k r rs c w

/-!
C7. Output timestamps.
-/

/-- The single generated sample of the C2 scenario is stamped ten minutes
after the last input sample (epoch 1200000 ms). -/
theorem lastC2_dateTime : lastC2.dateTime = 1200000 := by
  have h := DataGeneratorFixed.generateRandomData_map_dateTime st0 pt0 [pt1] 1 none none
  have hm : (DataGeneratorFixed.generateRandomData st0 (pt0 :: [pt1]) 1 none none).1 =
      mainC2 := rfl
  rw [hm, mainC2_singleton] at h
  simp [pt1] at h
  rw [show List.range 1 = [0] from rfl] at h
  simp at h
  rw [h]
  norm_num

/-- The seamless C2 result as a list: main segment plus transition. -/
theorem resC7_eq : resC7 = mainC2 ++ transC2 := by
  simp only [resC7, seamlessC2_spelled]

/-- C7 counterexample: in the seamless C2 result, the gap between the first
two output timestamps (the boundary between the main segment and the
appended transition segment) is 60000 ms, not the nominal 600000 ms (ten
minutes): transition timestamps are interpolated between the last generated
and the first real timestamp instead of continuing the ten-minute grid. -/
theorem claim_C7_counterexample :
    (resC7.getD 1 default).dateTime - (resC7.getD 0 default).dateTime = 60000 ∧
    ((60000 : ℝ) ≠ 600000) := by
  refine ⟨?_, by norm_num⟩
  have hmap := DataGeneratorFixed.generateTransitionData_map_dateTime sAfterMainC2 lastC2 []
    nextC2 [] 36
  have ht : transC2 =
      (DataGeneratorFixed.generateTransitionData sAfterMainC2 [lastC2] [nextC2] 36).1 := by
    rw [transC2, mainC2_singleton]
  rw [← ht] at hmap
  have hlen := transC2_length
  cases htc : transC2 with
  | nil => rw [htc] at hlen; simp at hlen
  | cons p ptl =>
    rw [htc] at hmap
    rw [show ((36 : ℤ)).toNat = 36 from rfl] at hmap
    rw [show List.range' 1 36 = 1 :: List.range' 2 35 from rfl] at hmap
    simp only [List.map_cons, List.cons.injEq] at hmap
    obtain ⟨hhead, -⟩ := hmap
    rw [show ([lastC2].getLastD default) = lastC2 from rfl] at hhead
    rw [resC7_eq, mainC2_singleton, htc]
    have hg0 : ((lastC2 :: p :: ptl).getD 0 default) = lastC2 := rfl
    have hg1 : ((lastC2 :: p :: ptl).getD 1 default) = p := rfl
    rw [show ([lastC2] ++ p :: ptl) = lastC2 :: p :: ptl from rfl, hg0, hg1]
    rw [hhead]
    rw [TimestampManager.interpolateTimestamp, lastC2_dateTime]
    rw [show nextC2.dateTime = 3420000 from rfl]
    norm_num

/-- C7 amended: the main segments (generateRandomData and
generateConservativeExtension) carry strictly increasing timestamps at
exactly the nominal ten-minute interval, starting one interval after the
last input (respectively last known) timestamp; the transition segment
appended by generateSeamlessData instead carries timestamps interpolated
between the last generated and the first real timestamp at progress
i / (steps + 1), which is not the ten-minute grid in general. -/
theorem claim_C7_amended :
    (∀ (s : GenState) (x : GnssModel) (xs : List GnssModel) (count : ℤ)
        (c : Option StationCharacteristics) (w : Option WeatherConditions),
      ((DataGeneratorFixed.generateRandomData s (x :: xs) count c w).1).map
          (fun m => m.dateTime) =
        (List.range count.toNat).map (fun i : ℕ =>
          (((x :: xs).getLastD default).dateTime + 10 * 60 * 1000) +
            (i : ℝ) * (10 * 60 * 1000))) ∧
    (∀ (s : GenState) (x : GnssModel) (xs : List GnssModel) (k : ℕ) (p : GnssModel)
        (c : Option StationCharacteristics) (w : Option WeatherConditions),
      ((DataGeneratorFixed.generateConservativeExtension s (x :: xs) ((k : ℤ) + 1) p
          c w).1).map (fun m => m.dateTime) =
        (List.range (k + 1)).map (fun i : ℕ =>
          (p.dateTime + 10 * 60 * 1000) + (i : ℝ) * (10 * 60 * 1000))) ∧
    (∀ (s : GenState) (g : GnssModel) (gs : List GnssModel) (r : GnssModel)
        (rs : List GnssModel) (transitionSteps : ℤ),
      ((DataGeneratorFixed.generateTransitionData s (g :: gs) (r :: rs)
          transitionSteps).1).map (fun m => m.dateTime) =
        (List.range' 1 transitionSteps.toNat).map (fun i : ℕ =>
          TimestampManager.interpolateTimestamp ((g :: gs).getLastD default).dateTime
            r.dateTime ((i : ℝ) / ((transitionSteps : ℝ) + 1)))) :=
  ⟨fun s x xs count c w => DataGeneratorFixed.generateRandomData_map_dateTime s x xs count c w,
   fun s x xs k p c w =>
     DataGeneratorFixed.generateConservativeExtension_map_dateTime s x xs k p c w,
   fun s g gs r rs transitionSteps =>
     DataGeneratorFixed.generateTransitionData_map_dateTime s g gs r rs transitionSteps⟩

/-!
C10. Frame property: heap lemmas.
-/

/-- Writing at one address leaves every other address unchanged. -/
theorem Heap.read_write_ne (h : Heap) (a i : ℕ) (m : GnssModel) (hne : a ≠ i) :
    (h.write a m).read i = h.read i := by
  simp only [Heap.write, Heap.read]
  rw [List.getD_eq_getElem?_getD, List.getD_eq_getElem?_getD, List.getElem?_set_ne hne]

/-- Allocation leaves every pre-existing address unchanged. -/
theorem Heap.alloc_read (h : Heap) (pts : List GnssModel) (i : ℕ)
    (hi : i < h.cells.length) : ((h.alloc pts).2).read i = h.read i := by
  simp only [Heap.alloc, Heap.read]
  rw [List.getD_eq_getElem?_getD, List.getD_eq_getElem?_getD, List.getElem?_append_left hi]

/-- Allocation grows the store by the allocated count. -/
theorem Heap.alloc_length (h : Heap) (pts : List GnssModel) :
    ((h.alloc pts).2).cells.length = h.cells.length + pts.length := by
  simp [Heap.alloc]

/-- Every freshly allocated address lies at or above the old store size. -/
theorem Heap.alloc_addrs_ge (h : Heap) (pts : List GnssModel) :
    ∀ a ∈ (h.alloc pts).1, h.cells.length ≤ a := by
  intro a ha
  simp only [Heap.alloc] at ha
  rw [List.mem_range'] at ha
  obtain ⟨i, _, rfl⟩ := ha
  omega

/-- Writing never changes the store size. -/
theorem Heap.write_length (h : Heap) (a : ℕ) (m : GnssModel) :
    (h.write a m).cells.length = h.cells.length := by
  simp [Heap.write]

/-- Below-n agreement composes when the middle size dominates. -/
theorem Heap.agreesBelow_trans {h1 h2 h3 : Heap} {n m : ℕ}
    (h12 : Heap.agreesBelow h1 h2 n) (h23 : Heap.agreesBelow h2 h3 m) (hnm : n ≤ m) :
    Heap.agreesBelow h1 h3 n := by
  intro i hi
  rw [h23 i (lt_of_lt_of_le hi hnm), h12 i hi]

/-- The stamping loop only writes through its address list: every address
below a bound that all loop addresses respect is unchanged, and the store
size is unchanged. -/
theorem assignLoop_frame (t : ℝ) :
    ∀ (addrs : List ℕ) (idx : ℕ) (h : Heap) (n : ℕ),
      (∀ a ∈ addrs, n ≤ a) →
      (Heap.agreesBelow h (DataGeneratorH.assignLoop t addrs idx h) n ∧
        (DataGeneratorH.assignLoop t addrs idx h).cells.length = h.cells.length) := by
  intro addrs
  induction addrs with
  | nil => exact fun idx h n _ => ⟨fun i _ => rfl, rfl⟩
  | cons a rest ih =>
    intro idx h n hge
    have hrest := ih (idx + 1) (h.write a { h.read a with dateTime := t + idx * 10 * 60 * 1000 })
      n (fun b hb => hge b (List.mem_cons_of_mem a hb))
    refine ⟨?_, ?_⟩
    · intro i hi
      show (DataGeneratorH.assignLoop t rest (idx + 1) _).read i = h.read i
      rw [hrest.1 i hi]
      exact Heap.read_write_ne h a i _ (by
        have := hge a (List.mem_cons_self a rest)
        omega)
    · show (DataGeneratorH.assignLoop t rest (idx + 1) _).cells.length = h.cells.length
      rw [hrest.2, Heap.write_length]

/-- generateRandomDataH writes only to freshly allocated objects. -/
theorem generateRandomDataH_frame (h : Heap) (s : GenState) (sampleAddrs : List ℕ)
    (count : ℤ) (c : Option StationCharacteristics) (w : Option WeatherConditions) :
    Heap.agreesBelow h ((DataGeneratorH.generateRandomDataH h s sampleAddrs count c w).1.2)
        h.cells.length ∧
      h.cells.length ≤
        ((DataGeneratorH.generateRandomDataH h s sampleAddrs count c w).1.2).cells.length := by
  cases hs : sampleAddrs.map h.read with
  | nil =>
    simp only [DataGeneratorH.generateRandomDataH, hs]
    exact ⟨fun i _ => rfl, le_refl _⟩
  | cons x xs =>
    simp only [DataGeneratorH.generateRandomDataH, hs]
    rcases hcore : DataGeneratorFixed.generateRandomDataCore s (x :: xs) count c w
      with ⟨result, s2⟩
    rcases halloc : h.alloc result with ⟨addrs, h1⟩
    have hga : ∀ a ∈ addrs, h.cells.length ≤ a := by
      have := Heap.alloc_addrs_ge h result
      rw [halloc] at this
      exact this
    have h1len : h1.cells.length = h.cells.length + result.length := by
      have := Heap.alloc_length h result
      rw [halloc] at this
      exact this
    have hassign := assignLoop_frame (TimestampManager.getStartTimestamp (x :: xs)) addrs 0 h1
      h.cells.length hga
    refine ⟨?_, ?_⟩
    · intro i hi
      show (DataGeneratorH.assignLoop _ addrs 0 h1).read i = h.read i
      rw [hassign.1 i hi]
      have := Heap.alloc_read h result i hi
      rw [halloc] at this
      exact this
    · show h.cells.length ≤ (DataGeneratorH.assignLoop _ addrs 0 h1).cells.length
      rw [hassign.2, h1len]
      omega

/-- generateConservativeExtensionH writes only to freshly allocated objects. -/
theorem generateConservativeExtensionH_frame (h : Heap) (s : GenState)
    (sampleAddrs : List ℕ) (count : ℤ) (lastKnownAddr : ℕ)
    (c : Option StationCharacteristics) (w : Option WeatherConditions) :
    Heap.agreesBelow h
        ((DataGeneratorH.generateConservativeExtensionH h s sampleAddrs count lastKnownAddr
          c w).1.2) h.cells.length ∧
      h.cells.length ≤
        ((DataGeneratorH.generateConservativeExtensionH h s sampleAddrs count lastKnownAddr
          c w).1.2).cells.length := by
  by_cases hguard : (sampleAddrs.map h.read).length = 0 ∨ count ≤ 0
  · simp only [DataGeneratorH.generateConservativeExtensionH, if_pos hguard]
    exact ⟨fun i _ => rfl, le_refl _⟩
  · simp only [DataGeneratorH.generateConservativeExtensionH, if_neg hguard]
    rcases hcore : DataGeneratorFixed.generateConservativeExtensionCore s
      (sampleAddrs.map h.read) count (h.read lastKnownAddr) c w with ⟨result, s2⟩
    rcases halloc : h.alloc result with ⟨addrs, h1⟩
    have hga : ∀ a ∈ addrs, h.cells.length ≤ a := by
      have := Heap.alloc_addrs_ge h result
      rw [halloc] at this
      exact this
    have h1len : h1.cells.length = h.cells.length + result.length := by
      have := Heap.alloc_length h result
      rw [halloc] at this
      exact this
    have hassign := assignLoop_frame
      (TimestampManager.getExtensionStartTimestamp (h.read lastKnownAddr)) addrs 0 h1
      h.cells.length hga
    refine ⟨?_, ?_⟩
    · intro i hi
      show (DataGeneratorH.assignLoop _ addrs 0 h1).read i = h.read i
      rw [hassign.1 i hi]
      have := Heap.alloc_read h result i hi
      rw [halloc] at this
      exact this
    · show h.cells.length ≤ (DataGeneratorH.assignLoop _ addrs 0 h1).cells.length
      rw [hassign.2, h1len]
      omega

/-- generateTransitionDataH only allocates. -/
theorem generateTransitionDataH_frame (h : Heap) (s : GenState)
    (genAddrs realAddrs : List ℕ) (transitionSteps : ℤ) :
    Heap.agreesBelow h
        ((DataGeneratorH.generateTransitionDataH h s genAddrs realAddrs
          transitionSteps).1.2) h.cells.length ∧
      h.cells.length ≤
        ((DataGeneratorH.generateTransitionDataH h s genAddrs realAddrs
          transitionSteps).1.2).cells.length := by
  simp only [DataGeneratorH.generateTransitionDataH]
  rcases htr : DataGeneratorFixed.generateTransitionData s (genAddrs.map h.read)
    (realAddrs.map h.read) transitionSteps with ⟨transPoints, s2⟩
  rcases halloc : h.alloc transPoints with ⟨addrs, h1⟩
  have h1len : h1.cells.length = h.cells.length + transPoints.length := by
    have := Heap.alloc_length h transPoints
    rw [halloc] at this
    exact this
  refine ⟨?_, ?_⟩
  · intro i hi
    show h1.read i = h.read i
    have := Heap.alloc_read h transPoints i hi
    rw [halloc] at this
    exact this
  · show h.cells.length ≤ h1.cells.length
    omega

/-- generateSeamlessDataH writes only to freshly allocated objects. -/
theorem generateSeamlessDataH_frame (h : Heap) (s : GenState) (sampleAddrs : List ℕ)
    (count : ℤ) (nextRealAddrs : Option (List ℕ))
    (c : Option StationCharacteristics) (w : Option WeatherConditions) :
    Heap.agreesBelow h
      ((DataGeneratorH.generateSeamlessDataH h s sampleAddrs count nextRealAddrs
        c w).1.2) h.cells.length := by
  rcases hmain : DataGeneratorH.generateRandomDataH h s sampleAddrs count c w
    with ⟨⟨mainAddrs, h1⟩, s1⟩
  have hfr1 : Heap.agreesBelow h h1 h.cells.length := by
    have := (generateRandomDataH_frame h s sampleAddrs count c w).1
    rw [hmain] at this
    exact this
  have hfr2 : h.cells.length ≤ h1.cells.length := by
    have := (generateRandomDataH_frame h s sampleAddrs count c w).2
    rw [hmain] at this
    exact this
  have hcomp : ∀ (stp : ℤ) (A B : List ℕ),
      Heap.agreesBelow h ((DataGeneratorH.generateTransitionDataH h1 s1 A B stp).1.2)
        h.cells.length := by
    intro stp A B
    exact Heap.agreesBelow_trans hfr1
      (generateTransitionDataH_frame h1 s1 A B stp).1 hfr2
  simp only [DataGeneratorH.generateSeamlessDataH, hmain]
  cases nextRealAddrs with
  | none => exact hfr1
  | some realAddrs =>
    cases realAddrs with
    | nil => exact hfr1
    | cons firstRealAddr restAddrs =>
      cases hlast : mainAddrs.getLast? with
      | none => simp only [hlast]; exact hfr1
      | some lastAddr =>
        simp only [hlast]
        split_ifs with hc1 hc2
        · exact hcomp _ _ _
        · exact hcomp _ _ _
        · exact hfr1

/-!
C10. The frame theorem.
-/

/-- C10: every generation operation leaves all pre-existing objects (in
particular the input sample window, the following real segment and the last
known point) untouched: in the heap semantics, every address below the
original store size reads the same object after the call as before it, and
analyzeDataCompatibility performs no write at all. Only freshly allocated
output objects are ever written (their timestamp stamping). -/
theorem claim_C10_frame :
    (∀ (h : Heap) (s : GenState) (sampleAddrs : List ℕ) (count : ℤ)
        (c : Option StationCharacteristics) (w : Option WeatherConditions),
      Heap.agreesBelow h
        ((DataGeneratorH.generateRandomDataH h s sampleAddrs count c w).1.2)
        h.cells.length) ∧
    (∀ (h : Heap) (s : GenState) (sampleAddrs : List ℕ) (count : ℤ) (lastKnownAddr : ℕ)
        (c : Option StationCharacteristics) (w : Option WeatherConditions),
      Heap.agreesBelow h
        ((DataGeneratorH.generateConservativeExtensionH h s sampleAddrs count lastKnownAddr
          c w).1.2) h.cells.length) ∧
    (∀ (h : Heap) (s : GenState) (genAddrs realAddrs : List ℕ) (transitionSteps : ℤ),
      Heap.agreesBelow h
        ((DataGeneratorH.generateTransitionDataH h s genAddrs realAddrs
          transitionSteps).1.2) h.cells.length) ∧
    (∀ (h : Heap) (s : GenState) (sampleAddrs : List ℕ) (count : ℤ)
        (nextRealAddrs : Option (List ℕ)) (c : Option StationCharacteristics)
        (w : Option WeatherConditions),
      Heap.agreesBelow h
        ((DataGeneratorH.generateSeamlessDataH h s sampleAddrs count nextRealAddrs
          c w).1.2) h.cells.length) ∧
    (∀ (h : Heap) (genAddrs realAddrs : List ℕ),
      (DataGeneratorH.analyzeDataCompatibilityH h genAddrs realAddrs).2 = h) :=
  ⟨fun h s sa count c w => (generateRandomDataH_frame h s sa count c w).1,
   fun h s sa count la c w => (generateConservativeExtensionH_frame h s sa count la c w).1,
   fun h s ga ra st => (generateTransitionDataH_frame h s ga ra st).1,
   fun h s sa count na c w => generateSeamlessDataH_frame h s sa count na c w,
   fun h ga ra => rfl⟩

/-!
C3. Drift boundedness of the conservative extension: analytic groundwork.
-/

/-- Square-root bound through the square of the bound. -/
theorem sqrt_le_of_le_sq {a b : ℝ} (hb : 0 ≤ b) (h : a ≤ b ^ 2) : Real.sqrt a ≤ b := by
  calc Real.sqrt a ≤ Real.sqrt (b ^ 2) := Real.sqrt_le_sqrt h
  _ = b := Real.sqrt_sq hb

/-- Range of the environment table. -/
theorem environmentFactor_bounds (e : Environment) :
    1 ≤ EnvironmentalFactorCalculator.environmentFactor e ∧
      EnvironmentalFactorCalculator.environmentFactor e ≤ 2 := by
  cases e <;> constructor <;> norm_num [EnvironmentalFactorCalculator.environmentFactor]

/-- Range of the multipath table. -/
theorem multipathFactor_bounds (m : Multipath) :
    1 ≤ EnvironmentalFactorCalculator.multipathFactor m ∧
      EnvironmentalFactorCalculator.multipathFactor m ≤ 1.8 := by
  cases m <;> constructor <;> norm_num [EnvironmentalFactorCalculator.multipathFactor]

/-- Range of the installation quality table. -/
theorem qualityFactor_bounds (q : InstallationQuality) :
    0.8 ≤ EnvironmentalFactorCalculator.qualityFactor q ∧
      EnvironmentalFactorCalculator.qualityFactor q ≤ 1.4 := by
  cases q <;> constructor <;> norm_num [EnvironmentalFactorCalculator.qualityFactor]

/-- Range of the atmospheric table. -/
theorem atmosphericFactor_bounds (a : Atmospheric) :
    1 ≤ EnvironmentalFactorCalculator.atmosphericFactor a ∧
      EnvironmentalFactorCalculator.atmosphericFactor a ≤ 1.6 := by
  cases a <;> constructor <;> norm_num [EnvironmentalFactorCalculator.atmosphericFactor]

/-- Bounds of the environmental noise factor for a station at or below
1000 m: nonnegative and at most 2 x 1.8 x 1.4 x 1.6 x 1.3 = 10.4832. -/
theorem calcEnv_bounds (c : StationCharacteristics) (t : Option ℝ)
    (halt : c.location.altitude ≤ 1000) :
    0 ≤ EnvironmentalFactorCalculator.calculateEnvironmentalNoiseFactor (some c) t ∧
      EnvironmentalFactorCalculator.calculateEnvironmentalNoiseFactor (some c) t ≤
        10.4832 := by
  obtain ⟨he1, he2⟩ := environmentFactor_bounds c.environment
  obtain ⟨hm1, hm2⟩ := multipathFactor_bounds c.multipath
  obtain ⟨hq1, hq2⟩ := qualityFactor_bounds c.installationQuality
  obtain ⟨ha1, ha2⟩ := atmosphericFactor_bounds c.atmospheric
  have hbase0 : 0 ≤ EnvironmentalFactorCalculator.environmentFactor c.environment *
      EnvironmentalFactorCalculator.multipathFactor c.multipath *
      EnvironmentalFactorCalculator.qualityFactor c.installationQuality *
      EnvironmentalFactorCalculator.atmosphericFactor c.atmospheric := by positivity
  have hem : EnvironmentalFactorCalculator.environmentFactor c.environment *
      EnvironmentalFactorCalculator.multipathFactor c.multipath ≤ 3.6 := by nlinarith
  have hem0 : 0 ≤ EnvironmentalFactorCalculator.environmentFactor c.environment *
      EnvironmentalFactorCalculator.multipathFactor c.multipath := by nlinarith
  have hemq : EnvironmentalFactorCalculator.environmentFactor c.environment *
      EnvironmentalFactorCalculator.multipathFactor c.multipath *
      EnvironmentalFactorCalculator.qualityFactor c.installationQuality ≤ 5.04 := by
    nlinarith
  have hemq0 : 0 ≤ EnvironmentalFactorCalculator.environmentFactor c.environment *
      EnvironmentalFactorCalculator.multipathFactor c.multipath *
      EnvironmentalFactorCalculator.qualityFactor c.installationQuality := by nlinarith
  have hbase2 : EnvironmentalFactorCalculator.environmentFactor c.environment *
      EnvironmentalFactorCalculator.multipathFactor c.multipath *
      EnvironmentalFactorCalculator.qualityFactor c.installationQuality *
      EnvironmentalFactorCalculator.atmosphericFactor c.atmospheric ≤ 8.064 := by
    nlinarith
  simp only [EnvironmentalFactorCalculator.calculateEnvironmentalNoiseFactor]
  rw [if_neg (not_lt.mpr halt)]
  cases t with
  | none => exact ⟨hbase0, by linarith⟩
  | some tv =>
    have hs1 := Real.neg_one_le_sin (2 * Real.pi * tv / 24)
    have hs2 := Real.sin_le_one (2 * Real.pi * tv / 24)
    constructor
    · nlinarith
    · nlinarith

/-- Bounds of the seasonal factor: nonnegative and at most 1.2 x 1.15. -/
theorem seasonal_bounds (ms : ℝ) :
    0 ≤ EnvironmentalFactorCalculator.calculateSeasonalFactor ms ∧
      EnvironmentalFactorCalculator.calculateSeasonalFactor ms ≤ 1.38 := by
  simp only [EnvironmentalFactorCalculator.calculateSeasonalFactor]
  have hs1 := Real.neg_one_le_sin (2 * Real.pi * (jsDayOfYear ms - 80) / 365.25)
  have hs2 := Real.sin_le_one (2 * Real.pi * (jsDayOfYear ms - 80) / 365.25)
  have hc1 := Real.neg_one_le_cos (2 * Real.pi * (jsDayOfYear ms - 20) / 365.25)
  have hc2 := Real.cos_le_one (2 * Real.pi * (jsDayOfYear ms - 20) / 365.25)
  constructor
  · nlinarith
  · nlinarith

/-- The synthetic PDOP is always between 1 and 6. -/
theorem pdop_bounds (ms : ℝ) (loc : Option Location) :
    1 ≤ (EnvironmentalFactorCalculator.simulateSatelliteGeometry ms loc).pdop ∧
      (EnvironmentalFactorCalculator.simulateSatelliteGeometry ms loc).pdop ≤ 6 := by
  simp only [EnvironmentalFactorCalculator.simulateSatelliteGeometry]
  constructor
  · exact le_trans (by norm_num : (1 : ℝ) ≤ 1.0) (le_max_left 1.0 _)
  · exact max_le (by norm_num) (le_trans (min_le_left 6.0 _) (by norm_num : (6.0 : ℝ) ≤ 6))

/-- The enhanced stability factor lies in [0, 1]. -/
theorem stability_bounds (index totalCount : ℕ) (isLongExtension : Bool) :
    0 ≤ DataGeneratorFixed.calculateEnhancedStabilityFactor index totalCount
        isLongExtension ∧
      DataGeneratorFixed.calculateEnhancedStabilityFactor index totalCount
        isLongExtension ≤ 1 := by
  simp only [DataGeneratorFixed.calculateEnhancedStabilityFactor]
  cases isLongExtension with
  | false =>
    simp only [Bool.false_eq_true, if_false]
    have h0 : (0 : ℝ) ≤ (index : ℝ) * 0.02 := by positivity
    have h1 : (1 : ℝ) ≤ 1.0 + (index : ℝ) * 0.02 := by linarith
    constructor
    · positivity
    · rw [div_le_one (by linarith)]
      linarith
  | true =>
    simp only [if_true]
    have hbf0 : 0 < 1.0 + (index : ℝ) * 0.005 := by positivity
    have hbf : 1.0 / (1.0 + (index : ℝ) * 0.005) ≤ 1 := by
      rw [div_le_one hbf0]
      have : (0 : ℝ) ≤ (index : ℝ) * 0.005 := by positivity
      linarith
    have htd : Real.exp (-(index : ℝ) / ((totalCount : ℝ) * 2)) ≤ 1 := by
      apply Real.exp_le_one_iff.mpr
      apply div_nonpos_of_nonpos_of_nonneg
      · simp
      · positivity
    have htd0 : 0 ≤ Real.exp (-(index : ℝ) / ((totalCount : ℝ) * 2)) :=
      le_of_lt (Real.exp_pos _)
    constructor
    · have : (0 : ℝ) ≤ 0.2 := by norm_num
      exact le_trans this (le_max_left _ _)
    · apply max_le (by norm_num)
      have hbf0' : 0 ≤ 1.0 / (1.0 + (index : ℝ) * 0.005) := by positivity
      exact mul_le_one₀ hbf htd0 htd

/-- Applying the default weather conditions multiplies the noise by exactly
1.0918 (the cloud-cover and humidity surcharges; no precipitation, standard
pressure, clear visibility). -/
theorem applyWeather_default (x : ℝ) :
    EnvironmentalFactorCalculator.applyWeatherEffects x
        (some EnvironmentalFactorCalculator.getDefaultWeatherConditions) = x * 1.0918 := by
  simp only [EnvironmentalFactorCalculator.applyWeatherEffects,
    EnvironmentalFactorCalculator.getDefaultWeatherConditions]
  norm_num

/-- Effects of one next() call: the state stays nonnegative, the drift
accumulators are untouched, and the returned uniform lies in
[0, (2^32 - 1)/2^32]. -/
theorem next_effects (s : GenState) (h : 0 ≤ s.rng) :
    0 ≤ (RandomNumberGenerator.next s).2.rng ∧
      (RandomNumberGenerator.next s).2.driftE = s.driftE ∧
      (RandomNumberGenerator.next s).2.driftN = s.driftN ∧
      (RandomNumberGenerator.next s).2.driftH = s.driftH ∧
      0 ≤ (RandomNumberGenerator.next s).1 ∧
      (RandomNumberGenerator.next s).1 ≤ 4294967295 / 4294967296 := by
  obtain ⟨h0, h1⟩ := lcgNext_range s.rng h
  have h0r : (0 : ℝ) ≤ (RandomNumberGenerator.lcgNext s.rng : ℝ) := by exact_mod_cast h0
  have h1r : (RandomNumberGenerator.lcgNext s.rng : ℝ) ≤ 4294967295 := by
    have : RandomNumberGenerator.lcgNext s.rng ≤ 4294967295 := by omega
    exact_mod_cast this
  refine ⟨h0, rfl, rfl, rfl, ?_, ?_⟩
  · exact div_nonneg h0r (by norm_num)
  · apply div_le_div_of_nonneg_right h1r (by norm_num)

/-- Effects of one gaussianRandom() call from a nonnegative state: the state
stays nonnegative, the drift accumulators are untouched, and the Box-Muller
value has absolute value at most 7 (the radicand is at most 64 log 2 < 49). -/
theorem gaussian_effects (s : GenState) (h : 0 ≤ s.rng) :
    0 ≤ (RandomNumberGenerator.gaussianRandom s).2.rng ∧
      (RandomNumberGenerator.gaussianRandom s).2.driftE = s.driftE ∧
      (RandomNumberGenerator.gaussianRandom s).2.driftN = s.driftN ∧
      (RandomNumberGenerator.gaussianRandom s).2.driftH = s.driftH ∧
      |(RandomNumberGenerator.gaussianRandom s).1| ≤ 7 := by
  rcases hn1 : RandomNumberGenerator.next s with ⟨r1, s1⟩
  have e1 := next_effects s h
  rw [hn1] at e1
  rcases hn2 : RandomNumberGenerator.next s1 with ⟨v, s2⟩
  have e2 := next_effects s1 e1.1
  rw [hn2] at e2
  simp only [RandomNumberGenerator.gaussianRandom, hn1, hn2]
  refine ⟨e2.1, by rw [e2.2.1, e1.2.1], by rw [e2.2.2.1, e1.2.2.1],
    by rw [e2.2.2.2.1, e1.2.2.2.1], ?_⟩
  have hu : (1 : ℝ) / 4294967296 ≤ 1 - r1 := by
    have := e1.2.2.2.2.2
    linarith [this]
  have hlog : Real.log ((1 : ℝ) / 4294967296) ≤ Real.log (1 - r1) :=
    Real.log_le_log (by norm_num) hu
  have hinv : Real.log ((1 : ℝ) / 4294967296) = -Real.log 4294967296 := by
    rw [one_div, Real.log_inv]
  have h32 : Real.log (4294967296 : ℝ) = 32 * Real.log 2 := by
    rw [show (4294967296 : ℝ) = 2 ^ 32 by norm_num, Real.log_pow]
    push_cast
    ring
  have hl2 : Real.log 2 < 0.6931471808 := Real.log_two_lt_d9
  have hrad : -2 * Real.log (1 - r1) ≤ 49 := by
    rw [hinv, h32] at hlog
    nlinarith
  rw [abs_mul]
  have hsq : |Real.sqrt (-2 * Real.log (1 - r1))| ≤ 7 := by
    rw [abs_of_nonneg (Real.sqrt_nonneg _)]
    exact sqrt_le_of_le_sq (by norm_num) (by nlinarith)
  have hcos : |Real.cos (2 * Real.pi * v)| ≤ 1 := Real.abs_cos_le_one _
  nlinarith [abs_nonneg (Real.sqrt (-2 * Real.log (1 - r1))),
    abs_nonneg (Real.cos (2 * Real.pi * v))]

/-- Effects of one controlled random-walk step: the state stays nonnegative,
the drift accumulators are untouched, and the step is bounded by
1.4 sqrt(variance) (irregular part) + 0.01 |driftE| (regression force)
+ 0.5 sqrt(variance) (occasional step change). -/
theorem walk_effects (variance sf : ℝ) (index totalCount : ℕ) (s : GenState)
    (h : 0 ≤ s.rng) (hsf0 : 0 ≤ sf) (hsf1 : sf ≤ 1) :
    0 ≤ (DataGeneratorFixed.generateControlledRandomWalk variance sf index totalCount s).2.rng ∧
      (DataGeneratorFixed.generateControlledRandomWalk variance sf index totalCount
        s).2.driftE = s.driftE ∧
      (DataGeneratorFixed.generateControlledRandomWalk variance sf index totalCount
        s).2.driftN = s.driftN ∧
      (DataGeneratorFixed.generateControlledRandomWalk variance sf index totalCount
        s).2.driftH = s.driftH ∧
      |(DataGeneratorFixed.generateControlledRandomWalk variance sf index totalCount s).1| ≤
        1.4 * Real.sqrt variance + 0.01 * |s.driftE| + 0.5 * Real.sqrt variance := by
  rcases hg : RandomNumberGenerator.gaussianRandom s with ⟨g, s1⟩
  have eg := gaussian_effects s h
  rw [hg] at eg
  rcases ht : RandomNumberGenerator.next s1 with ⟨t, s2⟩
  have et := next_effects s1 eg.1
  rw [ht] at et
  have hA : (0 : ℝ) ≤ Real.sqrt variance := Real.sqrt_nonneg _
  have hirr : |g * Real.sqrt variance * sf * 0.2| ≤ 1.4 * Real.sqrt variance := by
    rw [abs_mul, abs_mul, abs_mul, abs_of_nonneg hA, abs_of_nonneg hsf0]
    rw [show |(0.2 : ℝ)| = 0.2 by norm_num]
    nlinarith [eg.2.2.2.2, abs_nonneg g,
      mul_nonneg (mul_nonneg (abs_nonneg g) hA) hsf0,
      mul_nonneg hA hsf0]
  have hreg : |-s1.driftE * 0.01| = 0.01 * |s.driftE| := by
    rw [abs_mul, abs_neg, eg.2.1]
    rw [show |(0.01 : ℝ)| = 0.01 by norm_num]
    ring
  by_cases hb : t < 0.04
  · rcases hr : RandomNumberGenerator.next s2 with ⟨r, s3⟩
    have er := next_effects s2 et.1
    rw [hr] at er
    simp only [DataGeneratorFixed.generateControlledRandomWalk,
      DataGeneratorFixed.generateZeroMeanNoise, hg, ht, if_pos hb, hr]
    refine ⟨er.1, by rw [er.2.1, et.2.1, eg.2.1], by rw [er.2.2.1, et.2.2.1, eg.2.2.1],
      by rw [er.2.2.2.1, et.2.2.2.1, eg.2.2.2.1], ?_⟩
    have hstep : |(r - 0.5) * Real.sqrt variance * 1.0| ≤ 0.5 * Real.sqrt variance := by
      rw [abs_mul, abs_mul, abs_of_nonneg hA]
      rw [show |(1.0 : ℝ)| = 1 by norm_num]
      have hr05 : |r - 0.5| ≤ 0.5 := by
        rw [abs_le]
        constructor
        · linarith [er.2.2.2.2.1]
        · have := er.2.2.2.2.2
          rw [show (4294967295 : ℝ) / 4294967296 = 1 - 1 / 4294967296 by norm_num] at this
          linarith
      nlinarith
    calc |g * Real.sqrt variance * sf * 0.2 + -s1.driftE * 0.01 +
        (r - 0.5) * Real.sqrt variance * 1.0| ≤
        |g * Real.sqrt variance * sf * 0.2| + |-s1.driftE * 0.01| +
          |(r - 0.5) * Real.sqrt variance * 1.0| := abs_add_three _ _ _
      _ ≤ 1.4 * Real.sqrt variance + 0.01 * |s.driftE| + 0.5 * Real.sqrt variance := by
        rw [hreg]
        linarith
  · simp only [DataGeneratorFixed.generateControlledRandomWalk,
      DataGeneratorFixed.generateZeroMeanNoise, hg, ht, if_neg hb]
    refine ⟨et.1, by rw [et.2.1, eg.2.1], by rw [et.2.2.1, eg.2.2.1],
      by rw [et.2.2.2.1, eg.2.2.2.1], ?_⟩
    calc |g * Real.sqrt variance * sf * 0.2 + -s1.driftE * 0.01 + 0| ≤
        |g * Real.sqrt variance * sf * 0.2| + |-s1.driftE * 0.01| + |(0 : ℝ)| :=
          abs_add_three _ _ _
      _ ≤ 1.4 * Real.sqrt variance + 0.01 * |s.driftE| + 0.5 * Real.sqrt variance := by
        rw [hreg]
        simp only [abs_zero]
        nlinarith

/-- Effects of one conservative tiny variation: the state stays nonnegative
and the drift accumulators are untouched. -/
theorem tiny_effects (range sf : ℝ) (s : GenState) (h : 0 ≤ s.rng) :
    0 ≤ (DataGeneratorFixed.generateConservativeTinyVariation range sf s).2.rng ∧
      (DataGeneratorFixed.generateConservativeTinyVariation range sf s).2.driftE = s.driftE ∧
      (DataGeneratorFixed.generateConservativeTinyVariation range sf s).2.driftN = s.driftN ∧
      (DataGeneratorFixed.generateConservativeTinyVariation range sf s).2.driftH =
        s.driftH := by
  rcases hg : RandomNumberGenerator.gaussianRandom s with ⟨g, s1⟩
  have eg := gaussian_effects s h
  rw [hg] at eg
  rcases ht : RandomNumberGenerator.next s1 with ⟨t, s2⟩
  have et := next_effects s1 eg.1
  rw [ht] at et
  by_cases hb : t < 0.05
  · rcases hg2 : RandomNumberGenerator.gaussianRandom s2 with ⟨g2, s3⟩
    have eg2 := gaussian_effects s2 et.1
    rw [hg2] at eg2
    simp only [DataGeneratorFixed.generateConservativeTinyVariation,
      DataGeneratorFixed.generateZeroMeanNoise, hg, ht, if_pos hb, hg2]
    exact ⟨eg2.1, by rw [eg2.2.1, et.2.1, eg.2.1], by rw [eg2.2.2.1, et.2.2.1, eg.2.2.1],
      by rw [eg2.2.2.2.1, et.2.2.2.1, eg.2.2.2.1]⟩
  · simp only [DataGeneratorFixed.generateConservativeTinyVariation,
      DataGeneratorFixed.generateZeroMeanNoise, hg, ht, if_neg hb]
    exact ⟨et.1, by rw [et.2.1, eg.2.1], by rw [et.2.2.1, eg.2.2.1],
      by rw [et.2.2.2.1, eg.2.2.2.1]⟩

/-- The state component of applyDriftCorrection: the PRNG state is untouched
and each drift accumulator is overwritten with the (possibly shrunk) offset
of the new position from the reference point. -/
theorem applyDriftCorrection_state (newE newN newH refE refN refH : ℝ) (s : GenState) :
    (DataGeneratorFixed.applyDriftCorrection newE newN newH refE refN refH s).2 =
      { rng := s.rng
        driftE := if DataGeneratorFixed.DRIFT_CORRECTION_THRESHOLD < |newE - refE| then
            (newE - refE) + -(newE - refE) * DataGeneratorFixed.DRIFT_CORRECTION_STRENGTH
          else newE - refE
        driftN := if DataGeneratorFixed.DRIFT_CORRECTION_THRESHOLD < |newN - refN| then
            (newN - refN) + -(newN - refN) * DataGeneratorFixed.DRIFT_CORRECTION_STRENGTH
          else newN - refN
        driftH := if DataGeneratorFixed.DRIFT_CORRECTION_THRESHOLD < |newH - refH| then
            (newH - refH) + -(newH - refH) * DataGeneratorFixed.DRIFT_CORRECTION_STRENGTH
          else newH - refH } := by
  simp only [DataGeneratorFixed.applyDriftCorrection]
  split_ifs <;> rfl

/-- Shrink bound: a value run through the threshold-and-shrink step stays
below c whenever the threshold and the shrunk magnitude do. -/
theorem shrink_le (t str d c : ℝ) (ht : t ≤ c) (h7 : (1 - str) * |d| ≤ c)
    (hstr1 : str ≤ 1) :
    |if t < |d| then d + -d * str else d| ≤ c := by
  split_ifs with h
  · have he : d + -d * str = (1 - str) * d := by ring
    rw [he, abs_mul, abs_of_nonneg (by linarith : (0 : ℝ) ≤ 1 - str)]
    exact h7
  · push_neg at h
    linarith

set_option maxHeartbeats 1600000 in
/-- One conservative extension point preserves the drift invariant, for a
station at or below 1000 m altitude, default weather and variance budgets
within the static caps (0.01 / 0.01 / 0.02). -/
theorem conservPoint_inv (index totalCount : ℕ) (ref : ℝ × ℝ × ℝ)
    (stats : ConservativeStats) (c : StationCharacteristics) (isLong : Bool)
    (lk : GnssModel) (s : GenState) (hs : DriftInv s)
    (halt : c.location.altitude ≤ 1000)
    (hev : stats.eVariance ≤ 0.01) (hnv : stats.nVariance ≤ 0.01)
    (hhv : stats.hVariance ≤ 0.02) :
    DriftInv (DataGeneratorFixed.generateConservativeDataPointWithControl index totalCount
      ref stats c EnvironmentalFactorCalculator.getDefaultWeatherConditions isLong
      lk s).2 := by
  obtain ⟨hrng, hdE, hdN, hdH⟩ := hs
  simp only [DataGeneratorFixed.generateConservativeDataPointWithControl]
  have hbsf := stability_bounds index totalCount isLong
  have henf := calcEnv_bounds c none halt
  have hden : (1 : ℝ) ≤ max 1.0
      (EnvironmentalFactorCalculator.calculateEnvironmentalNoiseFactor (some c) none *
        0.3) :=
    le_trans (by norm_num) (le_max_left 1.0 _)
  have hsf0 : 0 ≤ DataGeneratorFixed.calculateEnhancedStabilityFactor index totalCount
      isLong / max 1.0
        (EnvironmentalFactorCalculator.calculateEnvironmentalNoiseFactor (some c) none *
          0.3) :=
    div_nonneg hbsf.1 (by linarith)
  have hsf1 : DataGeneratorFixed.calculateEnhancedStabilityFactor index totalCount
      isLong / max 1.0
        (EnvironmentalFactorCalculator.calculateEnvironmentalNoiseFactor (some c) none *
          0.3) ≤ 1 := by
    rw [div_le_one (by linarith)]
    linarith [hbsf.2]
  have hseasb := seasonal_bounds (TimestampManager.getExtensionStartTimestamp lk +
    (index : ℝ) * 10 * 60 * 1000)
  have hseas : |EnvironmentalFactorCalculator.calculateSeasonalFactor
      (TimestampManager.getExtensionStartTimestamp lk + (index : ℝ) * 10 * 60 * 1000)| ≤
        1.38 :=
    abs_le.mpr ⟨by linarith [hseasb.1], hseasb.2⟩
  have hp := pdop_bounds (TimestampManager.getExtensionStartTimestamp lk +
    (index : ℝ) * 10 * 60 * 1000) (some c.location)
  have hgeo : |Real.sqrt ((EnvironmentalFactorCalculator.simulateSatelliteGeometry
      (TimestampManager.getExtensionStartTimestamp lk + (index : ℝ) * 10 * 60 * 1000)
      (some c.location)).pdop / 4.0)| ≤ 1.23 := by
    rw [abs_of_nonneg (Real.sqrt_nonneg _)]
    exact sqrt_le_of_le_sq (by norm_num) (by nlinarith [hp.2])
  have htv := calcEnv_bounds c (some (jsTimeOfDay
    (TimestampManager.getExtensionStartTimestamp lk + (index : ℝ) * 10 * 60 * 1000))) halt
  have htvf0 : 0 ≤ EnvironmentalFactorCalculator.calculateEnvironmentalNoiseFactor (some c)
      (some (jsTimeOfDay (TimestampManager.getExtensionStartTimestamp lk +
        (index : ℝ) * 10 * 60 * 1000))) * 0.3 := by
    linarith [htv.1]
  have htvf1 : EnvironmentalFactorCalculator.calculateEnvironmentalNoiseFactor (some c)
      (some (jsTimeOfDay (TimestampManager.getExtensionStartTimestamp lk +
        (index : ℝ) * 10 * 60 * 1000))) * 0.3 ≤ 3.14496 := by
    linarith [htv.2]
  generalize hSF : DataGeneratorFixed.calculateEnhancedStabilityFactor index totalCount
      isLong / max 1.0
        (EnvironmentalFactorCalculator.calculateEnvironmentalNoiseFactor (some c) none *
          0.3) = SF
  rw [hSF] at hsf0 hsf1
  generalize hSEAS : EnvironmentalFactorCalculator.calculateSeasonalFactor
      (TimestampManager.getExtensionStartTimestamp lk + (index : ℝ) * 10 * 60 * 1000) = SEAS
  rw [hSEAS] at hseas
  generalize hGEO : Real.sqrt ((EnvironmentalFactorCalculator.simulateSatelliteGeometry
      (TimestampManager.getExtensionStartTimestamp lk + (index : ℝ) * 10 * 60 * 1000)
      (some c.location)).pdop / 4.0) = GEO
  rw [hGEO] at hgeo
  generalize hTVF : EnvironmentalFactorCalculator.calculateEnvironmentalNoiseFactor (some c)
      (some (jsTimeOfDay (TimestampManager.getExtensionStartTimestamp lk +
        (index : ℝ) * 10 * 60 * 1000))) * 0.3 = TVF
  rw [hTVF] at htvf0 htvf1
  have hsev : Real.sqrt stats.eVariance ≤ 0.1 :=
    sqrt_le_of_le_sq (by norm_num) (by nlinarith)
  have hsnv : Real.sqrt stats.nVariance ≤ 0.1 :=
    sqrt_le_of_le_sq (by norm_num) (by nlinarith)
  have hshv : Real.sqrt stats.hVariance ≤ 0.1415 :=
    sqrt_le_of_le_sq (by norm_num) (by nlinarith)
  rcases h1 : DataGeneratorFixed.generateControlledRandomWalk stats.eVariance SF index
    totalCount s with ⟨eC, s1⟩
  have e1 := walk_effects stats.eVariance SF index totalCount s hrng hsf0 hsf1
  simp only [h1] at e1
  rcases h2 : DataGeneratorFixed.generateControlledRandomWalk stats.nVariance SF index
    totalCount s1 with ⟨nC, s2⟩
  have e2 := walk_effects stats.nVariance SF index totalCount s1 e1.1 hsf0 hsf1
  simp only [h2] at e2
  rw [e1.2.1, e1.2.2.1, e1.2.2.2.1] at e2
  rcases h3 : DataGeneratorFixed.generateControlledRandomWalk stats.hVariance SF index
    totalCount s2 with ⟨hC, s3⟩
  have e3 := walk_effects stats.hVariance SF index totalCount s2 e2.1 hsf0 hsf1
  simp only [h3] at e3
  rw [e2.2.1, e2.2.2.1, e2.2.2.2.1] at e3
  simp only [h1, h2, h3]
  have heC : |eC| ≤ 0.23 := by
    have := e1.2.2.2.2
    have h4' := Real.sqrt_nonneg stats.eVariance
    linarith
  have hnC : |nC| ≤ 0.23 := by
    have := e2.2.2.2.2
    have h4' := Real.sqrt_nonneg stats.nVariance
    linarith
  have hhC : |hC| ≤ 0.309 := by
    have := e3.2.2.2.2
    have h4' := Real.sqrt_nonneg stats.hVariance
    linarith
  have habsdE : |EnvironmentalFactorCalculator.applyWeatherEffects (eC * TVF)
      (some EnvironmentalFactorCalculator.getDefaultWeatherConditions) * SEAS * GEO| ≤
        1.35 := by
    rw [applyWeather_default, abs_mul, abs_mul]
    have hx : |eC * TVF * 1.0918| ≤ 0.79 := by
      rw [abs_mul, abs_mul, abs_of_nonneg htvf0,
        show |(1.0918 : ℝ)| = 1.0918 by norm_num]
      nlinarith [abs_nonneg eC, mul_nonneg (abs_nonneg eC) htvf0,
        mul_nonneg (sub_nonneg.mpr heC) htvf0]
    calc |eC * TVF * 1.0918| * |SEAS| * |GEO| ≤ 0.79 * 1.38 * 1.23 := by
          have h12 : |eC * TVF * 1.0918| * |SEAS| ≤ 0.79 * 1.38 :=
            mul_le_mul hx hseas (abs_nonneg _) (by norm_num)
          exact mul_le_mul h12 hgeo (abs_nonneg _) (by norm_num)
      _ ≤ 1.35 := by norm_num
  have habsdN : |EnvironmentalFactorCalculator.applyWeatherEffects (nC * TVF)
      (some EnvironmentalFactorCalculator.getDefaultWeatherConditions) * SEAS * GEO| ≤
        1.35 := by
    rw [applyWeather_default, abs_mul, abs_mul]
    have hx : |nC * TVF * 1.0918| ≤ 0.79 := by
      rw [abs_mul, abs_mul, abs_of_nonneg htvf0,
        show |(1.0918 : ℝ)| = 1.0918 by norm_num]
      nlinarith [abs_nonneg nC, mul_nonneg (abs_nonneg nC) htvf0,
        mul_nonneg (sub_nonneg.mpr hnC) htvf0]
    calc |nC * TVF * 1.0918| * |SEAS| * |GEO| ≤ 0.79 * 1.38 * 1.23 := by
          have h12 : |nC * TVF * 1.0918| * |SEAS| ≤ 0.79 * 1.38 :=
            mul_le_mul hx hseas (abs_nonneg _) (by norm_num)
          exact mul_le_mul h12 hgeo (abs_nonneg _) (by norm_num)
      _ ≤ 1.35 := by norm_num
  have habsdH : |EnvironmentalFactorCalculator.applyWeatherEffects (hC * TVF)
      (some EnvironmentalFactorCalculator.getDefaultWeatherConditions) * SEAS * GEO *
        1.1| ≤ 1.99 := by
    rw [applyWeather_default, abs_mul, abs_mul, abs_mul]
    have hx : |hC * TVF * 1.0918| ≤ 1.062 := by
      rw [abs_mul, abs_mul, abs_of_nonneg htvf0,
        show |(1.0918 : ℝ)| = 1.0918 by norm_num]
      nlinarith [abs_nonneg hC, mul_nonneg (abs_nonneg hC) htvf0,
        mul_nonneg (sub_nonneg.mpr hhC) htvf0]
    calc |hC * TVF * 1.0918| * |SEAS| * |GEO| * |(1.1 : ℝ)| ≤
        1.062 * 1.38 * 1.23 * 1.1 := by
          have h12 : |hC * TVF * 1.0918| * |SEAS| ≤ 1.062 * 1.38 :=
            mul_le_mul hx hseas (abs_nonneg _) (by norm_num)
          have h123 : |hC * TVF * 1.0918| * |SEAS| * |GEO| ≤ 1.062 * 1.38 * 1.23 :=
            mul_le_mul h12 hgeo (abs_nonneg _) (by norm_num)
          have h11 : |(1.1 : ℝ)| = 1.1 := by norm_num
          rw [h11]
          exact mul_le_mul h123 le_rfl (by norm_num) (by norm_num)
      _ ≤ 1.99 := by norm_num
  generalize hgdE : EnvironmentalFactorCalculator.applyWeatherEffects (eC * TVF)
      (some EnvironmentalFactorCalculator.getDefaultWeatherConditions) * SEAS * GEO = dE
  rw [hgdE] at habsdE
  generalize hgdN : EnvironmentalFactorCalculator.applyWeatherEffects (nC * TVF)
      (some EnvironmentalFactorCalculator.getDefaultWeatherConditions) * SEAS * GEO = dN
  rw [hgdN] at habsdN
  generalize hgdH : EnvironmentalFactorCalculator.applyWeatherEffects (hC * TVF)
      (some EnvironmentalFactorCalculator.getDefaultWeatherConditions) * SEAS * GEO *
        1.1 = dH
  rw [hgdH] at habsdH
  rcases h4 : DataGeneratorFixed.applyDriftCorrection (ref.1 + s3.driftE + dE)
    (ref.2.1 + s3.driftN + dN) (ref.2.2 + s3.driftH + dH) ref.1 ref.2.1 ref.2.2 s3
    with ⟨cp, s4⟩
  have hs4 : s4 =
      { rng := s3.rng
        driftE := if DataGeneratorFixed.DRIFT_CORRECTION_THRESHOLD <
              |ref.1 + s3.driftE + dE - ref.1| then
            (ref.1 + s3.driftE + dE - ref.1) + -(ref.1 + s3.driftE + dE - ref.1) *
              DataGeneratorFixed.DRIFT_CORRECTION_STRENGTH
          else ref.1 + s3.driftE + dE - ref.1
        driftN := if DataGeneratorFixed.DRIFT_CORRECTION_THRESHOLD <
              |ref.2.1 + s3.driftN + dN - ref.2.1| then
            (ref.2.1 + s3.driftN + dN - ref.2.1) + -(ref.2.1 + s3.driftN + dN - ref.2.1) *
              DataGeneratorFixed.DRIFT_CORRECTION_STRENGTH
          else ref.2.1 + s3.driftN + dN - ref.2.1
        driftH := if DataGeneratorFixed.DRIFT_CORRECTION_THRESHOLD <
              |ref.2.2 + s3.driftH + dH - ref.2.2| then
            (ref.2.2 + s3.driftH + dH - ref.2.2) + -(ref.2.2 + s3.driftH + dH - ref.2.2) *
              DataGeneratorFixed.DRIFT_CORRECTION_STRENGTH
          else ref.2.2 + s3.driftH + dH - ref.2.2 } := by
    have h := applyDriftCorrection_state (ref.1 + s3.driftE + dE) (ref.2.1 + s3.driftN + dN)
      (ref.2.2 + s3.driftH + dH) ref.1 ref.2.1 ref.2.2 s3
    rw [h4] at h
    exact h
  simp only [h4]
  have h4rng : 0 ≤ s4.rng := by
    rw [hs4]
    exact e3.1
  have hb4E : |s4.driftE| ≤ 4 := by
    rw [hs4]
    refine shrink_le _ _ _ _ (by norm_num [DataGeneratorFixed.DRIFT_CORRECTION_THRESHOLD])
      ?_ (by norm_num [DataGeneratorFixed.DRIFT_CORRECTION_STRENGTH])
    simp only [DataGeneratorFixed.DRIFT_CORRECTION_STRENGTH]
    have he : ref.1 + s3.driftE + dE - ref.1 = s3.driftE + dE := by ring
    rw [he]
    have h5' := abs_add s3.driftE dE
    have hsd : |s3.driftE| ≤ 4 := by rw [e3.2.1]; exact hdE
    linarith
  have hb4N : |s4.driftN| ≤ 4 := by
    rw [hs4]
    refine shrink_le _ _ _ _ (by norm_num [DataGeneratorFixed.DRIFT_CORRECTION_THRESHOLD])
      ?_ (by norm_num [DataGeneratorFixed.DRIFT_CORRECTION_STRENGTH])
    simp only [DataGeneratorFixed.DRIFT_CORRECTION_STRENGTH]
    have he : ref.2.1 + s3.driftN + dN - ref.2.1 = s3.driftN + dN := by ring
    rw [he]
    have h5' := abs_add s3.driftN dN
    have hsd : |s3.driftN| ≤ 4 := by rw [e3.2.2.1]; exact hdN
    linarith
  have hb4H : |s4.driftH| ≤ 6 := by
    rw [hs4]
    refine shrink_le _ _ _ _ (by norm_num [DataGeneratorFixed.DRIFT_CORRECTION_THRESHOLD])
      ?_ (by norm_num [DataGeneratorFixed.DRIFT_CORRECTION_STRENGTH])
    simp only [DataGeneratorFixed.DRIFT_CORRECTION_STRENGTH]
    have he : ref.2.2 + s3.driftH + dH - ref.2.2 = s3.driftH + dH := by ring
    rw [he]
    have h5' := abs_add s3.driftH dH
    have hsd : |s3.driftH| ≤ 6 := by rw [e3.2.2.2.1]; exact hdH
    linarith
  rcases h5 : DataGeneratorFixed.generateConservativeTinyVariation 0.3 SF s4 with ⟨v5, s5⟩
  have e5 := tiny_effects 0.3 SF s4 h4rng
  simp only [h5] at e5
  rcases h6 : DataGeneratorFixed.generateConservativeTinyVariation 0.05 SF s5 with ⟨v6, s6⟩
  have e6 := tiny_effects 0.05 SF s5 e5.1
  simp only [h6] at e6
  rcases h7 : DataGeneratorFixed.generateConservativeTinyVariation 0.05 SF s6 with ⟨v7, s7⟩
  have e7 := tiny_effects 0.05 SF s6 e6.1
  simp only [h7] at e7
  rcases h8 : DataGeneratorFixed.generateConservativeTinyVariation (stats.eVariance * 0.3)
    SF s7 with ⟨v8, s8⟩
  have e8 := tiny_effects (stats.eVariance * 0.3) SF s7 e7.1
  simp only [h8] at e8
  rcases h9 : DataGeneratorFixed.generateConservativeTinyVariation (stats.nVariance * 0.3)
    SF s8 with ⟨v9, s9⟩
  have e9 := tiny_effects (stats.nVariance * 0.3) SF s8 e8.1
  simp only [h9] at e9
  rcases h10 : DataGeneratorFixed.generateConservativeTinyVariation (stats.hVariance * 0.3)
    SF s9 with ⟨v10, s10⟩
  have e10 := tiny_effects (stats.hVariance * 0.3) SF s9 e9.1
  simp only [h10] at e10
  rcases h11 : DataGeneratorFixed.generateConservativeTinyVariation (stats.eVariance * 0.2)
    SF s10 with ⟨v11, s11⟩
  have e11 := tiny_effects (stats.eVariance * 0.2) SF s10 e10.1
  simp only [h11] at e11
  rcases h12 : DataGeneratorFixed.generateConservativeTinyVariation (stats.nVariance * 0.2)
    SF s11 with ⟨v12, s12⟩
  have e12 := tiny_effects (stats.nVariance * 0.2) SF s11 e11.1
  simp only [h12] at e12
  rcases h13 : DataGeneratorFixed.generateConservativeTinyVariation (stats.hVariance * 0.2)
    SF s12 with ⟨v13, s13⟩
  have e13 := tiny_effects (stats.hVariance * 0.2) SF s12 e12.1
  simp only [h13] at e13
  simp only [h5, h6, h7, h8, h9, h10, h11, h12, h13]
  refine ⟨e13.1, ?_, ?_, ?_⟩
  · rw [e13.2.1, e12.2.1, e11.2.1, e10.2.1, e9.2.1, e8.2.1, e7.2.1, e6.2.1, e5.2.1]
    exact hb4E
  · rw [e13.2.2.1, e12.2.2.1, e11.2.2.1, e10.2.2.1, e9.2.2.1, e8.2.2.1, e7.2.2.1,
      e6.2.2.1, e5.2.2.1]
    exact hb4N
  · rw [e13.2.2.2, e12.2.2.2, e11.2.2.2, e10.2.2.2, e9.2.2.2, e8.2.2.2, e7.2.2.2,
      e6.2.2.2, e5.2.2.2]
    exact hb4H

/-- The conservative extension loop preserves the drift invariant over any
index list. -/
theorem conservLoop_inv (totalCount : ℕ) (ref : ℝ × ℝ × ℝ) (stats : ConservativeStats)
    (c : StationCharacteristics) (isLong : Bool) (lk : GnssModel)
    (halt : c.location.altitude ≤ 1000)
    (hev : stats.eVariance ≤ 0.01) (hnv : stats.nVariance ≤ 0.01)
    (hhv : stats.hVariance ≤ 0.02) :
    ∀ (l : List ℕ) (s : GenState), DriftInv s →
      DriftInv (DataGeneratorFixed.conservLoop totalCount ref stats c
        EnvironmentalFactorCalculator.getDefaultWeatherConditions isLong lk l s).2 := by
  intro l
  induction l with
  | nil =>
    intro s hs
    simpa only [DataGeneratorFixed.conservLoop] using hs
  | cons i rest ih =>
    intro s hs
    rcases hp : DataGeneratorFixed.generateConservativeDataPointWithControl i totalCount
      ref stats c EnvironmentalFactorCalculator.getDefaultWeatherConditions isLong lk s
      with ⟨m, s1⟩
    have hinv1 := conservPoint_inv i totalCount ref stats c isLong lk s hs halt hev hnv hhv
    simp only [hp] at hinv1
    rcases hrest : DataGeneratorFixed.conservLoop totalCount ref stats c
      EnvironmentalFactorCalculator.getDefaultWeatherConditions isLong lk rest s1
      with ⟨tl, s2⟩
    have hinv2 := ih s1 hinv1
    simp only [hrest] at hinv2
    simp only [DataGeneratorFixed.conservLoop, hp, hrest]
    exact hinv2

/-- For a static-classified window the adjusted conservative variances are
capped at 0.01 / 0.01 / 0.02. -/
theorem conservSetupStats_bounds (samples : List GnssModel)
    (h : StationCharacteristicsInferrer.detectSolutionType samples = SolutionType.static) :
    (conservSetupStats samples).eVariance ≤ 0.01 ∧
      (conservSetupStats samples).nVariance ≤ 0.01 ∧
      (conservSetupStats samples).hVariance ≤ 0.02 := by
  simp only [conservSetupStats, h, eq_self_iff_true, if_true]
  exact ⟨min_le_right _ _, min_le_right _ _, min_le_right _ _⟩

/-- The body of generateConservativeExtension with inferred characteristics
and default weather is exactly the conservative loop started from the reset
state (seed 42 + 999 = 1041, zero drift). -/
theorem conservCore_eq (s0 : GenState) (samples : List GnssModel) (count : ℤ)
    (lk : GnssModel) :
    DataGeneratorFixed.generateConservativeExtensionCore s0 samples count lk none none =
      DataGeneratorFixed.conservLoop count.toNat
        (StatisticsCalculator.calculateMedianReference samples)
        (conservSetupStats samples) (conservSetupChar samples)
        EnvironmentalFactorCalculator.getDefaultWeatherConditions
        (decide (432 < count)) lk (List.range count.toNat)
        { rng := 1041, driftE := 0, driftN := 0, driftH := 0 } := by
  simp only [DataGeneratorFixed.generateConservativeExtensionCore, conservSetupStats,
    conservSetupChar, RandomNumberGenerator.resetSeed, Option.getD_none]
  norm_num

/-- C3 amended: the drift boundedness that actually holds. For every
conservative extension call on a window classified as static (with inferred
station characteristics at or below 1000 m altitude and default weather) -
the path on which the static variance caps apply - the cumulative per-axis
drift accumulators stay within a fixed constant multiple of
DRIFT_CORRECTION_THRESHOLD = 0.008 m after every emitted point: at most
500x (4 m) on the east and north axes and 750x (6 m) on the height axis,
for every count (in particular up to 1000 points), so the controlled random
walk cannot escape there. The first conjunct ties the invariant to the
operation: the body of the extension is exactly the conservative loop from
the reset state; the second bounds the drift after every prefix of the
emitted sequence. (Outside these hypotheses no uniform constant exists: see
the C3 counterexample.) -/
theorem claim_C3_drift_bounded (samples : List GnssModel) (count : ℤ) (lk : GnssModel)
    (s0 : GenState)
    (hstatic : StationCharacteristicsInferrer.detectSolutionType samples =
      SolutionType.static)
    (halt : (conservSetupChar samples).location.altitude ≤ 1000) :
    (DataGeneratorFixed.generateConservativeExtensionCore s0 samples count lk none none =
      DataGeneratorFixed.conservLoop count.toNat
        (StatisticsCalculator.calculateMedianReference samples)
        (conservSetupStats samples) (conservSetupChar samples)
        EnvironmentalFactorCalculator.getDefaultWeatherConditions
        (decide (432 < count)) lk (List.range count.toNat)
        { rng := 1041, driftE := 0, driftN := 0, driftH := 0 }) ∧
    ∀ k : ℕ,
      |(DataGeneratorFixed.conservLoop count.toNat
          (StatisticsCalculator.calculateMedianReference samples)
          (conservSetupStats samples) (conservSetupChar samples)
          EnvironmentalFactorCalculator.getDefaultWeatherConditions
          (decide (432 < count)) lk ((List.range count.toNat).take k)
          { rng := 1041, driftE := 0, driftN := 0, driftH := 0 }).2.driftE| ≤
        500 * DataGeneratorFixed.DRIFT_CORRECTION_THRESHOLD ∧
      |(DataGeneratorFixed.conservLoop count.toNat
          (StatisticsCalculator.calculateMedianReference samples)
          (conservSetupStats samples) (conservSetupChar samples)
          EnvironmentalFactorCalculator.getDefaultWeatherConditions
          (decide (432 < count)) lk ((List.range count.toNat).take k)
          { rng := 1041, driftE := 0, driftN := 0, driftH := 0 }).2.driftN| ≤
        500 * DataGeneratorFixed.DRIFT_CORRECTION_THRESHOLD ∧
      |(DataGeneratorFixed.conservLoop count.toNat
          (StatisticsCalculator.calculateMedianReference samples)
          (conservSetupStats samples) (conservSetupChar samples)
          EnvironmentalFactorCalculator.getDefaultWeatherConditions
          (decide (432 < count)) lk ((List.range count.toNat).take k)
          { rng := 1041, driftE := 0, driftN := 0, driftH := 0 }).2.driftH| ≤
        750 * DataGeneratorFixed.DRIFT_CORRECTION_THRESHOLD := by
  obtain ⟨hev, hnv, hhv⟩ := conservSetupStats_bounds samples hstatic
  refine ⟨conservCore_eq s0 samples count lk, ?_⟩
  intro k
  have hstart : DriftInv { rng := 1041, driftE := 0, driftN := 0, driftH := 0 } := by
    refine ⟨by norm_num, ?_, ?_, ?_⟩ <;> simp
  have hinv := conservLoop_inv count.toNat
    (StatisticsCalculator.calculateMedianReference samples)
    (conservSetupStats samples) (conservSetupChar samples)
    (decide (432 < count)) lk halt hev hnv hhv
    ((List.range count.toNat).take k)
    { rng := 1041, driftE := 0, driftN := 0, driftH := 0 } hstart
  obtain ⟨_, hE, hN, hH⟩ := hinv
  have hthr : (500 : ℝ) * DataGeneratorFixed.DRIFT_CORRECTION_THRESHOLD = 4 := by
    norm_num [DataGeneratorFixed.DRIFT_CORRECTION_THRESHOLD]
  have hthr2 : (750 : ℝ) * DataGeneratorFixed.DRIFT_CORRECTION_THRESHOLD = 6 := by
    norm_num [DataGeneratorFixed.DRIFT_CORRECTION_THRESHOLD]
  rw [hthr, hthr2]
  exact ⟨hE, hN, hH⟩

/-- Witness for C3: the concrete two-sample static window at the origin, a
three-point extension; both hypotheses hold and the drift bounds follow. -/
theorem claim_C3_drift_bounded_witness :
    StationCharacteristicsInferrer.detectSolutionType windowC2 = SolutionType.static ∧
    (conservSetupChar windowC2).location.altitude ≤ 1000 ∧
    ∀ k : ℕ,
      |(DataGeneratorFixed.conservLoop (3 : ℤ).toNat
          (StatisticsCalculator.calculateMedianReference windowC2)
          (conservSetupStats windowC2) (conservSetupChar windowC2)
          EnvironmentalFactorCalculator.getDefaultWeatherConditions
          (decide ((432 : ℤ) < 3)) pt1 ((List.range (3 : ℤ).toNat).take k)
          { rng := 1041, driftE := 0, driftN := 0, driftH := 0 }).2.driftE| ≤
        500 * DataGeneratorFixed.DRIFT_CORRECTION_THRESHOLD ∧
      |(DataGeneratorFixed.conservLoop (3 : ℤ).toNat
          (StatisticsCalculator.calculateMedianReference windowC2)
          (conservSetupStats windowC2) (conservSetupChar windowC2)
          EnvironmentalFactorCalculator.getDefaultWeatherConditions
          (decide ((432 : ℤ) < 3)) pt1 ((List.range (3 : ℤ).toNat).take k)
          { rng := 1041, driftE := 0, driftN := 0, driftH := 0 }).2.driftN| ≤
        500 * DataGeneratorFixed.DRIFT_CORRECTION_THRESHOLD ∧
      |(DataGeneratorFixed.conservLoop (3 : ℤ).toNat
          (StatisticsCalculator.calculateMedianReference windowC2)
          (conservSetupStats windowC2) (conservSetupChar windowC2)
          EnvironmentalFactorCalculator.getDefaultWeatherConditions
          (decide ((432 : ℤ) < 3)) pt1 ((List.range (3 : ℤ).toNat).take k)
          { rng := 1041, driftE := 0, driftN := 0, driftH := 0 }).2.driftH| ≤
        750 * DataGeneratorFixed.DRIFT_CORRECTION_THRESHOLD := by
  have h1 : StationCharacteristicsInferrer.detectSolutionType windowC2 =
      SolutionType.static := windowC2_static
  have h2 : (conservSetupChar windowC2).location.altitude ≤ 1000 := by
    simp only [conservSetupChar, StationCharacteristicsInferrer.inferStationCharacteristics,
      windowC2]
    norm_num [pt0]
  exact ⟨h1, h2, (claim_C3_drift_bounded windowC2 3 pt1 st0 h1 h2).2⟩

/-- First LCG step from the conservative seed 1041. -/
theorem lcgC3_1 : RandomNumberGenerator.lcgNext 1041 = 2746674748 := by decide

/-- Second LCG step from the conservative seed 1041. -/
theorem lcgC3_2 : RandomNumberGenerator.lcgNext 2746674748 = 3011572843 := by decide

/-- Third LCG step from the conservative seed 1041. -/
theorem lcgC3_3 : RandomNumberGenerator.lcgNext 3011572843 = 2580610766 := by decide

/-- A left fold of max never drops below its initial value. -/
theorem foldl_max_init_le (l : List ℝ) : ∀ a : ℝ, a ≤ l.foldl max a := by
  induction l with
  | nil => intro a; exact le_refl a
  | cons b t ih =>
    intro a
    rw [List.foldl_cons]
    exact le_trans (le_max_left a b) (ih (max a b))

/-- The median of nine equal values is that value. -/
theorem median_nine (x : ℝ) :
    StatisticsCalculator.calculateMedian [x, x, x, x, x, x, x, x, x] = x := by
  have hperm := List.mergeSort_perm ([x, x, x, x, x, x, x, x, x]) (fun a b => a ≤ b)
  have hsorted : ([x, x, x, x, x, x, x, x, x] : List ℝ).mergeSort (fun a b => a ≤ b) =
      List.replicate 9 x := by
    refine List.eq_replicate.mpr ⟨by rw [hperm.length_eq]; rfl, fun c hc => ?_⟩
    have hmem : c ∈ ([x, x, x, x, x, x, x, x, x] : List ℝ) := hperm.mem_iff.mp hc
    have : c ∈ List.replicate 9 x := by
      rw [show (List.replicate 9 x : List ℝ) = [x, x, x, x, x, x, x, x, x] from rfl]
      exact hmem
    exact List.eq_of_mem_replicate this
  simp only [StatisticsCalculator.calculateMedian, hsorted]
  norm_num [List.getD]

/-- Conservative statistics of the scaled kinematic window: the east median
absolute step is exactly M, the other axes sit on their floors. -/
theorem conservStatsC3 (M : ℝ) (hM : 1 ≤ M) :
    StatisticsCalculator.analyzeConservativeStats (samplesC3 M) =
      { eVariance := M * 0.3, nVariance := 0.0002 * 0.3, hVariance := 0.0005 * 0.3 } := by
  have hM0 : (0 : ℝ) ≤ M := by linarith
  have e1 : |M - 0| = M := by rw [sub_zero, abs_of_nonneg hM0]
  have e2 : |2 * M - M| = M := by rw [show (2 : ℝ) * M - M = M from by ring, abs_of_nonneg hM0]
  have e3 : |3 * M - 2 * M| = M := by
    rw [show (3 : ℝ) * M - 2 * M = M from by ring, abs_of_nonneg hM0]
  have e4 : |4 * M - 3 * M| = M := by
    rw [show (4 : ℝ) * M - 3 * M = M from by ring, abs_of_nonneg hM0]
  have e5 : |5 * M - 4 * M| = M := by
    rw [show (5 : ℝ) * M - 4 * M = M from by ring, abs_of_nonneg hM0]
  have e6 : |6 * M - 5 * M| = M := by
    rw [show (6 : ℝ) * M - 5 * M = M from by ring, abs_of_nonneg hM0]
  have e7 : |7 * M - 6 * M| = M := by
    rw [show (7 : ℝ) * M - 6 * M = M from by ring, abs_of_nonneg hM0]
  have e8 : |8 * M - 7 * M| = M := by
    rw [show (8 : ℝ) * M - 7 * M = M from by ring, abs_of_nonneg hM0]
  have e9 : |9 * M - 8 * M| = M := by
    rw [show (9 : ℝ) * M - 8 * M = M from by ring, abs_of_nonneg hM0]
  have z : |(0 : ℝ) - 0| = 0 := by rw [sub_zero, abs_zero]
  simp only [StatisticsCalculator.analyzeConservativeStats, samplesC3, List.length_cons,
    List.length_nil, List.tail_cons, List.zip_cons_cons, List.zip_nil_right, List.map_cons,
    List.map_nil]
  norm_num [e1, e2, e3, e4, e5, e6, e7, e8, e9, z, abs_of_nonneg hM0, median_nine,
    max_eq_right (by norm_num : (0:ℝ) ≤ 0.0002), max_eq_right (by norm_num : (0:ℝ) ≤ 0.0005)]
  linarith

/-- The scaled window is classified kinematic: its maximum per-step
movement is M, far above the 0.05 m cap. -/
theorem detectC3 (M : ℝ) (hM : 1 ≤ M) :
    StationCharacteristicsInferrer.detectSolutionType (samplesC3 M) =
      SolutionType.kinematic := by
  have hM0 : (0 : ℝ) ≤ M := by linarith
  have hm0 : Real.sqrt (|M - 0| * |M - 0| + |0 - 0| * |0 - 0| + |0 - 0| * |0 - 0|) = M := by
    rw [sub_zero, sub_self, abs_of_nonneg hM0, abs_zero]
    rw [show M * M + 0 * 0 + 0 * 0 = M * M from by ring]
    exact Real.sqrt_mul_self hM0
  simp only [StationCharacteristicsInferrer.detectSolutionType, samplesC3, List.length_cons,
    List.length_nil, List.tail_cons, List.zip_cons_cons, List.zip_nil_right, List.map_cons,
    List.map_nil]
  rw [if_neg (by norm_num)]
  split_ifs with hcond
  · exfalso
    obtain ⟨-, h2⟩ := hcond
    rw [List.foldl_cons] at h2
    have hlt : M < 0.05 :=
      lt_of_le_of_lt (le_trans (le_trans hm0.ge (le_max_right 0 _))
        (foldl_max_init_le _ _)) h2
    linarith
  · rfl

/-- Environmental noise factor of the benign counterexample station, no
time of day: 1.0 x 1.0 x 0.8 x 1.0 = 0.8. -/
theorem envC3_none :
    EnvironmentalFactorCalculator.calculateEnvironmentalNoiseFactor (some charC3) none =
      0.8 := by
  simp only [EnvironmentalFactorCalculator.calculateEnvironmentalNoiseFactor, charC3,
    EnvironmentalFactorCalculator.environmentFactor,
    EnvironmentalFactorCalculator.multipathFactor,
    EnvironmentalFactorCalculator.qualityFactor,
    EnvironmentalFactorCalculator.atmosphericFactor]
  norm_num

/-- Environmental noise factor of the benign counterexample station at
midnight (time of day 0): the diurnal sinusoid vanishes, leaving 0.8. -/
theorem envC3_zero :
    EnvironmentalFactorCalculator.calculateEnvironmentalNoiseFactor (some charC3)
      (some 0) = 0.8 := by
  simp only [EnvironmentalFactorCalculator.calculateEnvironmentalNoiseFactor, charC3,
    EnvironmentalFactorCalculator.environmentFactor,
    EnvironmentalFactorCalculator.multipathFactor,
    EnvironmentalFactorCalculator.qualityFactor,
    EnvironmentalFactorCalculator.atmosphericFactor]
  rw [show 2 * Real.pi * 0 / 24 = 0 from by ring, Real.sin_zero]
  norm_num

/-- Time of day of the counterexample generation instant: exactly midnight. -/
theorem todC3 : jsTimeOfDay 6825600000 = 0 := by
  rw [jsTimeOfDay, jsGetHours, jsGetMinutes]
  rw [show (6825600000 : ℝ) / 3600000 = 1896 from by norm_num]
  rw [show (6825600000 : ℝ) / 60000 = 113760 from by norm_num]
  norm_num

/-- Day of year of the counterexample generation instant: 80. -/
theorem dayC3 : jsDayOfYear 6825600000 = 80 := by
  rw [jsDayOfYear]
  rw [show (6825600000 : ℝ) / 86400000 = 79 from by norm_num]
  norm_num

/-- The seasonal factor at the counterexample instant is at least 1: the
ionospheric sinusoid vanishes at day 80 and the tropospheric cosine is
nonnegative there. -/
theorem seasC3 : 1 ≤ EnvironmentalFactorCalculator.calculateSeasonalFactor 6825600000 := by
  rw [EnvironmentalFactorCalculator.calculateSeasonalFactor, dayC3]
  rw [show 2 * Real.pi * ((80 : ℝ) - 80) / 365.25 = 0 from by ring, Real.sin_zero]
  have hcos : 0 ≤ Real.cos (2 * Real.pi * ((80 : ℝ) - 20) / 365.25) := by
    rw [show 2 * Real.pi * ((80 : ℝ) - 20) / 365.25 = Real.pi * (120 / 365.25) from by ring]
    apply Real.cos_nonneg_of_mem_Icc
    have hp := Real.pi_pos
    have h0 : (0 : ℝ) ≤ Real.pi * (120 / 365.25) := by positivity
    have h1 : Real.pi * (120 / 365.25) ≤ Real.pi * (1 / 2) :=
      mul_le_mul_of_nonneg_left (by norm_num) (le_of_lt hp)
    constructor
    · linarith
    · linarith
  nlinarith

/-- PDOP at the counterexample instant and station: both sinusoids vanish
at midnight and the equatorial latitude adds the flat 0.1, giving 1.6. -/
theorem pdopC3 :
    (EnvironmentalFactorCalculator.simulateSatelliteGeometry 6825600000
      (some charC3.location)).pdop = 1.6 := by
  simp only [EnvironmentalFactorCalculator.simulateSatelliteGeometry, todC3, charC3]
  rw [show 2 * Real.pi * 0 / 12 = 0 from by ring]
  rw [show 2 * Real.pi * 0 / 24 = 0 from by ring]
  rw [Real.sin_zero]
  norm_num

/-- The neutral counterexample weather leaves the noise unchanged. -/
theorem weatherC3 (x : ℝ) :
    EnvironmentalFactorCalculator.applyWeatherEffects x (some wC3) = x := by
  simp only [EnvironmentalFactorCalculator.applyWeatherEffects, wC3]
  norm_num

/-- The first Box-Muller draw from the conservative seed 1041, spelled out. -/
theorem gaussC3 :
    RandomNumberGenerator.gaussianRandom
        { rng := 1041, driftE := 0, driftN := 0, driftH := 0 } =
      (Real.sqrt (-2 * Real.log (1 - (2746674748 : ℝ) / 4294967296)) *
          Real.cos (2 * Real.pi * ((3011572843 : ℝ) / 4294967296)),
        { rng := 3011572843, driftE := 0, driftN := 0, driftH := 0 }) := by
  simp only [RandomNumberGenerator.gaussianRandom, RandomNumberGenerator.next,
    lcgC3_1, lcgC3_2]
  norm_num

/-- The first Box-Muller draw from seed 1041 has magnitude at least 0.226:
the radicand is at least 2 r1 > 1.2769 and the cosine sits 0.2 below zero. -/
theorem gaussC3_bound :
    0.226 ≤ |Real.sqrt (-2 * Real.log (1 - (2746674748 : ℝ) / 4294967296)) *
      Real.cos (2 * Real.pi * ((3011572843 : ℝ) / 4294967296))| := by
  have hq : 2 * Real.pi * ((3011572843 : ℝ) / 4294967296) =
      Real.pi * (864089195 / 2147483648) + Real.pi := by
    have hq0 : (2 : ℝ) * (3011572843 / 4294967296) = 864089195 / 2147483648 + 1 := by
      norm_num
    linear_combination Real.pi * hq0
  have hy0 : (0 : ℝ) ≤ Real.pi * (864089195 / 2147483648) := by positivity
  have hy2 : Real.pi * ((864089195 : ℝ) / 2147483648) ≤ Real.pi * 1 :=
    mul_le_mul_of_nonneg_left (by norm_num) (le_of_lt Real.pi_pos)
  have hcos : 0.2 ≤ Real.cos (Real.pi * ((864089195 : ℝ) / 2147483648)) := by
    have hs := Real.sin_sq_eq_half_sub (Real.pi * ((864089195 : ℝ) / 2147483648) / 2)
    rw [show 2 * (Real.pi * ((864089195 : ℝ) / 2147483648) / 2) =
      Real.pi * ((864089195 : ℝ) / 2147483648) from by ring] at hs
    have hhalf0 : (0 : ℝ) ≤ Real.pi * ((864089195 : ℝ) / 2147483648) / 2 := by positivity
    have hhalfpi : Real.pi * ((864089195 : ℝ) / 2147483648) / 2 ≤ Real.pi := by
      nlinarith [Real.pi_pos]
    have hsin_le : Real.sin (Real.pi * ((864089195 : ℝ) / 2147483648) / 2) ≤
        Real.pi * ((864089195 : ℝ) / 2147483648) / 2 := Real.sin_le hhalf0
    have hsin_nn : 0 ≤ Real.sin (Real.pi * ((864089195 : ℝ) / 2147483648) / 2) :=
      Real.sin_nonneg_of_nonneg_of_le_pi hhalf0 hhalfpi
    have hsq : Real.sin (Real.pi * ((864089195 : ℝ) / 2147483648) / 2) ^ 2 ≤
        (Real.pi * ((864089195 : ℝ) / 2147483648) / 2) ^ 2 := by nlinarith
    have hpisq : Real.pi ^ 2 ≤ 9.8697 := by
      nlinarith [Real.pi_pos, Real.pi_lt_d6]
    have hnum : (9.8697 : ℝ) * ((864089195 : ℝ) / 2147483648) ^ 2 / 4 ≤ 0.3995 := by
      norm_num
    nlinarith [hs, hsq, sq_nonneg ((864089195 : ℝ) / 2147483648)]
  have hcos2 : Real.cos (2 * Real.pi * ((3011572843 : ℝ) / 4294967296)) =
      -Real.cos (Real.pi * ((864089195 : ℝ) / 2147483648)) := by
    rw [hq, Real.cos_add_pi]
  have hr1 : (0 : ℝ) < 1 - (2746674748 : ℝ) / 4294967296 := by norm_num
  have hlog := Real.log_le_sub_one_of_pos hr1
  have hrad : (1.2769 : ℝ) ≤ -2 * Real.log (1 - (2746674748 : ℝ) / 4294967296) := by
    nlinarith
  have hsqrt : (1.13 : ℝ) ≤
      Real.sqrt (-2 * Real.log (1 - (2746674748 : ℝ) / 4294967296)) :=
    (Real.le_sqrt' (by norm_num)).mpr (by nlinarith)
  rw [abs_mul, hcos2, abs_neg,
    abs_of_nonneg (by linarith : (0 : ℝ) ≤
      Real.cos (Real.pi * ((864089195 : ℝ) / 2147483648))),
    abs_of_nonneg (Real.sqrt_nonneg _)]
  calc (0.226 : ℝ) = 1.13 * 0.2 := by norm_num
    _ ≤ Real.sqrt (-2 * Real.log (1 - (2746674748 : ℝ) / 4294967296)) *
        Real.cos (Real.pi * ((864089195 : ℝ) / 2147483648)) :=
      mul_le_mul hsqrt hcos (by norm_num) (le_trans (by norm_num) hsqrt)

/-- The controlled random walk at index 0 from the reset conservative state
with unit stability factor: the gaussian draw from seed 1041 scaled by
sqrt(variance) x 0.2, no step change (the step test draw is about 0.6),
zero regression force, and three LCG advances. -/
theorem walkC3 (V : ℝ) :
    DataGeneratorFixed.generateControlledRandomWalk V 1 0 1
        { rng := 1041, driftE := 0, driftN := 0, driftH := 0 } =
      (Real.sqrt (-2 * Real.log (1 - (2746674748 : ℝ) / 4294967296)) *
          Real.cos (2 * Real.pi * ((3011572843 : ℝ) / 4294967296)) * Real.sqrt V * 0.2,
        { rng := 2580610766, driftE := 0, driftN := 0, driftH := 0 }) := by
  simp only [DataGeneratorFixed.generateControlledRandomWalk,
    DataGeneratorFixed.generateZeroMeanNoise, gaussC3, RandomNumberGenerator.next,
    lcgC3_3]
  split_ifs with h
  · exfalso
    norm_num at h
  · rw [Prod.mk.injEq]
    constructor
    · ring
    · rfl

set_option maxHeartbeats 1600000 in
/-- The first conservative extension point of the counterexample run: with
the unclamped kinematic variance 0.192 M, the drift accumulator left on the
east axis after the single drift correction is at least 0.00209 sqrt(M). -/
theorem pointC3_driftE (M : ℝ) (hM : 8 ≤ M) (ref : ℝ × ℝ × ℝ)
    (stats : ConservativeStats) (hev : stats.eVariance = 0.192 * M) :
    0.00209 * Real.sqrt M ≤
      |(DataGeneratorFixed.generateConservativeDataPointWithControl 0 1 ref stats charC3
          wC3 false lkC3 { rng := 1041, driftE := 0, driftN := 0, driftH := 0 }).2.driftE| := by
  have hsM : (2.82 : ℝ) ≤ Real.sqrt M := (Real.le_sqrt' (by norm_num)).mpr (by nlinarith)
  have hct : TimestampManager.getExtensionStartTimestamp lkC3 +
      ((0 : ℕ) : ℝ) * 10 * 60 * 1000 = 6825600000 := by
    norm_num [TimestampManager.getExtensionStartTimestamp, lkC3]
  have hsf : DataGeneratorFixed.calculateEnhancedStabilityFactor 0 1 false /
      max 1.0 (0.8 * 0.3) = 1 := by
    rw [show DataGeneratorFixed.calculateEnhancedStabilityFactor 0 1 false = 1 from by
      norm_num [DataGeneratorFixed.calculateEnhancedStabilityFactor]]
    rw [max_eq_left (by norm_num : (0.8 : ℝ) * 0.3 ≤ 1.0)]
    norm_num
  simp only [DataGeneratorFixed.generateConservativeDataPointWithControl, hct, todC3,
    envC3_none, envC3_zero, pdopC3, hsf, hev, weatherC3, walkC3]
  rcases h2 : DataGeneratorFixed.generateControlledRandomWalk stats.nVariance 1 0 1
    { rng := 2580610766, driftE := 0, driftN := 0, driftH := 0 } with ⟨nC, s2⟩
  have e2 := walk_effects stats.nVariance 1 0 1
    { rng := 2580610766, driftE := 0, driftN := 0, driftH := 0 }
    (by norm_num) (by norm_num) (by norm_num)
  simp only [h2] at e2
  rcases h3 : DataGeneratorFixed.generateControlledRandomWalk stats.hVariance 1 0 1 s2
    with ⟨hC, s3⟩
  have e3 := walk_effects stats.hVariance 1 0 1 s2 e2.1 (by norm_num) (by norm_num)
  simp only [h3] at e3
  simp only [h2, h3, e3.2.1, e2.2.1, e3.2.2.1, e2.2.2.1, e3.2.2.2.1, e2.2.2.2.1]
  have hGb := gaussC3_bound
  generalize hG : Real.sqrt (-2 * Real.log (1 - (2746674748 : ℝ) / 4294967296)) *
    Real.cos (2 * Real.pi * ((3011572843 : ℝ) / 4294967296)) = G
  rw [hG] at hGb
  have hseasb := seasC3
  generalize hSEAS : EnvironmentalFactorCalculator.calculateSeasonalFactor 6825600000 = SEAS
  rw [hSEAS] at hseasb
  have hgeo : (0.63 : ℝ) ≤ Real.sqrt (1.6 / 4.0) :=
    (Real.le_sqrt' (by norm_num)).mpr (by norm_num)
  have hsqrtV : 0.438 * Real.sqrt M ≤ Real.sqrt (0.192 * M) := by
    rw [Real.sqrt_mul (by norm_num : (0 : ℝ) ≤ 0.192)]
    exact mul_le_mul_of_nonneg_right
      ((Real.le_sqrt' (by norm_num)).mpr (by norm_num)) (Real.sqrt_nonneg M)
  have habs : |G * Real.sqrt (0.192 * M) * 0.2 * (0.8 * 0.3) * SEAS *
      Real.sqrt (1.6 / 4.0)| =
      |G| * Real.sqrt (0.192 * M) * 0.2 * (0.8 * 0.3) * SEAS * Real.sqrt (1.6 / 4.0) := by
    rw [abs_mul, abs_mul, abs_mul, abs_mul, abs_mul]
    rw [abs_of_nonneg (Real.sqrt_nonneg (0.192 * M)),
      abs_of_nonneg (Real.sqrt_nonneg (1.6 / 4.0)),
      abs_of_nonneg (show (0 : ℝ) ≤ SEAS by linarith),
      show |(0.2 : ℝ)| = 0.2 from by norm_num,
      show |(0.8 : ℝ) * 0.3| = 0.8 * 0.3 from by norm_num]
  have c1 : 0.226 * (0.438 * Real.sqrt M) ≤ |G| * Real.sqrt (0.192 * M) :=
    mul_le_mul hGb hsqrtV (by positivity) (abs_nonneg G)
  have c2 : 0.226 * (0.438 * Real.sqrt M) * 0.2 ≤ |G| * Real.sqrt (0.192 * M) * 0.2 :=
    mul_le_mul_of_nonneg_right c1 (by norm_num)
  have c3 : 0.226 * (0.438 * Real.sqrt M) * 0.2 * (0.8 * 0.3) ≤
      |G| * Real.sqrt (0.192 * M) * 0.2 * (0.8 * 0.3) :=
    mul_le_mul_of_nonneg_right c2 (by norm_num)
  have c4 : |G| * Real.sqrt (0.192 * M) * 0.2 * (0.8 * 0.3) ≤
      |G| * Real.sqrt (0.192 * M) * 0.2 * (0.8 * 0.3) * SEAS :=
    le_mul_of_one_le_right (by positivity) hseasb
  have c5 : 0.226 * (0.438 * Real.sqrt M) * 0.2 * (0.8 * 0.3) * 0.63 ≤
      |G| * Real.sqrt (0.192 * M) * 0.2 * (0.8 * 0.3) * SEAS * Real.sqrt (1.6 / 4.0) :=
    mul_le_mul (le_trans c3 c4) hgeo (by norm_num) (by positivity)
  have hdEb : 0.00299 * Real.sqrt M ≤
      |G * Real.sqrt (0.192 * M) * 0.2 * (0.8 * 0.3) * SEAS * Real.sqrt (1.6 / 4.0)| := by
    rw [habs]
    nlinarith [Real.sqrt_nonneg M]
  generalize hdE : G * Real.sqrt (0.192 * M) * 0.2 * (0.8 * 0.3) * SEAS *
    Real.sqrt (1.6 / 4.0) = dE
  rw [hdE] at hdEb
  generalize hdN : nC * (0.8 * 0.3) * SEAS * Real.sqrt (1.6 / 4.0) = dN
  generalize hdH : hC * (0.8 * 0.3) * SEAS * Real.sqrt (1.6 / 4.0) * 1.1 = dH
  rcases h4 : DataGeneratorFixed.applyDriftCorrection (ref.1 + 0 + dE) (ref.2.1 + 0 + dN)
    (ref.2.2 + 0 + dH) ref.1 ref.2.1 ref.2.2 s3 with ⟨cp, s4⟩
  have hstate := applyDriftCorrection_state (ref.1 + 0 + dE) (ref.2.1 + 0 + dN)
    (ref.2.2 + 0 + dH) ref.1 ref.2.1 ref.2.2 s3
  rw [h4] at hstate
  have hcond : DataGeneratorFixed.DRIFT_CORRECTION_THRESHOLD < |ref.1 + 0 + dE - ref.1| := by
    rw [show ref.1 + 0 + dE - ref.1 = dE from by ring]
    simp only [DataGeneratorFixed.DRIFT_CORRECTION_THRESHOLD]
    nlinarith [hdEb, hsM, Real.sqrt_nonneg M, abs_nonneg dE]
  have hdE4 : s4.driftE = dE + -dE * DataGeneratorFixed.DRIFT_CORRECTION_STRENGTH := by
    rw [show s4 = _ from hstate]
    show (if DataGeneratorFixed.DRIFT_CORRECTION_THRESHOLD < |ref.1 + 0 + dE - ref.1| then
        (ref.1 + 0 + dE - ref.1) + -(ref.1 + 0 + dE - ref.1) *
          DataGeneratorFixed.DRIFT_CORRECTION_STRENGTH
      else ref.1 + 0 + dE - ref.1) =
      dE + -dE * DataGeneratorFixed.DRIFT_CORRECTION_STRENGTH
    rw [if_pos hcond]
    ring
  have h4rng : 0 ≤ s4.rng := by
    rw [show s4 = _ from hstate]
    exact e3.1
  have hdrift4 : 0.00209 * Real.sqrt M ≤ |s4.driftE| := by
    have h07 : s4.driftE = 0.7 * dE := by
      rw [hdE4]
      simp only [DataGeneratorFixed.DRIFT_CORRECTION_STRENGTH]
      ring
    rw [h07, abs_mul, show |(0.7 : ℝ)| = 0.7 from by norm_num]
    nlinarith [Real.sqrt_nonneg M]
  simp only [h4]
  rcases h5 : DataGeneratorFixed.generateConservativeTinyVariation 0.3 1 s4 with ⟨v5, s5⟩
  have e5 := tiny_effects 0.3 1 s4 h4rng
  simp only [h5] at e5
  rcases h6 : DataGeneratorFixed.generateConservativeTinyVariation 0.05 1 s5 with ⟨v6, s6⟩
  have e6 := tiny_effects 0.05 1 s5 e5.1
  simp only [h6] at e6
  rcases h7 : DataGeneratorFixed.generateConservativeTinyVariation 0.05 1 s6 with ⟨v7, s7⟩
  have e7 := tiny_effects 0.05 1 s6 e6.1
  simp only [h7] at e7
  rcases h8 : DataGeneratorFixed.generateConservativeTinyVariation (0.192 * M * 0.3) 1 s7
    with ⟨v8, s8⟩
  have e8 := tiny_effects (0.192 * M * 0.3) 1 s7 e7.1
  simp only [h8] at e8
  rcases h9 : DataGeneratorFixed.generateConservativeTinyVariation (stats.nVariance * 0.3)
    1 s8 with ⟨v9, s9⟩
  have e9 := tiny_effects (stats.nVariance * 0.3) 1 s8 e8.1
  simp only [h9] at e9
  rcases h10 : DataGeneratorFixed.generateConservativeTinyVariation (stats.hVariance * 0.3)
    1 s9 with ⟨v10, s10⟩
  have e10 := tiny_effects (stats.hVariance * 0.3) 1 s9 e9.1
  simp only [h10] at e10
  rcases h11 : DataGeneratorFixed.generateConservativeTinyVariation (0.192 * M * 0.2) 1 s10
    with ⟨v11, s11⟩
  have e11 := tiny_effects (0.192 * M * 0.2) 1 s10 e10.1
  simp only [h11] at e11
  rcases h12 : DataGeneratorFixed.generateConservativeTinyVariation (stats.nVariance * 0.2)
    1 s11 with ⟨v12, s12⟩
  have e12 := tiny_effects (stats.nVariance * 0.2) 1 s11 e11.1
  simp only [h12] at e12
  rcases h13 : DataGeneratorFixed.generateConservativeTinyVariation (stats.hVariance * 0.2)
    1 s12 with ⟨v13, s13⟩
  have e13 := tiny_effects (stats.hVariance * 0.2) 1 s12 e12.1
  simp only [h13] at e13
  simp only [h5, h6, h7, h8, h9, h10, h11, h12, h13]
  rw [e13.2.1, e12.2.1, e11.2.1, e10.2.1, e9.2.1, e8.2.1, e7.2.1, e6.2.1, e5.2.1]
  exact hdrift4

/-- The counterexample run end to end: the east drift accumulator left
behind by generateConservativeExtension on the scaled kinematic window
grows like sqrt(M). -/
theorem conservDriftC3 (M : ℝ) (hM : 8 ≤ M) :
    0.00209 * Real.sqrt M ≤
      |(DataGeneratorFixed.generateConservativeExtension st0 (samplesC3 M) 1 lkC3
          (some charC3) (some wC3)).2.driftE| := by
  have hM1 : (1 : ℝ) ≤ M := by linarith
  have hcond : ¬((samplesC3 M).length = 0 ∨ (1 : ℤ) ≤ 0) := by
    norm_num [samplesC3]
  simp only [DataGeneratorFixed.generateConservativeExtension, if_neg hcond]
  simp only [DataGeneratorFixed.generateConservativeExtensionCore, Option.getD_some,
    detectC3 M hM1, conservStatsC3 M hM1, envC3_none,
    if_neg (show ¬(SolutionType.kinematic = SolutionType.static) from by decide),
    DataGeneratorFixed.OSCILLATION_ENHANCEMENT, RandomNumberGenerator.resetSeed, st0,
    show (42 : ℤ) + 999 = 1041 from by norm_num,
    show ((1 : ℤ)).toNat = 1 from rfl,
    show List.range 1 = [0] from rfl,
    show (decide ((432 : ℤ) < 1)) = false from by decide,
    DataGeneratorFixed.conservLoop]
  generalize hREF : StatisticsCalculator.calculateMedianReference (samplesC3 M) = ref
  rcases hpoint : DataGeneratorFixed.generateConservativeDataPointWithControl 0 1 ref
      { eVariance := M * 0.3 * (1.60 * 0.5 * 0.8),
        nVariance := 0.0002 * 0.3 * (1.60 * 0.5 * 0.8),
        hVariance := 0.0005 * 0.3 * (1.60 * 0.5 * 0.8) } charC3 wC3 false lkC3
      { rng := 1041, driftE := 0, driftN := 0, driftH := 0 } with ⟨m1, st1⟩
  have hpt := pointC3_driftE M hM ref
    { eVariance := M * 0.3 * (1.60 * 0.5 * 0.8),
      nVariance := 0.0002 * 0.3 * (1.60 * 0.5 * 0.8),
      hVariance := 0.0005 * 0.3 * (1.60 * 0.5 * 0.8) } (by ring_nf)
  rw [hpoint] at hpt
  simp only [hpoint]
  exact hpt

/-- No uniform drift constant exists across synthesis calls: for every
constant C there is a kinematic sample window (the scaled window
samplesC3 M) on which a single conservative extension call leaves an east
drift accumulator exceeding C x DRIFT_CORRECTION_THRESHOLD after its first
emitted point - the kinematic path applies no cap to the conservative
variances, so the per-step drift grows with the window dispersion without
bound. -/
theorem conservDrift_unbounded :
    ∀ C : ℝ, ∃ M : ℝ, 1 ≤ M ∧
      C * DataGeneratorFixed.DRIFT_CORRECTION_THRESHOLD <
        |(DataGeneratorFixed.generateConservativeExtension st0 (samplesC3 M) 1 lkC3
            (some charC3) (some wC3)).2.driftE| := by
  intro C
  refine ⟨16 * C ^ 2 + 8, by nlinarith [sq_nonneg C], ?_⟩
  have hM : (8 : ℝ) ≤ 16 * C ^ 2 + 8 := by nlinarith [sq_nonneg C]
  have hmain := conservDriftC3 (16 * C ^ 2 + 8) hM
  by_cases hC : C ≤ 0
  · have hs : (2.82 : ℝ) ≤ Real.sqrt (16 * C ^ 2 + 8) :=
      (Real.le_sqrt' (by norm_num)).mpr (by nlinarith [sq_nonneg C])
    simp only [DataGeneratorFixed.DRIFT_CORRECTION_THRESHOLD]
    nlinarith [hmain, hs, hC]
  · push_neg at hC
    have h4C : 4 * C < Real.sqrt (16 * C ^ 2 + 8) :=
      (Real.lt_sqrt (by positivity : (0 : ℝ) ≤ 4 * C)).mpr (by nlinarith)
    simp only [DataGeneratorFixed.DRIFT_CORRECTION_THRESHOLD]
    nlinarith [hmain, h4C, hC]

/-- C3 counterexample: the claim - every synthesis call keeps the
cumulative per-axis drift below a small constant multiple of
DRIFT_CORRECTION_THRESHOLD - fails on a concrete input. On the kinematic
window with 20 000 000 m east steps (conservative variance unclamped on the
kinematic path), a single conservative extension call leaves an east drift
accumulator above 1000 x DRIFT_CORRECTION_THRESHOLD (8 m) after its first
and only emitted point. -/
theorem claim_C3_counterexample :
    1000 * DataGeneratorFixed.DRIFT_CORRECTION_THRESHOLD <
      |(DataGeneratorFixed.generateConservativeExtension st0 (samplesC3 20000000) 1 lkC3
          (some charC3) (some wC3)).2.driftE| := by
  have hmain := conservDriftC3 20000000 (by norm_num)
  have hs : (4472 : ℝ) ≤ Real.sqrt 20000000 :=
    (Real.le_sqrt' (by norm_num)).mpr (by norm_num)
  simp only [DataGeneratorFixed.DRIFT_CORRECTION_THRESHOLD]
  nlinarith [hmain, hs]
